import Mathlib

/-!
# Profile sets (`engine/sim/sc_profileset.hpp`)

A shallow embedding of the value types and the orchestrator interface of the
profile-set engine, followed by theorems about them.

Conventions of the embedding

* A C++ `double` is a rational number (`ℚ`).  The header only stores, copies and
  compares doubles; NaN, infinities and rounding are outside the model.
* `size_t` / `unsigned` values are natural numbers; the header performs no
  arithmetic on them.
* A member function that mutates `*this` is a function returning the new object;
  a `const` member function is a function of the object alone.
* An overloaded getter/setter pair `f() const` / `f( v )` becomes `f` and `set_f`.
* `std::unique_ptr<T>` is `Option T`; `std::vector<T>` is `List T`;
  `std::array<T, N>` is `Mathlib.Vector T N`.
-/

namespace profileset

/-! ## Enumerations of `sc_enums.hpp` -/

/-- Modelled from the spec: `scale_metric_e` is declared in `sc_enums.hpp`, which is
not among the sources.  The spec describes it as "enumerated, includes a "none"
sentinel"; every member other than `SCALE_METRIC_NONE` is kept as a numbered
member. -/
inductive scale_metric_e where
  | SCALE_METRIC_NONE
  | SCALE_METRIC_OTHER (k : Nat)
  deriving DecidableEq, Repr

/-- Modelled from the spec: `race_e` is declared in `sc_enums.hpp`, which is not among
the sources.  Only the member `RACE_NONE` is named by the header; every other
member is kept as a numbered member. -/
inductive race_e where
  | RACE_NONE
  | RACE_OTHER (k : Nat)
  deriving DecidableEq, Repr

/-! ## `statistical_data_t` and `profile_result_t` -/

/-- The aggregate `statistical_data_t`, fields in declaration order. -/
structure statistical_data_t where
  min : ℚ
  first_quartile : ℚ
  median : ℚ
  mean : ℚ
  third_quartile : ℚ
  max : ℚ
  std_dev : ℚ
  deriving DecidableEq, Repr

/-- The private members of `profile_result_t`, in declaration order. -/
structure profile_result_t where
  m_metric : scale_metric_e
  m_mean : ℚ
  m_median : ℚ
  m_min : ℚ
  m_max : ℚ
  m_1stquartile : ℚ
  m_3rdquartile : ℚ
  m_stddev : ℚ
  m_iterations : Nat
  deriving DecidableEq, Repr

namespace profile_result_t

/-- The constructor `profile_result_t()`. -/
def mk_default : profile_result_t :=
  { m_metric := scale_metric_e.SCALE_METRIC_NONE, m_mean := 0, m_median := 0, m_min := 0,
    m_max := 0, m_1stquartile := 0, m_3rdquartile := 0, m_stddev := 0, m_iterations := 0 }

/-- The constructor `profile_result_t( scale_metric_e m )`. -/
def mk_metric (m : scale_metric_e) : profile_result_t :=
  { m_metric := m, m_mean := 0, m_median := 0, m_min := 0,
    m_max := 0, m_1stquartile := 0, m_3rdquartile := 0, m_stddev := 0, m_iterations := 0 }

def metric (r : profile_result_t) : scale_metric_e := r.m_metric

def mean (r : profile_result_t) : ℚ := r.m_mean

def set_mean (r : profile_result_t) (v : ℚ) : profile_result_t := { r with m_mean := v }

def median (r : profile_result_t) : ℚ := r.m_median

def set_median (r : profile_result_t) (v : ℚ) : profile_result_t := { r with m_median := v }

def min (r : profile_result_t) : ℚ := r.m_min

def set_min (r : profile_result_t) (v : ℚ) : profile_result_t := { r with m_min := v }

def max (r : profile_result_t) : ℚ := r.m_max

def set_max (r : profile_result_t) (v : ℚ) : profile_result_t := { r with m_max := v }

def first_quartile (r : profile_result_t) : ℚ := r.m_1stquartile

def set_first_quartile (r : profile_result_t) (v : ℚ) : profile_result_t :=
  { r with m_1stquartile := v }

def third_quartile (r : profile_result_t) : ℚ := r.m_3rdquartile

def set_third_quartile (r : profile_result_t) (v : ℚ) : profile_result_t :=
  { r with m_3rdquartile := v }

def stddev (r : profile_result_t) : ℚ := r.m_stddev

def set_stddev (r : profile_result_t) (v : ℚ) : profile_result_t := { r with m_stddev := v }

def iterations (r : profile_result_t) : Nat := r.m_iterations

def set_iterations (r : profile_result_t) (i : Nat) : profile_result_t :=
  { r with m_iterations := i }

/-- The member `statistical_data() const`: the braced list
`{ m_min, m_1stquartile, m_median, m_mean, m_3rdquartile, m_max, m_stddev }`
initialises the fields of `statistical_data_t` in declaration order. -/
def statistical_data (r : profile_result_t) : statistical_data_t :=
  { min := r.m_min, first_quartile := r.m_1stquartile, median := r.m_median,
    mean := r.m_mean, third_quartile := r.m_3rdquartile, max := r.m_max,
    std_dev := r.m_stddev }

/-- One call of a fluent setter of `profile_result_t`, with its argument. -/
inductive setter_call where
  | mean (v : ℚ)
  | median (v : ℚ)
  | min (v : ℚ)
  | max (v : ℚ)
  | first_quartile (v : ℚ)
  | third_quartile (v : ℚ)
  | stddev (v : ℚ)
  | iterations (i : Nat)
  deriving DecidableEq, Repr

/-- The effect of one setter call on the object it is called on. -/
def call (r : profile_result_t) : setter_call → profile_result_t
  | .mean v => r.set_mean v
  | .median v => r.set_median v
  | .min v => r.set_min v
  | .max v => r.set_max v
  | .first_quartile v => r.set_first_quartile v
  | .third_quartile v => r.set_third_quartile v
  | .stddev v => r.set_stddev v
  | .iterations i => r.set_iterations i

/-- A chain `r.f1( v1 ).f2( v2 )...` of setter calls, applied left to right. -/
def chain (r : profile_result_t) (cs : List setter_call) : profile_result_t :=
  cs.foldl call r

/-- The values reachable through the public operations: a constructor followed by
a chain of setter calls. -/
def reachable (r : profile_result_t) : Prop :=
  ∃ cs : List setter_call,
    r = chain mk_default cs ∨ ∃ m : scale_metric_e, r = chain (mk_metric m) cs

/-- The condition under which one setter call keeps the stored values ordered:
the written value stays between the stored neighbours of its field, and a written
standard deviation is not negative.  The setters themselves check nothing. -/
def keeps_order (r : profile_result_t) : setter_call → Prop
  | .mean _ => True
  | .iterations _ => True
  | .min v => v ≤ r.m_1stquartile
  | .first_quartile v => r.m_min ≤ v ∧ v ≤ r.m_median
  | .median v => r.m_1stquartile ≤ v ∧ v ≤ r.m_3rdquartile
  | .third_quartile v => r.m_median ≤ v ∧ v ≤ r.m_max
  | .max v => r.m_3rdquartile ≤ v
  | .stddev v => 0 ≤ v

/-- Every call of the chain keeps the order at the moment it is made. -/
def chain_keeps_order : profile_result_t → List setter_call → Prop
  | _, [] => True
  | r, c :: cs => keeps_order r c ∧ chain_keeps_order (call r c) cs

end profile_result_t

/-- The invariant the spec states for a summary:
`min ≤ q1 ≤ median ≤ q3 ≤ max` and `stddev ≥ 0`. -/
def statistical_data_t.ordered (d : statistical_data_t) : Prop :=
  d.min ≤ d.first_quartile ∧ d.first_quartile ≤ d.median ∧ d.median ≤ d.third_quartile ∧
    d.third_quartile ≤ d.max ∧ 0 ≤ d.std_dev

/-! ## `collect` -/

/-- Modelled from the spec: `extended_sample_data_t` is only forward-declared in the
header.  The spec describes the argument of `collect` as "a raw sample
distribution (ordered sequence of real numbers accumulated during one simulated
metric across iterations)". -/
structure extended_sample_data_t where
  data : List ℚ
  deriving DecidableEq, Repr

/-- Modelled from the spec: the least sample (`0` when there is none). -/
def sample_min : List ℚ → ℚ
  | [] => 0
  | x :: xs => xs.foldl Min.min x

/-- Modelled from the spec: the greatest sample (`0` when there is none). -/
def sample_max : List ℚ → ℚ
  | [] => 0
  | x :: xs => xs.foldl Max.max x

/-- Modelled from the spec: the arithmetic mean of the samples. -/
def sample_mean (xs : List ℚ) : ℚ := xs.sum / xs.length

/-- Modelled from the spec: the population variance of the samples, the mean squared
deviation from the arithmetic mean; the population standard deviation is its
square root. -/
def sample_variance (xs : List ℚ) : ℚ :=
  (xs.map fun x => (x - sample_mean xs) ^ 2).sum / xs.length

/-- Modelled from the spec: the value of a sorted sample at the fractional rank `h`,
interpolated linearly between the order statistics at the ranks `⌊h⌋` and
`⌊h⌋ + 1` (the latter capped at the last rank). -/
def interpolate (sorted : List ℚ) (h : ℚ) : ℚ :=
  sorted.getD ⌊h⌋.toNat 0 +
    (h - (⌊h⌋.toNat : ℚ)) *
      (sorted.getD (Nat.min (⌊h⌋.toNat + 1) (sorted.length - 1)) 0 - sorted.getD ⌊h⌋.toNat 0)

/-- Modelled from the spec: the quantile at `p` of a sorted sample of `n` values, "via
linear interpolation on the sorted sample order": the value at the fractional
rank `p * (n - 1)`. -/
def percentile (sorted : List ℚ) (p : ℚ) : ℚ :=
  interpolate sorted (p * ((sorted.length : ℚ) - 1))

/-- Modelled from the spec: `collect` is declared in the header and defined in a file
that is not among the sources.  Spec, section 4.1: "quartiles computed via linear
interpolation on the sorted sample order; mean is the arithmetic mean; stddev is
the population standard deviation of the sample.  Degenerate input (zero or one
sample) yields all fields equal to that single value (or zero) and stddev = 0".
The empty distribution is the all-zero summary; every other distribution, the
single-sample one included, goes through the general formulas.  The square root
is not a rational function and is taken as the parameter `sqrt`.  The result is a
plain summary: the spec gives `collect` no failure outcome. -/
def collect (sqrt : ℚ → ℚ) (c : extended_sample_data_t) : statistical_data_t :=
  if c.data = [] then
    { min := 0, first_quartile := 0, median := 0, mean := 0, third_quartile := 0, max := 0,
      std_dev := 0 }
  else
    let sorted := c.data.insertionSort (· ≤ ·)
    { min := sample_min c.data
      first_quartile := percentile sorted (1 / 4)
      median := percentile sorted (1 / 2)
      mean := sample_mean c.data
      third_quartile := percentile sorted (3 / 4)
      max := sample_max c.data
      std_dev := sqrt (sample_variance c.data) }

/-! ## The output snapshot -/

/-- The private members of `profile_output_data_item_t`, in declaration order.
`MAX_GEM_SLOTS` is a constant of `sc_enums.hpp`, which is not among the sources,
and is a parameter.  `m_slot_name` is a `const char*`, `none` being `nullptr`. -/
structure profile_output_data_item_t (MAX_GEM_SLOTS : Nat) where
  m_slot_name : Option String
  m_item_id : Nat
  m_item_level : Nat
  m_bonus_id : List Int
  m_enchant_id : Nat
  m_gem_id : Mathlib.Vector Int MAX_GEM_SLOTS
  m_relic_data : Mathlib.Vector (List Nat) MAX_GEM_SLOTS
  m_relic_ilevel : Mathlib.Vector Nat MAX_GEM_SLOTS
  m_relic_bonus_ilevel : Mathlib.Vector Nat MAX_GEM_SLOTS
  deriving DecidableEq

namespace profile_output_data_item_t

variable {MAX_GEM_SLOTS : Nat}

/-- The constructor `profile_output_data_item_t()`.  Its initialiser list names
`m_slot_name`, `m_item_id`, `m_item_level` and `m_enchant_id`; `m_bonus_id` and the
vectors of `m_relic_data` are default-constructed (empty); the arrays of plain
numbers are left uninitialised, and what they hold is the parameters `gem_id0`,
`relic_ilevel0` and `relic_bonus_ilevel0`. -/
def mk_default (gem_id0 : Mathlib.Vector Int MAX_GEM_SLOTS)
    (relic_ilevel0 relic_bonus_ilevel0 : Mathlib.Vector Nat MAX_GEM_SLOTS) :
    profile_output_data_item_t MAX_GEM_SLOTS :=
  { m_slot_name := none, m_item_id := 0, m_item_level := 0, m_bonus_id := [],
    m_enchant_id := 0, m_gem_id := gem_id0,
    m_relic_data := Mathlib.Vector.replicate MAX_GEM_SLOTS [],
    m_relic_ilevel := relic_ilevel0, m_relic_bonus_ilevel := relic_bonus_ilevel0 }

/-- The constructor `profile_output_data_item_t( slot_str, id, item_level )`.  Its
initialiser list names `m_slot_name`, `m_item_id` and `m_item_level` only;
`m_enchant_id` and the arrays of plain numbers are left uninitialised, and what
they hold is the parameters `enchant_id0`, `gem_id0`, `relic_ilevel0` and
`relic_bonus_ilevel0`. -/
def mk_slot (slot_str : Option String) (id item_level : Nat) (enchant_id0 : Nat)
    (gem_id0 : Mathlib.Vector Int MAX_GEM_SLOTS)
    (relic_ilevel0 relic_bonus_ilevel0 : Mathlib.Vector Nat MAX_GEM_SLOTS) :
    profile_output_data_item_t MAX_GEM_SLOTS :=
  { m_slot_name := slot_str, m_item_id := id, m_item_level := item_level, m_bonus_id := [],
    m_enchant_id := enchant_id0, m_gem_id := gem_id0,
    m_relic_data := Mathlib.Vector.replicate MAX_GEM_SLOTS [],
    m_relic_ilevel := relic_ilevel0, m_relic_bonus_ilevel := relic_bonus_ilevel0 }

def slot_name (i : profile_output_data_item_t MAX_GEM_SLOTS) : Option String := i.m_slot_name

def set_slot_name (i : profile_output_data_item_t MAX_GEM_SLOTS) (v : Option String) :
    profile_output_data_item_t MAX_GEM_SLOTS := { i with m_slot_name := v }

def item_id (i : profile_output_data_item_t MAX_GEM_SLOTS) : Nat := i.m_item_id

def set_item_id (i : profile_output_data_item_t MAX_GEM_SLOTS) (v : Nat) :
    profile_output_data_item_t MAX_GEM_SLOTS := { i with m_item_id := v }

def item_level (i : profile_output_data_item_t MAX_GEM_SLOTS) : Nat := i.m_item_level

def set_item_level (i : profile_output_data_item_t MAX_GEM_SLOTS) (v : Nat) :
    profile_output_data_item_t MAX_GEM_SLOTS := { i with m_item_level := v }

def bonus_id (i : profile_output_data_item_t MAX_GEM_SLOTS) : List Int := i.m_bonus_id

def set_bonus_id (i : profile_output_data_item_t MAX_GEM_SLOTS) (v : List Int) :
    profile_output_data_item_t MAX_GEM_SLOTS := { i with m_bonus_id := v }

def enchant_id (i : profile_output_data_item_t MAX_GEM_SLOTS) : Nat := i.m_enchant_id

def set_enchant_id (i : profile_output_data_item_t MAX_GEM_SLOTS) (v : Nat) :
    profile_output_data_item_t MAX_GEM_SLOTS := { i with m_enchant_id := v }

def gem_id (i : profile_output_data_item_t MAX_GEM_SLOTS) : Mathlib.Vector Int MAX_GEM_SLOTS :=
  i.m_gem_id

def set_gem_id (i : profile_output_data_item_t MAX_GEM_SLOTS)
    (v : Mathlib.Vector Int MAX_GEM_SLOTS) : profile_output_data_item_t MAX_GEM_SLOTS :=
  { i with m_gem_id := v }

def relic_data (i : profile_output_data_item_t MAX_GEM_SLOTS) :
    Mathlib.Vector (List Nat) MAX_GEM_SLOTS := i.m_relic_data

def set_relic_data (i : profile_output_data_item_t MAX_GEM_SLOTS)
    (v : Mathlib.Vector (List Nat) MAX_GEM_SLOTS) : profile_output_data_item_t MAX_GEM_SLOTS :=
  { i with m_relic_data := v }

def relic_ilevel (i : profile_output_data_item_t MAX_GEM_SLOTS) :
    Mathlib.Vector Nat MAX_GEM_SLOTS := i.m_relic_ilevel

def set_relic_ilevel (i : profile_output_data_item_t MAX_GEM_SLOTS)
    (v : Mathlib.Vector Nat MAX_GEM_SLOTS) : profile_output_data_item_t MAX_GEM_SLOTS :=
  { i with m_relic_ilevel := v }

def relic_bonus_ilevel (i : profile_output_data_item_t MAX_GEM_SLOTS) :
    Mathlib.Vector Nat MAX_GEM_SLOTS := i.m_relic_bonus_ilevel

def set_relic_bonus_ilevel (i : profile_output_data_item_t MAX_GEM_SLOTS)
    (v : Mathlib.Vector Nat MAX_GEM_SLOTS) : profile_output_data_item_t MAX_GEM_SLOTS :=
  { i with m_relic_bonus_ilevel := v }

end profile_output_data_item_t

/-- The private members of `profile_output_data_t`, in declaration order.  A
`talent_data_t*` is kept as the address it holds. -/
structure profile_output_data_t (MAX_GEM_SLOTS : Nat) where
  m_race : race_e
  m_talents : List Nat
  m_artifact : String
  m_crucible : String
  m_gear : List (profile_output_data_item_t MAX_GEM_SLOTS)
  deriving DecidableEq

namespace profile_output_data_t

variable {MAX_GEM_SLOTS : Nat}

/-- The constructor `profile_output_data_t()`: `m_race( RACE_NONE )`, the vectors and
strings default-constructed. -/
def mk_default : profile_output_data_t MAX_GEM_SLOTS :=
  { m_race := race_e.RACE_NONE, m_talents := [], m_artifact := "", m_crucible := "",
    m_gear := [] }

def race (d : profile_output_data_t MAX_GEM_SLOTS) : race_e := d.m_race

def set_race (d : profile_output_data_t MAX_GEM_SLOTS) (v : race_e) :
    profile_output_data_t MAX_GEM_SLOTS := { d with m_race := v }

def talents (d : profile_output_data_t MAX_GEM_SLOTS) : List Nat := d.m_talents

def set_talents (d : profile_output_data_t MAX_GEM_SLOTS) (v : List Nat) :
    profile_output_data_t MAX_GEM_SLOTS := { d with m_talents := v }

def artifact (d : profile_output_data_t MAX_GEM_SLOTS) : String := d.m_artifact

def set_artifact (d : profile_output_data_t MAX_GEM_SLOTS) (v : String) :
    profile_output_data_t MAX_GEM_SLOTS := { d with m_artifact := v }

def crucible (d : profile_output_data_t MAX_GEM_SLOTS) : String := d.m_crucible

def set_crucible (d : profile_output_data_t MAX_GEM_SLOTS) (v : String) :
    profile_output_data_t MAX_GEM_SLOTS := { d with m_crucible := v }

def gear (d : profile_output_data_t MAX_GEM_SLOTS) :
    List (profile_output_data_item_t MAX_GEM_SLOTS) := d.m_gear

def set_gear (d : profile_output_data_t MAX_GEM_SLOTS)
    (v : List (profile_output_data_item_t MAX_GEM_SLOTS)) :
    profile_output_data_t MAX_GEM_SLOTS := { d with m_gear := v }

end profile_output_data_t

/-! ## `profile_set_t` -/

/-- Modelled from the spec: `sim_control_t` is only forward-declared in the header.
The spec describes a variant's options as a "configuration overlay, itself a tree
of key/value overrides"; the model keeps the option strings the configuration was
built from. -/
structure sim_control_t where
  options : List String
  deriving DecidableEq, Repr

/-- The private members of `profile_set_t`, in declaration order.  `m_options` is a
raw pointer, `none` being `nullptr`. -/
structure profile_set_t (MAX_GEM_SLOTS : Nat) where
  m_name : String
  m_options : Option sim_control_t
  m_has_output : Bool
  m_results : List profile_result_t
  m_output_data : Option (profile_output_data_t MAX_GEM_SLOTS)
  deriving DecidableEq

namespace profile_set_t

variable {MAX_GEM_SLOTS : Nat}

/-- Modelled from the spec: the constructor
`profile_set_t( const std::string& name, sim_control_t* opts, bool has_output )` is
declared in the header and defined elsewhere.  Spec, section 3: a variant is
"created during parse (name + raw option text)", its results are "populated during
iterate", and its snapshot is "lazily allocated on first access"; section 8: "a
variant with has_output=false has a null snapshot". -/
def mk_new (name : String) (opts : Option sim_control_t) ( has_output : Bool) :
    profile_set_t MAX_GEM_SLOTS :=
  { m_name := name, m_options := opts, m_has_output := has_output, m_results := [],
    m_output_data := none }

def name (p : profile_set_t MAX_GEM_SLOTS) : String := p.m_name

def has_output (p : profile_set_t MAX_GEM_SLOTS) : Bool := p.m_has_output

def results (p : profile_set_t MAX_GEM_SLOTS) : Nat := p.m_results.length

/-- Modelled from the spec: `result( scale_metric_e ) const` is declared in the header
and defined elsewhere.  Spec, section 3: "lookup by kind returns the stored result
or a zero-valued placeholder for kinds not yet produced (never fails)"; section 9:
the "none" member is "the deterministic placeholder returned by lookups for absent
metrics". -/
def result (p : profile_set_t MAX_GEM_SLOTS) (metric : scale_metric_e) : profile_result_t :=
  match p.m_results.find? (fun r => decide (r.metric = metric)) with
  | some r => r
  | none => profile_result_t.mk_default

/-- The member `output_data()`: when no snapshot is held, one is allocated with the
default constructor and stored; the snapshot held afterwards is returned by
reference.  The result pairs the snapshot referred to with the object after the
call. -/
def output_data (p : profile_set_t MAX_GEM_SLOTS) :
    profile_output_data_t MAX_GEM_SLOTS × profile_set_t MAX_GEM_SLOTS :=
  match p.m_output_data with
  | none =>
      (profile_output_data_t.mk_default,
        { p with m_output_data := some profile_output_data_t.mk_default })
  | some d => (d, p)

/-- A write through the reference returned by `output_data()`, as in
`p.output_data().gear( v )`: the snapshot held after the access is replaced by
`f` of it. -/
def update_output_data (p : profile_set_t MAX_GEM_SLOTS)
    (f : profile_output_data_t MAX_GEM_SLOTS → profile_output_data_t MAX_GEM_SLOTS) :
    profile_set_t MAX_GEM_SLOTS :=
  { p.output_data.2 with m_output_data := some (f p.output_data.1) }

end profile_set_t

/-! ## `profilesets_t` -/

/-- The enumeration `profilesets_t::state`. -/
inductive state where
  | STARTED
  | INITIALIZING
  | RUNNING
  | DONE
  deriving DecidableEq, Repr

/-- The constant `profilesets_t::MAX_CHART_ENTRIES`. -/
def MAX_CHART_ENTRIES : Nat := 500

/-- The data members of `profilesets_t`, in declaration order.  The mutex, the lock,
the condition variable and the thread carry no data of the sequential model and
are left out. -/
structure profilesets_t (MAX_GEM_SLOTS : Nat) where
  m_state : state
  m_profilesets : List (profile_set_t MAX_GEM_SLOTS)
  m_original : Option sim_control_t
  m_insert_index : Int
  m_work_index : Nat
  deriving DecidableEq

namespace profilesets_t

variable {MAX_GEM_SLOTS : Nat}

/-- The constructor `profilesets_t()`: `m_state( STARTED )`, `m_original( nullptr )`,
`m_insert_index( -1 )`, `m_work_index( 0 )`, the vector default-constructed. -/
def mk_default : profilesets_t MAX_GEM_SLOTS :=
  { m_state := state.STARTED, m_profilesets := [], m_original := none, m_insert_index := -1,
    m_work_index := 0 }

def n_profilesets (p : profilesets_t MAX_GEM_SLOTS) : Nat := p.m_profilesets.length

def is_initializing (p : profilesets_t MAX_GEM_SLOTS) : Bool :=
  decide (p.m_state = state.INITIALIZING)

def is_running (p : profilesets_t MAX_GEM_SLOTS) : Bool := decide (p.m_state = state.RUNNING)

def is_done (p : profilesets_t MAX_GEM_SLOTS) : Bool := decide (p.m_state = state.DONE)

end profilesets_t

/-! ## `profilesets_t::parse` -/

/-- Modelled from the spec: one named group of the parse input.  Spec, section 6:
"per variant, a name plus a sequence of option-override strings"; section 3:
`has_output` tells "whether a VariantOutputSnapshot should be captured". -/
structure variant_input where
  name : String
  options : List String
  has_output : Bool
  deriving DecidableEq, Repr

/-- Modelled from the spec: `sim_t` is only forward-declared in the header.  Spec,
section 4.4: parse is "given the baseline configuration and a list of per-variant
raw option strings". -/
structure sim_t where
  baseline : sim_control_t
  variants : List variant_input
  deriving DecidableEq, Repr

namespace profilesets_t

variable {MAX_GEM_SLOTS : Nat}

/-- Modelled from the spec: the part of `parse` that handles one variant.  Spec,
section 4.4: parse "constructs one ProfileVariant per named group, assigning
insertion indices in input order.  Fails ... if: a name is empty, a name
duplicates an existing variant's name (case rules: exact match), or a variant's
option text does not parse under the configuration grammar".  The private member
`create_sim_options` is declared in the header only and is a parameter; `none` is
its `nullptr`.  The insertion index given to the variant is the next value of the
counter `m_insert_index`; it is returned with the new orchestrator. -/
def parse_variant (create_sim_options : sim_control_t → List String → Option sim_control_t)
    (baseline : sim_control_t) (p : profilesets_t MAX_GEM_SLOTS) (v : variant_input) :
    Option (Int × profilesets_t MAX_GEM_SLOTS) :=
  if v.name = "" then none
  else if p.m_profilesets.any (fun q => decide (q.name = v.name)) then none
  else
    match create_sim_options baseline v.options with
    | none => none
    | some opts =>
        some (p.m_insert_index + 1,
          { p with
            m_insert_index := p.m_insert_index + 1
            m_profilesets :=
              p.m_profilesets ++ [profile_set_t.mk_new v.name (some opts) v.has_output] })

/-- Modelled from the spec: the variants of the input handled in input order; the
first failure abandons the walk.  The result lists the insertion indices given,
in input order, with the orchestrator reached. -/
def parse_loop (create_sim_options : sim_control_t → List String → Option sim_control_t)
    (baseline : sim_control_t) :
    profilesets_t MAX_GEM_SLOTS → List variant_input →
      Option (List Int × profilesets_t MAX_GEM_SLOTS)
  | p, [] => some ([], p)
  | p, v :: vs =>
      match parse_variant create_sim_options baseline p v with
      | none => none
      | some (i, p1) =>
          match parse_loop create_sim_options baseline p1 vs with
          | none => none
          | some (is, p2) => some (i :: is, p2)

/-- Modelled from the spec: `bool parse( sim_t* )` is declared in the header and
defined elsewhere.  Spec, section 4.4: parse "fails (without partial mutation)";
"on any failure the whole parse is abandoned — no partially-populated variant
list is left for initialize to consume".  The result pairs the returned flag with
the orchestrator after the call. -/
def parse (create_sim_options : sim_control_t → List String → Option sim_control_t)
    (p : profilesets_t MAX_GEM_SLOTS) (sim : sim_t) : Bool × profilesets_t MAX_GEM_SLOTS :=
  match parse_loop create_sim_options sim.baseline p sim.variants with
  | none => (false, p)
  | some (_, p1) => (true, p1)

/-- Modelled from the spec: the insertion indices `parse` gives to the variants of
the input, in input order (none when the parse fails). -/
def parse_insert_indices
    (create_sim_options : sim_control_t → List String → Option sim_control_t)
    (p : profilesets_t MAX_GEM_SLOTS) (sim : sim_t) : List Int :=
  match parse_loop create_sim_options sim.baseline p sim.variants with
  | none => []
  | some (is, _) => is

/-! ## Ranking and charting -/

/-- Modelled from the spec: the mean of the metric `metric` of the variant at
position `i` of `m_profilesets` (`0` past the end). -/
def mean_at (metric : scale_metric_e) (p : profilesets_t MAX_GEM_SLOTS) (i : Nat) : ℚ :=
  match p.m_profilesets.get? i with
  | some q => (q.result metric).mean
  | none => 0

/-- Modelled from the spec: the order of the ranking.  Spec, section 4.7: "descending
by primary metric mean; ties broken by insertion index, never by name".  A variant
is referred to by its position in `m_profilesets`, which is its insertion
index. -/
def ranks_before (metric : scale_metric_e) (p : profilesets_t MAX_GEM_SLOTS) (i j : Nat) :
    Prop :=
  mean_at metric p j < mean_at metric p i ∨ (mean_at metric p i = mean_at metric p j ∧ i ≤ j)

instance ranks_before_decidable (metric : scale_metric_e) (p : profilesets_t MAX_GEM_SLOTS) :
    DecidableRel (ranks_before metric p) :=
  fun i j => by unfold ranks_before; exact inferInstance

/-- Modelled from the spec: `generate_sorted_profilesets` is declared in the header
and defined elsewhere.  Spec, section 4.7: it "produces a stable ordering of
variants by a chosen comparison metric (descending by primary metric mean; ties
broken by insertion index, never by name ...)".  The output vector of pointers to
the variants is the list of their positions in `m_profilesets`; the primary
metric is the parameter `metric`. -/
def generate_sorted_profilesets (metric : scale_metric_e) (p : profilesets_t MAX_GEM_SLOTS) :
    List Nat :=
  (List.range p.n_profilesets).insertionSort (ranks_before metric p)

/-- Modelled from the spec: `generate_chart` is declared in the header and defined
elsewhere.  Spec, section 4.7: it "emits a bounded number of chart data rows (hard
cap MAX_CHART_ENTRIES = 500) ... truncation policy: keep the top-ranked entries,
drop the remainder silently".  A data row is identified with the variant it
charts; the text of a row is not modelled. -/
def generate_chart (metric : scale_metric_e) (p : profilesets_t MAX_GEM_SLOTS) : List Nat :=
  (generate_sorted_profilesets metric p).take MAX_CHART_ENTRIES

/-- A variant named `name` whose only result is of kind `SCALE_METRIC_OTHER 1` with
mean `mean`. -/
def sample_variant (name : String) (mean : ℚ) : profile_set_t 4 :=
  { m_name := name, m_options := none, m_has_output := false,
    m_results :=
      [(profile_result_t.mk_metric (scale_metric_e.SCALE_METRIC_OTHER 1)).set_mean mean],
    m_output_data := none }

/-- A completed orchestrator of three identically named variants with means `5`, `7`
and `5`, in insertion order. -/
def sample_tied : profilesets_t 4 :=
  { m_state := state.DONE
    m_profilesets := [sample_variant "same" 5, sample_variant "same" 7, sample_variant "same" 5]
    m_original := none
    m_insert_index := 2
    m_work_index := 3 }

/-- An orchestrator holding `n` variants without results. -/
def sample_sized (n : Nat) : profilesets_t 4 :=
  { m_state := state.DONE
    m_profilesets := List.replicate n (profile_set_t.mk_new "v" none false)
    m_original := none
    m_insert_index := (n : Int) - 1
    m_work_index := n }

end profilesets_t

/-! ## `profilesets_t::iterate` and `profilesets_t::cancel` -/

/-- Modelled from the spec: where the thread executing `iterate` stands.  Spec,
section 5: "the worker observes the flag only at its per-variant checkpoint
(before claiming the next variant)"; section 4.6: "work_index is advanced under
the mutex immediately after a variant is claimed (not after it finishes)".
`checkpoint`: about to observe the cancellation flag; `claiming`: the flag was
observed clear and a variant is left, the claim is next; `in_flight`: the claimed
variant's simulation is running; `returned`: `iterate` has returned. -/
inductive iterate_pc where
  | checkpoint
  | claiming
  | in_flight
  | returned
  deriving DecidableEq, Repr

/-- Modelled from the spec: a run of `iterate` in progress: the orchestrator, the
cancellation flag ("cancel() sets a flag", section 5; the flag is no member of
`profilesets_t`), the position of the executing thread and the indicator `iterate`
returns ("a success/cancelled indicator", section 4.6; `true` is success). -/
structure iterate_run (MAX_GEM_SLOTS : Nat) where
  sets : profilesets_t MAX_GEM_SLOTS
  cancel_requested : Bool
  pc : iterate_pc
  completed : Bool
  deriving DecidableEq

/-- Modelled from the spec: the two threads' atomic actions, a step of the thread
executing `iterate` and a call of `cancel()` by the controlling thread. -/
inductive iterate_event where
  | worker
  | cancel
  deriving DecidableEq, Repr

namespace iterate_run

variable {MAX_GEM_SLOTS : Nat}

/-- Modelled from the spec: `iterate` is declared in the header and defined
elsewhere.  The run starts at the checkpoint before the first claim, "starting
from work_index" (section 4.6), with no cancellation requested. -/
def start (p : profilesets_t MAX_GEM_SLOTS) : iterate_run MAX_GEM_SLOTS :=
  { sets := p, cancel_requested := false, pc := iterate_pc.checkpoint, completed := false }

/-- Modelled from the spec: one atomic step of the thread executing `iterate`.
At the checkpoint a requested cancellation ends the run in `DONE` with the
cancelled indicator; with no variant left the run ends in `DONE` with success;
otherwise the next variant is claimed (`m_work_index` advanced), its simulation
runs to completion and the thread is back at the checkpoint.  The simulation and
the results it writes touch neither `m_state` nor `m_work_index` and are not
modelled. -/
def step (r : iterate_run MAX_GEM_SLOTS) : iterate_run MAX_GEM_SLOTS :=
  match r.pc with
  | iterate_pc.checkpoint =>
      if r.cancel_requested then
        { r with
          sets := { r.sets with m_state := state.DONE }
          pc := iterate_pc.returned
          completed := false }
      else if r.sets.m_work_index < r.sets.n_profilesets then
        { r with pc := iterate_pc.claiming }
      else
        { r with
          sets := { r.sets with m_state := state.DONE }
          pc := iterate_pc.returned
          completed := true }
  | iterate_pc.claiming =>
      { r with
        sets := { r.sets with m_work_index := r.sets.m_work_index + 1 }
        pc := iterate_pc.in_flight }
  | iterate_pc.in_flight => { r with pc := iterate_pc.checkpoint }
  | iterate_pc.returned => r

/-- Modelled from the spec: `cancel()` is declared in the header and defined
elsewhere.  Spec, section 5: "cancel() sets a flag and signals the condition
variable"; it does not wait for the variant in flight. -/
def cancel (r : iterate_run MAX_GEM_SLOTS) : iterate_run MAX_GEM_SLOTS :=
  { r with cancel_requested := true }

/-- One atomic action of either thread. -/
def act (r : iterate_run MAX_GEM_SLOTS) : iterate_event → iterate_run MAX_GEM_SLOTS
  | iterate_event.worker => r.step
  | iterate_event.cancel => r.cancel

/-- An interleaving of the two threads' actions, in the order they take effect. -/
def exec (r : iterate_run MAX_GEM_SLOTS) (es : List iterate_event) :
    iterate_run MAX_GEM_SLOTS :=
  es.foldl act r

/-- The invariant of a run: the cursor stays within the variants, a decided claim
has a variant left to claim, and a returned run is in the state `DONE`. -/
def inv (r : iterate_run MAX_GEM_SLOTS) : Prop :=
  r.sets.m_work_index ≤ r.sets.n_profilesets ∧
  (r.pc = iterate_pc.claiming → r.sets.m_work_index < r.sets.n_profilesets) ∧
  (r.pc = iterate_pc.returned → r.sets.m_state = state.DONE)

/-- The cursor, counting a claim that is decided but not yet made. -/
def pending (r : iterate_run MAX_GEM_SLOTS) : Nat :=
  r.sets.m_work_index + (if r.pc = iterate_pc.claiming then 1 else 0)

/-- The number of steps the executing thread needs to return once cancellation is
requested. -/
def steps_left (r : iterate_run MAX_GEM_SLOTS) : Nat :=
  match r.pc with
  | iterate_pc.claiming => 3
  | iterate_pc.in_flight => 2
  | iterate_pc.checkpoint => 1
  | iterate_pc.returned => 0

/-- An orchestrator in the state `RUNNING` holding three variants, none executed. -/
def sample_running : profilesets_t 4 :=
  { m_state := state.RUNNING
    m_profilesets :=
      [profile_set_t.mk_new "baseline" none false, profile_set_t.mk_new "reforge_crit" none false,
        profile_set_t.mk_new "reforge_haste" none false]
    m_original := none
    m_insert_index := 2
    m_work_index := 0 }

end iterate_run

/-! ## Accesses to the shared members -/

/-- The actions of a member function on the shared members of `profilesets_t` and on
its mutex, in program order. -/
inductive access where
  | lock
  | unlock
  | read_state
  | write_state
  | read_work_index
  | write_work_index
  deriving DecidableEq, Repr

/-- Whether every read or write of `m_state` and `m_work_index` in `as` happens while
the mutex is held, `held` telling whether the caller holds it on entry. -/
def lock_protected : Bool → List access → Bool
  | _, [] => true
  | _, access.lock :: as => lock_protected true as
  | _, access.unlock :: as => lock_protected false as
  | held, _ :: as => held && lock_protected held as

namespace profilesets_t

variable {MAX_GEM_SLOTS : Nat}

/-- The accesses of `is_initializing() const`, whose body is
`return m_state == INITIALIZING;`: one read of `m_state`, the mutex untouched. -/
def is_initializing_accesses (_p : profilesets_t MAX_GEM_SLOTS) : List access :=
  [access.read_state]

/-- The accesses of `is_running() const`, whose body is `return m_state == RUNNING;`. -/
def is_running_accesses (_p : profilesets_t MAX_GEM_SLOTS) : List access :=
  [access.read_state]

/-- The accesses of `is_done() const`, whose body is `return m_state == DONE;`. -/
def is_done_accesses (_p : profilesets_t MAX_GEM_SLOTS) : List access :=
  [access.read_state]

end profilesets_t

end profileset

/-! # The XML report writer (`engine/sc_report_xml.cpp`)

Conventions of the embedding

* A `std::string` is a `String`, its characters (`String.data`) a list of `Char`.
  The writer compares characters with the four ASCII characters `&`, `"`, `<`,
  `>` only, which never occur inside a multi-byte character.
* `FILE* file` is the text written to the file so far; the file is taken to have
  been opened (`ready()` holds), and `printf` appends to it.  The strings passed
  through `%s` hold no NUL character, so each is written whole.
* A member function that can violate an `assert`, or call `top()` on an empty
  stack, returns an `Option`: `none` is the violated assertion or the undefined
  call.
-/

namespace report_xml

/-! ## `replace_entity` and `sanitize` -/

/-- The index of the first occurrence of `c` in `l`. -/
def find_in : List Char → Char → Option Nat
  | [], _ => none
  | x :: xs, c => if x = c then some 0 else (find_in xs c).map (· + 1)

/-- The call `str.find( c, pos )`: the index of the first occurrence of `c` at or after
`pos`; `none` is `npos`. -/
def find (str : List Char) (c : Char) (pos : Nat) : Option Nat :=
  (find_in (str.drop pos) c).map (pos + ·)

/-- The call `str.replace( pos, 1, new_value )`. -/
def replace_at (str : List Char) (pos : Nat) (new_value : List Char) : List Char :=
  str.take pos ++ new_value ++ str.drop (pos + 1)

lemma find_in_lt {l : List Char} {c : Char} {i : Nat} (h : find_in l c = some i) :
    i < l.length := by
  induction l generalizing i with
  | nil => simp [find_in] at h
  | cons x xs ih =>
      unfold find_in at h
      split_ifs at h with hx
      · simp only [Option.some.injEq] at h
        subst h
        simp
      · cases hf : find_in xs c with
        | none => simp [hf] at h
        | some j =>
            simp only [hf, Option.map_some', Option.some.injEq] at h
            subst h
            have := ih hf
            simp only [List.length_cons]
            omega

lemma find_bounds {str : List Char} {c : Char} {pos p : Nat} (h : find str c pos = some p) :
    pos ≤ p ∧ p < str.length := by
  unfold find at h
  cases hf : find_in (str.drop pos) c with
  | none => simp [hf] at h
  | some j =>
      simp only [hf, Option.map_some', Option.some.injEq] at h
      subst h
      have := find_in_lt hf
      simp only [List.length_drop] at this
      omega

/-- The loop of `replace_entity`:
`while ( ( pos = str.find( old_value, pos ) ) != str.npos )
 { str.replace( pos, 1, new_value ); pos += len; }`,
from the values `str` and `pos` have on entry to the loop.  The recursion is
well-founded: the number of characters from `pos` on decreases at every turn. -/
def replace_entity_loop (old_value : Char) (new_value : List Char) (str : List Char)
    (pos : Nat) : List Char :=
  match h : find str old_value pos with
  | none => str
  | some p =>
      have _hb : pos ≤ p ∧ p < str.length := find_bounds h
      replace_entity_loop old_value new_value (replace_at str p new_value)
        (p + new_value.length)
termination_by str.length - pos
decreasing_by
  simp only [replace_at, List.length_append, List.length_take, List.length_drop]
  omega

/-- The function `replace_entity( str, old_value, new_value )`; the result is `str` on
return.  `len` is the length of `new_value`, and `pos` starts at `0`. -/
def replace_entity (str : String) (old_value : Char) (new_value : String) : String :=
  String.mk (replace_entity_loop old_value new_value.data str.data 0)

/-- The table `replacements` of `sanitize`, in order. -/
def replacements : List (Char × String) :=
  [('&', "&amp;"), ('"', "&quot;"), ('<', "&lt;"), ('>', "&gt;")]

/-- The function `sanitize( v )`: `replace_entity` applied to `v` for every entry of
`replacements`, in order. -/
def sanitize (v : String) : String :=
  replacements.foldl (fun s r => replace_entity s r.1 r.2) v

/-- The escape of one character: `&`, `"`, `<` and `>` become their entities, every
other character is copied. -/
def escape_char (c : Char) : List Char :=
  if c = '&' then "&amp;".data
  else if c = '"' then "&quot;".data
  else if c = '<' then "&lt;".data
  else if c = '>' then "&gt;".data
  else [c]

/-- The character-by-character escape of a string. -/
def escape (s : String) : String :=
  String.mk (s.data.flatMap escape_char)

/-- The four entities `sanitize` produces. -/
def entities : List String := ["&amp;", "&quot;", "&lt;", "&gt;"]

/-- One replacement, character by character: `old_value` becomes `new_value`, every
other character is copied. -/
def subst_char (old_value : Char) (new_value : List Char) (c : Char) : List Char :=
  if c = old_value then new_value else [c]

/-! ## `xml_writer_t` -/

/-- The enumeration `xml_writer_t::state`. -/
inductive state where
  | NONE
  | TAG
  | TEXT
  deriving DecidableEq, Repr

/-- The data members of `xml_writer_t`, in declaration order.  `current_tags` is a
`std::stack`, its top first. -/
structure xml_writer_t where
  file : String
  current_tags : List String
  tabulation : String
  current_state : state
  indentation : String
  deriving DecidableEq, Repr

/-- One call of a printing member function of `xml_writer_t`, with its arguments. -/
inductive call where
  | init_document (stylesheet_file : String)
  | begin_tag (tag : String)
  | end_tag
  | print_attribute (name value : String)
  | print_attribute_unescaped (name value : String)
  | print_tag (name inner_value : String)
  | print_text (input : String)
  deriving DecidableEq, Repr

/-- The text the loop of `rebuild_indentation` builds for `size` open tags:
`indentation.append( tabulation )`, `size` times, from the empty string. -/
def indent_of (tabulation : String) : Nat → String
  | 0 => ""
  | size + 1 => indent_of tabulation size ++ tabulation

namespace xml_writer_t

/-- The constructor `xml_writer_t( filename )`: `tabulation( "    " )`,
`current_state( NONE )`, the stack and `indentation` default-constructed; the file
is opened for writing and holds nothing yet. -/
def mk_new (_filename : String) : xml_writer_t :=
  { file := "", current_tags := [], tabulation := "    ", current_state := state.NONE,
    indentation := "" }

def set_tabulation (w : xml_writer_t) (tabulation : String) : xml_writer_t :=
  { w with tabulation := tabulation }

/-- The member `printf`, with the text its format and arguments expand to. -/
def printf (w : xml_writer_t) (text : String) : xml_writer_t :=
  { w with file := w.file ++ text }

def rebuild_indentation (w : xml_writer_t) : xml_writer_t :=
  { w with indentation := indent_of w.tabulation w.current_tags.length }

def init_document (w : xml_writer_t) (stylesheet_file : String) : Option xml_writer_t :=
  if w.current_state ≠ state.NONE then none
  else
    let w1 := w.printf "<?xml version=\"1.0\" encoding=\"utf-8\"?>\n"
    let w2 :=
      if stylesheet_file ≠ "" then
        w1.printf ("<?xml-stylesheet type=\"text/xml\" href=\"" ++ stylesheet_file ++ "\"?>")
      else w1
    some { w2 with current_state := state.TEXT }

def begin_tag (w : xml_writer_t) (tag : String) : Option xml_writer_t :=
  if w.current_state = state.NONE then none
  else
    let w1 := if w.current_state ≠ state.TEXT then w.printf ">" else w
    let w2 := w1.printf ("\n" ++ w1.indentation ++ "<" ++ tag)
    let w3 := { w2 with current_tags := tag :: w2.current_tags }
    some { w3.rebuild_indentation with current_state := state.TAG }

def end_tag (w : xml_writer_t) : Option xml_writer_t :=
  if w.current_state = state.NONE then none
  else
    match w.current_tags with
    | [] => none
    | tag :: rest =>
        let w1 := { w with current_tags := rest }.rebuild_indentation
        let w2 :=
          if w1.current_state = state.TAG then w1.printf "/>"
          else if w1.current_state = state.TEXT then
            w1.printf ("\n" ++ w1.indentation ++ "</" ++ tag ++ ">")
          else w1
        some { w2 with current_state := state.TEXT }

def print_attribute (w : xml_writer_t) (name value : String) : Option xml_writer_t :=
  if w.current_state = state.NONE then none
  else if w.current_state = state.TAG then
    some (w.printf (" " ++ name ++ "=\"" ++ sanitize value ++ "\""))
  else some w

def print_attribute_unescaped (w : xml_writer_t) (name value : String) :
    Option xml_writer_t :=
  if w.current_state = state.NONE then none
  else if w.current_state = state.TAG then
    some (w.printf (" " ++ name ++ "=\"" ++ value ++ "\""))
  else some w

def print_tag (w : xml_writer_t) (name inner_value : String) : Option xml_writer_t :=
  if w.current_state = state.NONE then none
  else
    let w1 := if w.current_state ≠ state.TEXT then w.printf ">" else w
    let w2 :=
      w1.printf
        ("\n" ++ w1.indentation ++ "<" ++ name ++ ">" ++ sanitize inner_value ++ "</" ++ name ++
          ">")
    some { w2 with current_state := state.TEXT }

def print_text (w : xml_writer_t) (input : String) : Option xml_writer_t :=
  if w.current_state = state.NONE then none
  else
    let w1 := if w.current_state ≠ state.TEXT then w.printf ">" else w
    let w2 := w1.printf ("\n" ++ sanitize input)
    some { w2 with current_state := state.TEXT }

/-- The effect of one call on the writer it is made on. -/
def apply (w : xml_writer_t) : call → Option xml_writer_t
  | call.init_document stylesheet_file => w.init_document stylesheet_file
  | call.begin_tag tag => w.begin_tag tag
  | call.end_tag => w.end_tag
  | call.print_attribute name value => w.print_attribute name value
  | call.print_attribute_unescaped name value => w.print_attribute_unescaped name value
  | call.print_tag name inner_value => w.print_tag name inner_value
  | call.print_text input => w.print_text input

/-- A sequence of calls made one after the other; `none` when one of them fails. -/
def run : xml_writer_t → List call → Option xml_writer_t
  | w, [] => some w
  | w, c :: cs =>
      match w.apply c with
      | none => none
      | some w1 => run w1 cs

end xml_writer_t

/-! ## The document a sequence of calls describes

The second description of the writer, the one its output is compared with: the
calls build a tree of elements, and the tree is rendered as nested text. -/

/-- An attribute of an element: its name, its value, and whether the value is
escaped when written (`print_attribute`) or not (`print_attribute_unescaped`). -/
structure xml_attribute where
  name : String
  value : String
  escaped : Bool
  deriving DecidableEq, Repr

/-- A sequence of sibling nodes, first to last: an element with its attributes and
children (`begin_tag` ... `end_tag`), a one-line element with text inside
(`print_tag`), or a line of text (`print_text`). -/
inductive forest where
  | nil
  | element (tag : String) (attributes : List xml_attribute) (children : forest) (next : forest)
  | tag_text (name inner_value : String) (next : forest)
  | text (input : String) (next : forest)
  deriving DecidableEq, Repr

namespace forest

/-- The siblings `f` followed by the siblings `g`. -/
def append : forest → forest → forest
  | nil, g => g
  | element tag attributes children next, g => element tag attributes children (append next g)
  | tag_text name inner_value next, g => tag_text name inner_value (append next g)
  | text input next, g => text input (append next g)

/-- Whether there is no node. -/
def is_nil : forest → Bool
  | nil => true
  | _ => false

end forest

/-- The text of one attribute inside a start tag. -/
def render_attribute (a : xml_attribute) : String :=
  " " ++ a.name ++ "=\"" ++ (if a.escaped then sanitize a.value else a.value) ++ "\""

/-- The text of the attributes of a start tag, in order. -/
def render_attributes : List xml_attribute → String
  | [] => ""
  | a :: as => render_attribute a ++ render_attributes as

/-- The nested text of a sequence of sibling nodes at nesting depth `depth`.  An
element without children is the self-closing `<t ... />`; an element with children
is `<t ... >`, its children one level deeper, and `</t>` with the same name at the
indentation of its start tag. -/
def render_forest (tabulation : String) : Nat → forest → String
  | _, forest.nil => ""
  | depth, forest.element tag attributes children next =>
      "\n" ++ indent_of tabulation depth ++ "<" ++ tag ++ render_attributes attributes ++
        (if children.is_nil then "/>"
          else ">" ++ render_forest tabulation (depth + 1) children ++ "\n" ++
            indent_of tabulation depth ++ "</" ++ tag ++ ">") ++
        render_forest tabulation depth next
  | depth, forest.tag_text name inner_value next =>
      "\n" ++ indent_of tabulation depth ++ "<" ++ name ++ ">" ++ sanitize inner_value ++ "</" ++
        name ++ ">" ++ render_forest tabulation depth next
  | depth, forest.text input next =>
      "\n" ++ sanitize input ++ render_forest tabulation depth next

/-- An element that has been opened and not yet closed: its name, the attributes and
the children it has so far. -/
structure open_element where
  tag : String
  attributes : List xml_attribute
  children : forest
  deriving DecidableEq, Repr

/-- The document under construction: the top-level nodes completed so far and the
elements opened and not yet closed, the most recently opened first. -/
structure document where
  closed : forest
  open_elements : List open_element
  deriving DecidableEq, Repr

namespace document

/-- The document before any call. -/
def empty : document := { closed := forest.nil, open_elements := [] }

/-- The nodes `n` added after the last child of the most recently opened unclosed
element, or after the last top-level node when no element is open. -/
def add (doc : document) (n : forest) : document :=
  match doc.open_elements with
  | [] => { doc with closed := doc.closed.append n }
  | e :: rest => { doc with open_elements := { e with children := e.children.append n } :: rest }

/-- An attribute added to the most recently opened unclosed element, provided it has
no content yet; dropped otherwise. -/
def add_attribute (doc : document) (a : xml_attribute) : document :=
  match doc.open_elements with
  | [] => doc
  | e :: rest =>
      if e.children.is_nil then
        { doc with open_elements := { e with attributes := e.attributes ++ [a] } :: rest }
      else doc

/-- What one call does to the document.  `begin_tag` opens an element inside the most
recently opened unclosed one; `end_tag` closes the most recently opened unclosed
element (last in, first out) and fails when none is open; `init_document` is not a
call of the body of a document. -/
def apply (doc : document) : call → Option document
  | call.init_document _ => none
  | call.begin_tag tag =>
      some { doc with
        open_elements :=
          { tag := tag, attributes := [], children := forest.nil } :: doc.open_elements }
  | call.end_tag =>
      match doc.open_elements with
      | [] => none
      | e :: rest =>
          some (add { doc with open_elements := rest }
            (forest.element e.tag e.attributes e.children forest.nil))
  | call.print_attribute name value =>
      some (doc.add_attribute { name := name, value := value, escaped := true })
  | call.print_attribute_unescaped name value =>
      some (doc.add_attribute { name := name, value := value, escaped := false })
  | call.print_tag name inner_value =>
      some (doc.add (forest.tag_text name inner_value forest.nil))
  | call.print_text input => some (doc.add (forest.text input forest.nil))

/-- The document a sequence of calls builds. -/
def build : document → List call → Option document
  | doc, [] => some doc
  | doc, c :: cs =>
      match doc.apply c with
      | none => none
      | some doc1 => build doc1 cs

end document

/-- The text of an open element at depth `depth`: its start tag with the attributes
so far, followed, once it has content (a child, or an open element inside it), by
`>` and its children. -/
def render_open_element (tabulation : String) (depth : Nat) (e : open_element)
    ( has_open_child : Bool) : String :=
  "\n" ++ indent_of tabulation depth ++ "<" ++ e.tag ++ render_attributes e.attributes ++
    (if e.children.is_nil && !has_open_child then ""
      else ">" ++ render_forest tabulation (depth + 1) e.children)

/-- The text of the open elements that have an open element inside them, outermost
first in the text. -/
def render_outer (tabulation : String) : List open_element → String
  | [] => ""
  | e :: rest => render_outer tabulation rest ++ render_open_element tabulation rest.length e true

/-- The text of a document under construction: the completed top-level nodes, then
the open elements from the outermost to the most recently opened. -/
def document.render (tabulation : String) (doc : document) : String :=
  render_forest tabulation 0 doc.closed ++
    match doc.open_elements with
    | [] => ""
    | e :: rest =>
        render_outer tabulation rest ++ render_open_element tabulation rest.length e false

/-- The call that writes the attribute `a`. -/
def attribute_call (a : xml_attribute) : call :=
  if a.escaped then call.print_attribute a.name a.value
  else call.print_attribute_unescaped a.name a.value

/-- The text `init_document` writes. -/
def prolog (stylesheet_file : String) : String :=
  "<?xml version=\"1.0\" encoding=\"utf-8\"?>\n" ++
    (if stylesheet_file ≠ "" then
      "<?xml-stylesheet type=\"text/xml\" href=\"" ++ stylesheet_file ++ "\"?>"
    else "")

/-- The writer `w` has written the prolog and the text of the document `doc`, and its
stack, indentation and state are those of `doc`: the state is `TAG` exactly when
the most recently opened element is still without content. -/
def writes (w : xml_writer_t) (stylesheet_file : String) (doc : document) : Prop :=
  w.file = prolog stylesheet_file ++ doc.render w.tabulation ∧
  w.current_tags = doc.open_elements.map open_element.tag ∧
  w.indentation = indent_of w.tabulation doc.open_elements.length ∧
  w.current_state ≠ state.NONE ∧
  (w.current_state = state.TAG ↔
    ∃ e rest, doc.open_elements = e :: rest ∧ e.children.is_nil = true)

/-! ## The report functions `print_xml_*` and `report_t::print_xml`

Conventions of the embedding

* A report function is the list of the calls it makes on the writer, in order; the
  functions read the simulation only, never the writer.  A loop is the
  concatenation of the lists of its turns (`List.flatMap`), a `continue` or a
  `return` is the empty rest of the list.
* A `double` is a rational.  The types of the members come from `simulationcraft.h`,
  which is not among the sources: `level`, `iterations`, the two event counters,
  `num_direct_results`, `num_ticks`, `start_count`, `dps_plot_points` and
  `report_precision` are taken to be integers, an enumeration value and a stat
  index are natural numbers, every other number is a `double`.
* A linked list (`next`, `next_pet`) and a `std::vector` are a `List`; a member
  function without arguments is a field holding the value it returns.
-/

/-- The functions, macros and constants the report uses that are declared
elsewhere (`util_t`, `dbc_t`, `<cmath>`, `<ctime>`, the `SC_*` macros): parameters of
the embedding.  `to_string_precision x n` is `util_t::to_string( x, n )`, `to_string_int`
the overloads for `int` and `int64_t`; `string_split str delim` is the vector
`util_t::string_split` fills, whose size it returns; `ctime` is the text of the
time of the call. -/
structure externals where
  to_string : ℚ → String
  to_string_precision : ℚ → Int → String
  to_string_int : Int → String
  string_split : String → String → List String
  player_type_string : Nat → String
  pet_type_string : Nat → String
  talent_tree_string : Nat → String
  role_type_string : Nat → String
  resource_type_string : Nat → String
  stat_type_abbrev : Nat → String
  wow_version : Bool → String
  build_level : Bool → String
  sqrt : ℚ → ℚ
  ctime : String
  SC_MAJOR_VERSION : String
  SC_MINOR_VERSION : String
  SC_BETA : Bool
  STAT_MAX : Nat

/-- The constant `PRINT_XML_PRECISION`. -/
def PRINT_XML_PRECISION : Int := 4

/-- The enumerators of `result_type` that index `direct_results` and `tick_results`. -/
inductive result_type where
  | RESULT_MISS
  | RESULT_HIT
  | RESULT_CRIT
  | RESULT_GLANCE
  | RESULT_DODGE
  | RESULT_PARRY
  deriving DecidableEq, Repr

/-- The enumerators of `attribute_type` the report reads. -/
inductive attribute_type where
  | ATTR_STRENGTH
  | ATTR_AGILITY
  | ATTR_STAMINA
  | ATTR_INTELLECT
  | ATTR_SPIRIT
  deriving DecidableEq, Repr

/-- The enumerators of `resource_type` the report reads. -/
inductive resource_type where
  | RESOURCE_HEALTH
  | RESOURCE_MANA
  deriving DecidableEq, Repr

/-- The members of an entry of `direct_results` or `tick_results` the report reads. -/
structure stats_results_t where
  count : ℚ := 0
  pct : ℚ := 0
  avg_amount : ℚ := 0
  min_amount : ℚ := 0
  max_amount : ℚ := 0

/-- The members of `stats_t` the report reads; `portion_aps_mean` is
`portion_aps.mean`, `player_fight_length_mean` is `player -> fight_length.mean`. -/
structure stats_t where
  name_str : String := ""
  num_executes : ℚ := 0
  compound_amount : ℚ := 0
  frequency : ℚ := 0
  ape : ℚ := 0
  portion_amount : ℚ := 0
  apet : ℚ := 0
  apr : ℚ := 0
  portion_aps_mean : ℚ := 0
  num_direct_results : Int := 0
  direct_results : result_type → stats_results_t := fun _ => {}
  num_ticks : Int := 0
  tick_results : result_type → stats_results_t := fun _ => {}
  total_tick_time : ℚ := 0
  player_fight_length_mean : ℚ := 0

/-- The members of `buff_t` the report reads. -/
structure buff_t where
  name : String := ""
  quiet : Bool := false
  start_count : Int := 0
  constant : Bool := false
  avg_start : ℚ := 0
  avg_refresh : ℚ := 0
  avg_start_interval : ℚ := 0
  avg_trigger_interval : ℚ := 0
  uptime_pct : ℚ := 0
  benefit_pct : ℚ := 0
  trigger_pct : ℚ := 0

structure benefit_t where
  name : String := ""
  ratio : ℚ := 0

structure uptime_t where
  name : String := ""
  uptime : ℚ := 0

structure proc_t where
  name : String := ""
  count : ℚ := 0
  frequency : ℚ := 0

structure gain_t where
  name : String := ""
  actual : ℚ := 0
  overflow : ℚ := 0

/-- The members of `gear_stats_t` the report reads: the named ratings, and
`get_stat( i )` for a stat index `i`.  The array member `attribute` is `attribute_value`. -/
structure gear_stats_t where
  attribute_value : attribute_type → ℚ := fun _ => 0
  mastery_rating : ℚ := 0
  spell_power : ℚ := 0
  hit_rating : ℚ := 0
  crit_rating : ℚ := 0
  spell_penetration : ℚ := 0
  haste_rating : ℚ := 0
  mp5 : ℚ := 0
  attack_power : ℚ := 0
  expertise_rating : ℚ := 0
  armor : ℚ := 0
  bonus_armor : ℚ := 0
  dodge_rating : ℚ := 0
  parry_rating : ℚ := 0
  block_rating : ℚ := 0
  get_stat : Nat → ℚ := fun _ => 0

/-- The enumerators of `school_type` the report passes. -/
inductive school_type where
  | SCHOOL_PHYSICAL
  | SCHOOL_MAX
  deriving DecidableEq, Repr

/-- The members of `sample_data_t` the report reads. -/
structure sample_data_t where
  mean : ℚ := 0
  min : ℚ := 0
  max : ℚ := 0

/-- The members of `player_t` the report reads, `pet_list` apart (see `roster_entry`).
`pet_type` is `cast_pet() -> pet_type`; `hat_donor` is `procs.hat_donor`. -/
structure player_t where
  name : String := ""
  is_enemy : Bool := false
  is_add : Bool := false
  level : Int := 0
  race_str : String := ""
  type : Nat := 0
  is_pet : Bool := false
  pet_type : Nat := 0
  primary_tree : Nat := 0
  primary_role : Nat := 0
  position_str : String := ""
  dps : sample_data_t := {}
  dpse : sample_data_t := {}
  dps_error : ℚ := 0
  dps_convergence : ℚ := 0
  rps_loss : ℚ := 0
  dpr : ℚ := 0
  rps_gain : ℚ := 0
  primary_resource : Nat := 0
  fight_length : sample_data_t := {}
  waiting_time : sample_data_t := {}
  executed_foreground_actions : sample_data_t := {}
  origin_str : String := ""
  talents_str : String := ""
  strength : ℚ := 0
  agility : ℚ := 0
  stamina : ℚ := 0
  intellect : ℚ := 0
  spirit : ℚ := 0
  stats : gear_stats_t := {}
  attribute_buffed : attribute_type → ℚ := fun _ => 0
  composite_mastery : ℚ := 0
  buffed_mastery : ℚ := 0
  composite_spell_power : school_type → ℚ := fun _ => 0
  composite_spell_power_multiplier : ℚ := 0
  buffed_spell_power : ℚ := 0
  composite_spell_hit : ℚ := 0
  buffed_spell_hit : ℚ := 0
  composite_spell_crit : ℚ := 0
  buffed_spell_crit : ℚ := 0
  composite_spell_penetration : ℚ := 0
  buffed_spell_penetration : ℚ := 0
  spell_haste : ℚ := 0
  buffed_spell_haste : ℚ := 0
  composite_mp5 : ℚ := 0
  buffed_mp5 : ℚ := 0
  composite_attack_power : ℚ := 0
  composite_attack_power_multiplier : ℚ := 0
  buffed_attack_power : ℚ := 0
  composite_attack_hit : ℚ := 0
  buffed_attack_hit : ℚ := 0
  composite_attack_crit : ℚ := 0
  buffed_attack_crit : ℚ := 0
  composite_attack_expertise : ℚ := 0
  buffed_attack_expertise : ℚ := 0
  composite_attack_haste : ℚ := 0
  buffed_attack_haste : ℚ := 0
  composite_attack_speed : ℚ := 0
  buffed_attack_speed : ℚ := 0
  composite_armor : ℚ := 0
  buffed_armor : ℚ := 0
  composite_tank_miss : school_type → ℚ := fun _ => 0
  buffed_miss : ℚ := 0
  composite_tank_dodge : ℚ := 0
  diminished_dodge : ℚ := 0
  buffed_dodge : ℚ := 0
  composite_tank_parry : ℚ := 0
  diminished_parry : ℚ := 0
  buffed_parry : ℚ := 0
  composite_tank_block : ℚ := 0
  buffed_block : ℚ := 0
  composite_tank_crit : school_type → ℚ := fun _ => 0
  buffed_crit : ℚ := 0
  resource_max : resource_type → ℚ := fun _ => 0
  resource_buffed : resource_type → ℚ := fun _ => 0
  glyphs_str : String := ""
  action_list_str : String := ""
  stats_list : List stats_t := []
  buff_list : List buff_t := []
  benefit_list : List benefit_t := []
  uptime_list : List uptime_t := []
  proc_list : List proc_t := []
  gain_list : List gain_t := []
  scales_with : Nat → Int := fun _ => 0
  scaling : gear_stats_t := {}
  scaling_normalized : gear_stats_t := {}
  scaling_error : gear_stats_t := {}
  scaling_compare_error : gear_stats_t := {}
  scaling_stats : List Nat := []
  normalize_by : Nat := 0
  scaling_lag : ℚ := 0
  scaling_lag_error : ℚ := 0
  gear_weights_lootrank_link : String := ""
  gear_weights_wowhead_link : String := ""
  gear_weights_wowreforge_link : String := ""
  dps_plot_data : Nat → List ℚ := fun _ => []
  action_dpet_chart : String := ""
  action_dmg_chart : String := ""
  scaling_dps_chart : String := ""
  reforge_dps_chart : String := ""
  scale_factors_chart : String := ""
  timeline_dps_chart : String := ""
  distribution_dps_chart : String := ""
  time_spent_chart : String := ""
  hat_donor : proc_t := {}

/-- A pet: `pet_t` derives from `player_t`; `summoned` is its own member. -/
structure pet_t extends player_t where
  summoned : Bool := false

/-- An entry of `players_by_name` or `targets_by_name`: the player, and the pets
reached from its `pet_list` through `next_pet`.  The `pet_list` of a pet is not read
by the report. -/
structure roster_entry where
  player : player_t := {}
  pet_list : List pet_t := []

/-- The members of `rng_t` the report reads. -/
structure rng_t where
  expected_roll : ℚ := 0
  actual_roll : ℚ := 0
  expected_range : ℚ := 0
  actual_range : ℚ := 0
  expected_gauss : ℚ := 0
  actual_gauss : ℚ := 0

/-- The members of `scaling_t` the report reads. -/
structure scaling_t where
  has_scale_factors : Bool := false
  normalize_scale_factors : Bool := false
  scale_lag : Bool := false
  stats : gear_stats_t := {}

/-- The members of `plot_t` the report reads. -/
structure plot_t where
  dps_plot_stat_str : String := ""
  dps_plot_points : Int := 0
  dps_plot_step : ℚ := 0

/-- The members of `sim_t` the report reads.  `players_by_dps_size` is
`players_by_dps.size()`, `target_resource_base` is `target -> resource_base`, `ptr` is
`dbc.ptr`. -/
structure sim_t where
  error_list : List String := []
  raid_events_str : String := ""
  players_by_dps_size : Nat := 0
  players_by_name : List roster_entry := []
  targets_by_name : List roster_entry := []
  buff_list : List buff_t := []
  total_events_processed : Int := 0
  max_events_remaining : Int := 0
  target_resource_base : resource_type → ℚ := fun _ => 0
  iterations : Int := 0
  simulation_length : sample_data_t := {}
  elapsed_cpu_seconds : ℚ := 0
  rng : rng_t := {}
  max_time : ℚ := 0
  vary_combat_length : ℚ := 0
  fight_style : String := ""
  scaling : scaling_t := {}
  plot : plot_t := {}
  report_pets_separately : Bool := false
  report_precision : Int := 0
  total_dmg : ℚ := 0
  raid_dps : ℚ := 0
  total_heal : ℚ := 0
  raid_hps : ℚ := 0
  dps_charts : List String := []
  gear_charts : List String := []
  dpet_charts : List String := []
  xml_file_str : String := ""
  xml_stylesheet_file_str : String := ""
  ptr : Bool := false

/-- A statement of a report function: a call on the writer.  An `end_tag()` carries
the element named in the comment `// </name>` that trails it in the source, `none`
when the line has no such comment. -/
inductive statement where
  | begin_tag (tag : String)
  | end_tag (comment : Option String)
  | print_attribute (name value : String)
  | print_attribute_unescaped (name value : String)
  | print_tag (name inner_value : String)
  deriving DecidableEq, Repr

/-- The call a statement makes. -/
def statement.call : statement → call
  | statement.begin_tag tag => call.begin_tag tag
  | statement.end_tag _ => call.end_tag
  | statement.print_attribute name value => call.print_attribute name value
  | statement.print_attribute_unescaped name value => call.print_attribute_unescaped name value
  | statement.print_tag name inner_value => call.print_tag name inner_value

/-- The tag stack after the statements `cs`, made from the stack `tags` (top first):
`begin_tag` pushes, `end_tag` pops.  `none` when an `end_tag` finds the stack empty, or
finds on top another element than the one its comment names. -/
def tag_stack_after : List String → List statement → Option (List String)
  | tags, [] => some tags
  | tags, statement.begin_tag tag :: cs => tag_stack_after (tag :: tags) cs
  | [], statement.end_tag _ :: _ => none
  | _ :: tags, statement.end_tag none :: cs => tag_stack_after tags cs
  | tag :: tags, statement.end_tag (some name) :: cs =>
      if name = tag then tag_stack_after tags cs else none
  | tags, statement.print_attribute _ _ :: cs => tag_stack_after tags cs
  | tags, statement.print_attribute_unescaped _ _ :: cs => tag_stack_after tags cs
  | tags, statement.print_tag _ _ :: cs => tag_stack_after tags cs

/-- The statements `cs` close every element they open, each `end_tag` closing the
element its comment names, and close no other element: made from any stack, they
leave that stack. -/
def balanced (cs : List statement) : Prop :=
  ∀ tags : List String, tag_stack_after tags cs = some tags

section report_functions

open statement

def print_xml_errors (sim : sim_t) : List statement :=
  if sim.error_list.length > 0 then
    [begin_tag "errors"] ++
    sim.error_list.flatMap (fun message =>
      [begin_tag "error",
       print_attribute "message" message,
       end_tag (some "error")]) ++
    [end_tag (some "errors")]
  else []

def print_xml_raid_events (ext : externals) (sim : sim_t) : List statement :=
  if sim.raid_events_str ≠ "" then
    [begin_tag "raid_events"] ++
    (ext.string_split sim.raid_events_str "/").enum.flatMap (fun i =>
      [begin_tag "raid_event",
       print_attribute "index" (ext.to_string_int i.1),
       print_attribute "name" i.2,
       end_tag (some "raid_event")]) ++
    [end_tag (some "raid_events")]
  else []

/-- The function `print_xml_player_attribute`; its parameter `attribute` is
`attribute_name`. -/
def print_xml_player_attribute (ext : externals) (attribute_name : String)
    (initial gear buffed : ℚ) : List statement :=
  [begin_tag "attribute",
   print_attribute "name" attribute_name,
   print_attribute "base" (ext.to_string_precision initial 0),
   print_attribute "gear" (ext.to_string_precision gear 0),
   print_attribute "buffed" (ext.to_string_precision buffed 0),
   end_tag (some "attribute")]

def print_xml_player_stats (ext : externals) (p : player_t) : List statement :=
  print_xml_player_attribute ext "strength"
    p.strength (p.stats.attribute_value attribute_type.ATTR_STRENGTH)
    (p.attribute_buffed attribute_type.ATTR_STRENGTH) ++
  print_xml_player_attribute ext "agility"
    p.agility (p.stats.attribute_value attribute_type.ATTR_AGILITY)
    (p.attribute_buffed attribute_type.ATTR_AGILITY) ++
  print_xml_player_attribute ext "stamina"
    p.stamina (p.stats.attribute_value attribute_type.ATTR_STAMINA)
    (p.attribute_buffed attribute_type.ATTR_STAMINA) ++
  print_xml_player_attribute ext "intellect"
    p.intellect (p.stats.attribute_value attribute_type.ATTR_INTELLECT)
    (p.attribute_buffed attribute_type.ATTR_INTELLECT) ++
  print_xml_player_attribute ext "spirit"
    p.spirit (p.stats.attribute_value attribute_type.ATTR_SPIRIT)
    (p.attribute_buffed attribute_type.ATTR_SPIRIT) ++
  print_xml_player_attribute ext "mastery"
    p.composite_mastery p.stats.mastery_rating p.buffed_mastery ++
  print_xml_player_attribute ext "spellpower"
    (p.composite_spell_power school_type.SCHOOL_MAX * p.composite_spell_power_multiplier)
    p.stats.spell_power p.buffed_spell_power ++
  print_xml_player_attribute ext "spellhit"
    (100 * p.composite_spell_hit) p.stats.hit_rating (100 * p.buffed_spell_hit) ++
  print_xml_player_attribute ext "spellcrit"
    (100 * p.composite_spell_crit) p.stats.crit_rating (100 * p.buffed_spell_crit) ++
  print_xml_player_attribute ext "spellpenetration"
    (100 * p.composite_spell_penetration) p.stats.spell_penetration
    (100 * p.buffed_spell_penetration) ++
  print_xml_player_attribute ext "spellhaste"
    (100 * (1 / p.spell_haste - 1)) p.stats.haste_rating
    (100 * (1 / p.buffed_spell_haste - 1)) ++
  print_xml_player_attribute ext "mp5"
    p.composite_mp5 p.stats.mp5 p.buffed_mp5 ++
  print_xml_player_attribute ext "attackpower"
    (p.composite_attack_power * p.composite_attack_power_multiplier)
    p.stats.attack_power p.buffed_attack_power ++
  print_xml_player_attribute ext "attackhit"
    (100 * p.composite_attack_hit) p.stats.hit_rating (100 * p.buffed_attack_hit) ++
  print_xml_player_attribute ext "attackcrit"
    (100 * p.composite_attack_crit) p.stats.crit_rating (100 * p.buffed_attack_crit) ++
  print_xml_player_attribute ext "expertise"
    (100 * p.composite_attack_expertise) p.stats.expertise_rating
    (100 * p.buffed_attack_expertise) ++
  print_xml_player_attribute ext "attackhaste"
    (100 * (1 / p.composite_attack_haste - 1)) p.stats.haste_rating
    (100 * (1 / p.buffed_attack_haste - 1)) ++
  print_xml_player_attribute ext "attackspeed"
    (100 * (1 / p.composite_attack_speed - 1)) p.stats.haste_rating
    (100 * (1 / p.buffed_attack_speed - 1)) ++
  print_xml_player_attribute ext "armor"
    p.composite_armor (p.stats.armor + p.stats.bonus_armor) p.buffed_armor ++
  print_xml_player_attribute ext "miss"
    (100 * p.composite_tank_miss school_type.SCHOOL_PHYSICAL) 0 (100 * p.buffed_miss) ++
  print_xml_player_attribute ext "dodge"
    (100 * (p.composite_tank_dodge - p.diminished_dodge)) p.stats.dodge_rating
    (100 * p.buffed_dodge) ++
  print_xml_player_attribute ext "parry"
    (100 * (p.composite_tank_parry - p.diminished_parry)) p.stats.parry_rating
    (100 * p.buffed_parry) ++
  print_xml_player_attribute ext "block"
    (100 * p.composite_tank_block) p.stats.block_rating (100 * p.buffed_block) ++
  print_xml_player_attribute ext "tank_crit"
    (100 * p.composite_tank_crit school_type.SCHOOL_PHYSICAL) 0 (100 * p.buffed_crit) ++
  [begin_tag "resource",
   print_attribute "name" "health",
   print_attribute "base"
     (ext.to_string_precision (p.resource_max resource_type.RESOURCE_HEALTH) 0),
   print_attribute "buffed"
     (ext.to_string_precision (p.resource_buffed resource_type.RESOURCE_HEALTH) 0),
   end_tag (some "resource")] ++
  [begin_tag "resource",
   print_attribute "name" "mana",
   print_attribute "base"
     (ext.to_string_precision (p.resource_max resource_type.RESOURCE_MANA) 0),
   print_attribute "buffed"
     (ext.to_string_precision (p.resource_buffed resource_type.RESOURCE_MANA) 0),
   end_tag (some "resource")]

def print_xml_player_actions (ext : externals) (p : player_t) : List statement :=
  [begin_tag "glyphs"] ++
  (ext.string_split p.glyphs_str "/").flatMap (fun glyph_name =>
    [begin_tag "glyph",
     print_attribute "name" glyph_name,
     end_tag (some "glyph")]) ++
  [end_tag (some "glyphs")] ++
  [begin_tag "priorities"] ++
  (ext.string_split p.action_list_str "/").enum.flatMap (fun i =>
    [begin_tag "action",
     print_attribute "index" (ext.to_string_int i.1),
     print_attribute "value" i.2,
     end_tag (some "action")]) ++
  [end_tag (some "priorities")] ++
  [begin_tag "actions"] ++
  p.stats_list.flatMap (fun s =>
    if s.num_executes > 1 ∨ s.compound_amount > 0 then
      [begin_tag "action",
       print_attribute "name" s.name_str,
       print_attribute "count" (ext.to_string_precision s.num_executes 1),
       print_attribute "frequency" (ext.to_string_precision s.frequency 2),
       print_attribute "dpe" (ext.to_string_precision s.ape 0),
       print_attribute "dpe_percent" (ext.to_string_precision (s.portion_amount * 100) 0),
       print_attribute "dpet" (ext.to_string_precision s.apet 0),
       print_attribute "apr" (ext.to_string_precision s.apr 1),
       print_attribute "pdps" (ext.to_string_precision s.portion_aps_mean 0)] ++
      (if s.num_direct_results > 0 then
        [begin_tag "miss",
         print_attribute "pct"
           (ext.to_string_precision (s.direct_results result_type.RESULT_MISS).pct 1),
         end_tag none]
      else []) ++
      (if (s.direct_results result_type.RESULT_HIT).avg_amount > 0 then
        [begin_tag "hit",
         print_attribute "avg"
           (ext.to_string_precision (s.direct_results result_type.RESULT_HIT).avg_amount 0),
         print_attribute "min"
           (ext.to_string_precision (s.direct_results result_type.RESULT_HIT).min_amount 0),
         print_attribute "max"
           (ext.to_string_precision (s.direct_results result_type.RESULT_HIT).max_amount 0),
         end_tag (some "hit")]
      else []) ++
      (if (s.direct_results result_type.RESULT_CRIT).avg_amount > 0 then
        [begin_tag "crit",
         print_attribute "avg"
           (ext.to_string_precision (s.direct_results result_type.RESULT_CRIT).avg_amount 0),
         print_attribute "min"
           (ext.to_string_precision (s.direct_results result_type.RESULT_CRIT).min_amount 0),
         print_attribute "max"
           (ext.to_string_precision (s.direct_results result_type.RESULT_CRIT).max_amount 0),
         print_attribute "pct"
           (ext.to_string_precision (s.direct_results result_type.RESULT_CRIT).pct 1),
         end_tag (some "crit")]
      else []) ++
      (if (s.direct_results result_type.RESULT_GLANCE).avg_amount > 0 then
        [begin_tag "glance",
         print_attribute "avg"
           (ext.to_string_precision (s.direct_results result_type.RESULT_GLANCE).avg_amount 0),
         print_attribute "pct"
           (ext.to_string_precision (s.direct_results result_type.RESULT_GLANCE).pct 1),
         end_tag (some "glance")]
      else []) ++
      (if (s.direct_results result_type.RESULT_DODGE).count > 0 then
        [begin_tag "dodge",
         print_attribute "pct"
           (ext.to_string_precision (s.direct_results result_type.RESULT_DODGE).pct 1),
         end_tag none]
      else []) ++
      (if (s.direct_results result_type.RESULT_PARRY).count > 0 then
        [begin_tag "parry",
         print_attribute "pct"
           (ext.to_string_precision (s.direct_results result_type.RESULT_PARRY).pct 1),
         end_tag none]
      else []) ++
      (if s.num_ticks > 0 then
        [begin_tag "tick",
         print_attribute "count" (ext.to_string_int s.num_ticks),
         end_tag none]
      else []) ++
      (if (s.tick_results result_type.RESULT_HIT).avg_amount > 0 ∨
          (s.tick_results result_type.RESULT_CRIT).avg_amount > 0 then
        [begin_tag "miss_tick",
         print_attribute "pct"
           (ext.to_string_precision (s.tick_results result_type.RESULT_MISS).pct 1),
         end_tag none]
      else []) ++
      (if (s.tick_results result_type.RESULT_HIT).avg_amount > 0 then
        [begin_tag "tick",
         print_attribute "avg"
           (ext.to_string_precision (s.tick_results result_type.RESULT_HIT).avg_amount 0),
         print_attribute "min"
           (ext.to_string_precision (s.tick_results result_type.RESULT_HIT).min_amount 0),
         print_attribute "max"
           (ext.to_string_precision (s.tick_results result_type.RESULT_HIT).max_amount 0),
         end_tag none]
      else []) ++
      (if (s.tick_results result_type.RESULT_CRIT).avg_amount > 0 then
        [begin_tag "crit_tick",
         print_attribute "avg"
           (ext.to_string_precision (s.tick_results result_type.RESULT_CRIT).avg_amount 0),
         print_attribute "min"
           (ext.to_string_precision (s.tick_results result_type.RESULT_CRIT).min_amount 0),
         print_attribute "max"
           (ext.to_string_precision (s.tick_results result_type.RESULT_CRIT).max_amount 0),
         print_attribute "pct"
           (ext.to_string_precision (s.tick_results result_type.RESULT_CRIT).pct 1),
         end_tag none]
      else []) ++
      (if s.total_tick_time > 0 then
        [begin_tag "uptime",
         print_attribute "pct"
           (ext.to_string_precision (100 * s.total_tick_time / s.player_fight_length_mean) 1),
         end_tag none]
      else []) ++
      [end_tag (some "action")]
    else []) ++
  [end_tag (some "actions")]

def print_xml_player_buffs (ext : externals) (p : player_t) : List statement :=
  [begin_tag "buffs"] ++
  p.buff_list.flatMap (fun b =>
    if b.quiet = true ∨ b.start_count = 0 then []
    else
      [begin_tag "buff",
       print_attribute "name" b.name,
       print_attribute "type" (if b.constant then "constant" else "dynamic")] ++
      (if b.constant then
        [print_attribute "start" (ext.to_string_precision b.avg_start 1),
         print_attribute "refresh" (ext.to_string_precision b.avg_refresh 1),
         print_attribute "interval" (ext.to_string_precision b.avg_start_interval 1),
         print_attribute "trigger" (ext.to_string_precision b.avg_trigger_interval 1),
         print_attribute "uptime" (ext.to_string_precision b.uptime_pct 0)] ++
        (if b.benefit_pct > 0 ∧ b.benefit_pct < 100 then
          [print_attribute "benefit" (ext.to_string b.benefit_pct)]
        else [])
      else []) ++
      [end_tag (some "buff")]) ++
  [end_tag (some "buffs")]

def print_xml_player_uptime (ext : externals) (p : player_t) : List statement :=
  [begin_tag "benefits"] ++
  p.benefit_list.flatMap (fun u =>
    if u.ratio > 0 then
      [begin_tag "benefit",
       print_attribute "name" u.name,
       print_attribute "ratio_pct" (ext.to_string_precision (u.ratio * 100) 1),
       end_tag none]
    else []) ++
  [end_tag (some "benefits")] ++
  [begin_tag "uptimes"] ++
  p.uptime_list.flatMap (fun u =>
    if u.uptime > 0 then
      [begin_tag "uptime",
       print_attribute "name" u.name,
       print_attribute "pct" (ext.to_string_precision (u.uptime * 100) 1),
       end_tag none]
    else []) ++
  [end_tag (some "uptimes")]

def print_xml_player_procs (ext : externals) (p : player_t) : List statement :=
  [begin_tag "procs"] ++
  p.proc_list.flatMap (fun proc =>
    if proc.count > 0 then
      [begin_tag "proc",
       print_attribute "name" proc.name,
       print_attribute "count" (ext.to_string_precision proc.count 1),
       print_attribute "frequency" (ext.to_string_precision proc.frequency 2),
       end_tag (some "proc")]
    else []) ++
  [end_tag (some "procs")]

def print_xml_player_gains (ext : externals) (p : player_t) : List statement :=
  [begin_tag "gains"] ++
  p.gain_list.flatMap (fun g =>
    if g.actual > 0 ∨ g.overflow > 0 then
      let overflow_pct : ℚ := 100 * g.overflow / (g.actual + g.overflow)
      [begin_tag "gain",
       print_attribute "name" g.name,
       print_attribute "actual" (ext.to_string_precision g.actual 1)] ++
      (if overflow_pct > 1 then
        [print_attribute "overflow_pct" (ext.to_string_precision overflow_pct 1)]
      else []) ++
      [end_tag none]
    else []) ++
  [end_tag none]

/-- The function `print_xml_player_scale_factors`; `sim` is `p -> sim`.  The assignment
`p -> sim -> report_precision = 2`, made when the precision is negative, is the local
`report_precision` every later use in the function reads; no other report function
reads `report_precision`, and a later call makes the same test again. -/
def print_xml_player_scale_factors (ext : externals) (sim : sim_t) (p : player_t) :
    List statement :=
  if sim.scaling.has_scale_factors = false then []
  else if p.is_add = true ∨ p.is_enemy = true then []
  else
    let report_precision : Int := if sim.report_precision < 0 then 2 else sim.report_precision
    [begin_tag "scale_factors"] ++
    [begin_tag "weights"] ++
    (List.range ext.STAT_MAX).flatMap (fun i =>
      if p.scales_with i ≠ 0 then
        [begin_tag "stat",
         print_attribute "name" (ext.stat_type_abbrev i),
         print_attribute "value"
           (ext.to_string_precision (p.scaling.get_stat i) report_precision),
         print_attribute "normalized"
           (ext.to_string_precision (p.scaling_normalized.get_stat i) report_precision),
         print_attribute "scaling_error"
           (ext.to_string_precision (p.scaling_error.get_stat i) report_precision),
         print_attribute "delta" (ext.to_string (sim.scaling.stats.get_stat i)),
         end_tag (some "stat")]
      else []) ++
    (List.range p.scaling_stats.length).flatMap (fun i =>
      [begin_tag "scaling_stat",
       print_attribute "name" (ext.stat_type_abbrev (p.scaling_stats.getD i 0)),
       print_attribute "index" (ext.to_string_int i)] ++
      (if i > 0 then
        if p.scaling.get_stat (p.scaling_stats.getD (i - 1) 0) -
              p.scaling.get_stat (p.scaling_stats.getD i 0) >
            ext.sqrt
              (p.scaling_compare_error.get_stat (p.scaling_stats.getD (i - 1) 0) *
                  p.scaling_compare_error.get_stat (p.scaling_stats.getD (i - 1) 0) / 4 +
                p.scaling_compare_error.get_stat (p.scaling_stats.getD i 0) *
                  p.scaling_compare_error.get_stat (p.scaling_stats.getD i 0) / 4) * 2 then
          [print_attribute "relative_to_previous" ">"]
        else
          [print_attribute "relative_to_previous" "="]
      else []) ++
      [end_tag (some "scaling_stat")]) ++
    [end_tag (some "weights")] ++
    (if sim.scaling.normalize_scale_factors then
      [begin_tag "dps_per_point",
       print_attribute "stat" (ext.stat_type_abbrev p.normalize_by),
       print_attribute "value"
         (ext.to_string_precision (p.scaling.get_stat p.normalize_by) report_precision),
       end_tag (some "dps_per_point")]
    else []) ++
    (if sim.scaling.scale_lag then
      [begin_tag "scale_lag_ms",
       print_attribute "value" (ext.to_string_precision p.scaling_lag report_precision),
       print_attribute "error" (ext.to_string_precision p.scaling_lag_error report_precision),
       end_tag (some "scale_lag_ms")]
    else []) ++
    [begin_tag "link",
     print_attribute "name" "wowhead",
     print_attribute "type" "ranking",
     print_attribute_unescaped "href" p.gear_weights_wowhead_link,
     end_tag (some "link")] ++
    [begin_tag "link",
     print_attribute "name" "lootrank",
     print_attribute "type" "ranking",
     print_attribute "href" p.gear_weights_lootrank_link,
     end_tag (some "link")] ++
    [begin_tag "link",
     print_attribute "name" "wowreforge",
     print_attribute "type" "optimizer",
     print_attribute "href" p.gear_weights_wowreforge_link,
     end_tag (some "link")] ++
    [end_tag (some "scale_factors")]

/-- The function `print_xml_player_dps_plots`; `sim` is `p -> sim`.  The division of
`dps_plot_points` by `2` is the division of `int`, which truncates. -/
def print_xml_player_dps_plots (ext : externals) (sim : sim_t) (p : player_t) :
    List statement :=
  if sim.plot.dps_plot_stat_str = "" then []
  else
    let range : Int := Int.tdiv sim.plot.dps_plot_points 2
    let min : ℚ := ((-range : Int) : ℚ) * sim.plot.dps_plot_step
    let max : ℚ := ((range : Int) : ℚ) * sim.plot.dps_plot_step
    let points : Int := 1 + range * 2
    [begin_tag "dps_plot_data",
     print_attribute "min" (ext.to_string_precision min 1),
     print_attribute "max" (ext.to_string_precision max 1),
     print_attribute "points" (ext.to_string_int points)] ++
    (List.range ext.STAT_MAX).flatMap (fun i =>
      let pd := p.dps_plot_data i
      if pd ≠ [] then
        [begin_tag "dps",
         print_attribute "stat" (ext.stat_type_abbrev i)] ++
        pd.map (fun value => print_tag "value" (ext.to_string_precision value 0)) ++
        [end_tag (some "dps")]
      else []) ++
    [end_tag (some "dps_plot_data")]

def print_xml_player_charts (p : player_t) : List statement :=
  [begin_tag "charts"] ++
  (if p.action_dpet_chart ≠ "" then
    [begin_tag "chart",
     print_attribute "type" "dpet",
     print_attribute_unescaped "href" p.action_dmg_chart,
     end_tag (some "chart")]
  else []) ++
  (if p.action_dmg_chart ≠ "" then
    [begin_tag "chart",
     print_attribute "type" "dmg",
     print_attribute_unescaped "href" p.action_dmg_chart,
     end_tag (some "chart")]
  else []) ++
  (if p.scaling_dps_chart ≠ "" then
    [begin_tag "chart",
     print_attribute "type" "scaling_dps",
     print_attribute_unescaped "href" p.scaling_dps_chart,
     end_tag (some "chart")]
  else []) ++
  (if p.reforge_dps_chart ≠ "" then
    [begin_tag "chart",
     print_attribute "type" "reforge_dps",
     print_attribute_unescaped "href" p.reforge_dps_chart,
     end_tag (some "chart")]
  else []) ++
  (if p.scale_factors_chart ≠ "" then
    [begin_tag "chart",
     print_attribute "type" "scale_factors",
     print_attribute_unescaped "href" p.scale_factors_chart,
     end_tag (some "chart")]
  else []) ++
  (if p.timeline_dps_chart ≠ "" then
    [begin_tag "chart",
     print_attribute "type" "timeline_dps",
     print_attribute_unescaped "href" p.timeline_dps_chart,
     end_tag (some "chart")]
  else []) ++
  (if p.distribution_dps_chart ≠ "" then
    [begin_tag "chart",
     print_attribute "type" "distribution_dps",
     print_attribute_unescaped "href" p.distribution_dps_chart,
     end_tag (some "chart")]
  else []) ++
  (if p.time_spent_chart ≠ "" then
    [begin_tag "chart",
     print_attribute "type" "time_spent",
     print_attribute_unescaped "href" p.time_spent_chart,
     end_tag (some "chart")]
  else []) ++
  [end_tag (some "charts")]

def print_xml_buffs (ext : externals) (sim : sim_t) : List statement :=
  [begin_tag "buffs"] ++
  sim.buff_list.flatMap (fun b =>
    if b.quiet = true ∨ b.start_count = 0 then []
    else
      [begin_tag "buff",
       print_attribute "name" b.name,
       print_attribute "type" (if b.constant then "constant" else "dynamic")] ++
      (if b.constant then
        [print_attribute "start" (ext.to_string_precision b.avg_start 1),
         print_attribute "refresh" (ext.to_string_precision b.avg_refresh 1),
         print_attribute "interval" (ext.to_string_precision b.avg_start_interval 1),
         print_attribute "trigger" (ext.to_string_precision b.avg_trigger_interval 1),
         print_attribute "uptime" (ext.to_string_precision b.uptime_pct 0)] ++
        (if b.benefit_pct > 0 ∧ b.benefit_pct < 100 then
          [print_attribute "benefit" (ext.to_string b.benefit_pct)]
        else []) ++
        (if b.trigger_pct > 0 ∧ b.trigger_pct < 100 then
          [print_attribute "trigger" (ext.to_string b.trigger_pct)]
        else [])
      else []) ++
      [end_tag (some "buff")]) ++
  [end_tag (some "buffs")]

/-- The function `print_xml_hat_donors`.  `std::sort` with `compare_hat_donor_interval`
orders the donors by ascending `frequency`; the order it leaves among donors of
equal frequency is unspecified, and the embedding keeps their order. -/
def print_xml_hat_donors (ext : externals) (sim : sim_t) : List statement :=
  let hat_donors : List player_t :=
    (sim.players_by_name.map roster_entry.player).filter (fun p => p.hat_donor.count ≠ 0)
  if hat_donors.length ≠ 0 then
    [begin_tag "honor_among_thieves"] ++
    (hat_donors.insertionSort
        (fun l r => l.hat_donor.frequency ≤ r.hat_donor.frequency)).flatMap (fun p =>
      [begin_tag "donors",
       print_attribute "name" p.name,
       print_attribute "frequency_sec" (ext.to_string_precision p.hat_donor.frequency 2),
       print_attribute "frequency_pct"
         (ext.to_string_precision (1 / p.hat_donor.frequency) 3),
       end_tag (some "donors")]) ++
    [end_tag (some "honor_among_thieves")]
  else []

def print_xml_performance (ext : externals) (sim : sim_t) : List statement :=
  [begin_tag "performance",
   print_tag "total_events" (ext.to_string_int sim.total_events_processed),
   print_tag "max_event_queue" (ext.to_string_int sim.max_events_remaining),
   print_tag "target_health"
     (ext.to_string_precision (sim.target_resource_base resource_type.RESOURCE_HEALTH) 0),
   print_tag "sim_seconds"
     (ext.to_string_precision ((sim.iterations : ℚ) * sim.simulation_length.mean) 0),
   print_tag "cpu_seconds" (ext.to_string_precision sim.elapsed_cpu_seconds 3),
   print_tag "speed_up"
     (ext.to_string_precision
       ((sim.iterations : ℚ) * sim.simulation_length.mean / sim.elapsed_cpu_seconds) 0),
   begin_tag "rng",
   print_attribute "roll"
     (ext.to_string_precision
       (if sim.rng.expected_roll = 0 then 1 else sim.rng.actual_roll / sim.rng.expected_roll) 6),
   print_attribute "range"
     (ext.to_string_precision
       (if sim.rng.expected_range = 0 then 1
        else sim.rng.actual_range / sim.rng.expected_range) 6),
   print_attribute "gauss"
     (ext.to_string_precision
       (if sim.rng.expected_gauss = 0 then 1
        else sim.rng.actual_gauss / sim.rng.expected_gauss) 6),
   end_tag (some "rng"),
   end_tag (some "performance")]

def print_xml_config (ext : externals) (sim : sim_t) : List statement :=
  let min_length : ℚ := sim.max_time * (1 - sim.vary_combat_length)
  let max_length : ℚ := sim.max_time * (1 + sim.vary_combat_length)
  [begin_tag "config",
   print_tag "timestamp" ext.ctime,
   print_tag "iterations" (ext.to_string_int sim.iterations),
   begin_tag "fight_length"] ++
  (if sim.vary_combat_length > 0 then
    [print_attribute "min" (ext.to_string_precision min_length 0)]
  else []) ++
  [print_attribute "max" (ext.to_string_precision max_length 0),
   end_tag (some "fight_length"),
   print_tag "fight_style" sim.fight_style,
   print_tag "has_scale_factors" (if sim.scaling.has_scale_factors then "true" else "false"),
   print_tag "report_pets_separately" (if sim.report_pets_separately then "true" else "false"),
   print_tag "normalize_scale_factors"
     (if sim.scaling.normalize_scale_factors then "true" else "false"),
   end_tag (some "config")]

def print_xml_summary (ext : externals) (sim : sim_t) : List statement :=
  [begin_tag "summary",
   begin_tag "dmg",
   print_attribute "total" (ext.to_string_precision sim.total_dmg 0),
   print_attribute "dps" (ext.to_string_precision sim.raid_dps 0),
   end_tag (some "dmg")] ++
  (if sim.total_heal > 0 then
    [begin_tag "heal",
     print_attribute "total" (ext.to_string_precision sim.total_heal 0),
     print_attribute "hps" (ext.to_string_precision sim.raid_hps 0),
     end_tag (some "heal")]
  else []) ++
  [begin_tag "charts"] ++
  sim.dps_charts.flatMap (fun chart =>
    [begin_tag "chart",
     print_attribute "type" "dps",
     print_attribute_unescaped "img_src" chart,
     end_tag (some "chart")]) ++
  sim.gear_charts.flatMap (fun chart =>
    [begin_tag "chart",
     print_attribute "type" "gear",
     print_attribute_unescaped "img_src" chart,
     end_tag (some "chart")]) ++
  sim.dpet_charts.flatMap (fun chart =>
    [begin_tag "chart",
     print_attribute "type" "dpet",
     print_attribute_unescaped "img_src" chart,
     end_tag (some "chart")]) ++
  [end_tag none] ++
  print_xml_raid_events ext sim ++
  [end_tag (some "summary")]

/-- The function `print_xml_player`; `owner` is `none` for the null pointer. -/
def print_xml_player (ext : externals) (sim : sim_t) (p : player_t) (owner : Option player_t) :
    List statement :=
  [begin_tag "player",
   print_attribute "name" p.name] ++
  (match owner with
    | some o => [print_attribute "owner" o.name]
    | none => []) ++
  [print_tag "target_type"
     (if p.is_enemy then "Target" else if p.is_add then "Add" else "Player"),
   print_tag "level" (ext.to_string_int p.level),
   print_tag "race" p.race_str,
   print_tag "player_type" (ext.player_type_string p.type)] ++
  (if p.is_pet then [print_tag "pet_type" (ext.pet_type_string p.pet_type)] else []) ++
  [print_tag "talent_tree" (ext.talent_tree_string p.primary_tree),
   print_tag "primary_role" (ext.role_type_string p.primary_role),
   print_tag "position" p.position_str,
   begin_tag "dps",
   print_attribute "value" (ext.to_string_precision p.dps.mean PRINT_XML_PRECISION),
   print_attribute "effective" (ext.to_string_precision p.dpse.mean PRINT_XML_PRECISION),
   print_attribute "error" (ext.to_string_precision p.dps_error PRINT_XML_PRECISION),
   print_attribute "range"
     (ext.to_string_precision ((p.dps.max - p.dps.min) / 2) PRINT_XML_PRECISION),
   print_attribute "convergence"
     (ext.to_string_precision p.dps_convergence PRINT_XML_PRECISION),
   end_tag (some "dps")] ++
  (if p.rps_loss > 0 then
    [begin_tag "dpr",
     print_attribute "value" (ext.to_string_precision p.dpr PRINT_XML_PRECISION),
     print_attribute "rps_loss" (ext.to_string_precision p.rps_loss PRINT_XML_PRECISION),
     print_attribute "rps_gain" (ext.to_string_precision p.rps_gain PRINT_XML_PRECISION),
     print_attribute "resource" (ext.resource_type_string p.primary_resource),
     end_tag (some "dpr")]
  else []) ++
  [print_tag "waiting_time_pct"
     (ext.to_string_precision
       (if p.fight_length.mean ≠ 0 then 100 * p.waiting_time.mean / p.fight_length.mean else 0)
       PRINT_XML_PRECISION),
   print_tag "apm"
     (ext.to_string_precision
       (if p.fight_length.mean ≠ 0 then
          60 * p.executed_foreground_actions.mean / p.fight_length.mean
        else 0)
       PRINT_XML_PRECISION),
   print_tag "active_time_pct"
     (ext.to_string_precision
       (if sim.simulation_length.mean ≠ 0 then
          p.fight_length.mean / sim.simulation_length.mean * 100
        else 0)
       PRINT_XML_PRECISION)] ++
  (if p.origin_str ≠ "unknown" then [print_tag "origin" p.origin_str] else []) ++
  (if p.talents_str ≠ "" then [print_tag "talents_url" p.talents_str] else []) ++
  print_xml_player_stats ext p ++
  print_xml_player_actions ext p ++
  print_xml_player_buffs ext p ++
  print_xml_player_uptime ext p ++
  print_xml_player_procs ext p ++
  print_xml_player_gains ext p ++
  print_xml_player_scale_factors ext sim p ++
  print_xml_player_dps_plots ext sim p ++
  print_xml_player_charts p ++
  [end_tag (some "player")]

/-- The function `print_xml_roster`.  The loop reads `players_by_name[ i ]` for every
`i` below `players_by_dps.size()`: `none` is the read past the end of `players_by_name`. -/
def print_xml_roster (ext : externals) (sim : sim_t) : Option (List statement) :=
  if sim.players_by_dps_size ≤ sim.players_by_name.length then
    some
      ([begin_tag "players"] ++
       (sim.players_by_name.take sim.players_by_dps_size).flatMap (fun entry =>
         print_xml_player ext sim entry.player none ++
         entry.pet_list.flatMap (fun pet =>
           if pet.summoned then print_xml_player ext sim pet.toplayer_t (some entry.player)
           else [])) ++
       [end_tag (some "players")])
  else none

def print_xml_targets (ext : externals) (sim : sim_t) : List statement :=
  [begin_tag "targets"] ++
  sim.targets_by_name.flatMap (fun entry =>
    print_xml_player ext sim entry.player none ++
    entry.pet_list.flatMap (fun pet =>
      if pet.summoned then print_xml_player ext sim pet.toplayer_t (some entry.player)
      else [])) ++
  [end_tag (some "targets")]

/-- The statements `report_t::print_xml` makes on its writer after `init_document`. -/
def print_xml_statements (ext : externals) (sim : sim_t) : Option (List statement) :=
  (print_xml_roster ext sim).map (fun roster =>
    [begin_tag "simulationcraft",
     print_attribute "major_version" ext.SC_MAJOR_VERSION,
     print_attribute "minor_version" ext.SC_MINOR_VERSION,
     print_attribute "wow_version" (ext.wow_version sim.ptr),
     print_attribute "ptr" (if sim.ptr then "true" else "false"),
     print_attribute "wow_build" (ext.build_level sim.ptr)] ++
    (if ext.SC_BETA then [print_attribute "beta" "true"] else []) ++
    print_xml_config ext sim ++
    print_xml_summary ext sim ++
    print_xml_raid_events ext sim ++
    roster ++
    print_xml_targets ext sim ++
    print_xml_buffs ext sim ++
    print_xml_hat_donors ext sim ++
    print_xml_performance ext sim ++
    print_xml_errors sim ++
    [end_tag (some "simulationcraft")])

end report_functions

/-- The function `report_t::print_xml`: the writer as the function leaves it.  `none`
when the function returns before it has a writer (no player, a simulation of
length zero, no file name), or when a call fails or is undefined. -/
def print_xml (ext : externals) (sim : sim_t) : Option xml_writer_t :=
  if sim.players_by_name.length = 0 then none
  else if sim.simulation_length.mean = 0 then none
  else if sim.xml_file_str = "" then none
  else
    match print_xml_statements ext sim with
    | none => none
    | some statements =>
        (xml_writer_t.mk_new sim.xml_file_str).run
          (call.init_document sim.xml_stylesheet_file_str :: statements.map statement.call)

/-- The names of the attributes the statements write, in order. -/
def attribute_names : List statement → List String
  | [] => []
  | statement.print_attribute name _ :: cs => name :: attribute_names cs
  | statement.print_attribute_unescaped name _ :: cs => name :: attribute_names cs
  | _ :: cs => attribute_names cs

/-- The href of the first element of the statements that has the attribute `type`
equal to `kind` followed at once by an attribute `href` written unescaped; `none` when
there is no such element. -/
def chart_href (kind : String) : List statement → Option String
  | [] => none
  | c :: cs =>
      match c, cs.head? with
      | statement.print_attribute name value,
        some (statement.print_attribute_unescaped name1 href) =>
          if name = "type" ∧ value = kind ∧ name1 = "href" then some href
          else chart_href kind cs
      | _, _ => chart_href kind cs

end report_xml

/-! # Theorems -/

namespace profileset

/-! ## `profile_result_t` -/

namespace profile_result_t

lemma call_preserves_ordered (r : profile_result_t) (c : setter_call)
    (hr : r.statistical_data.ordered) (hc : keeps_order r c) :
    (call r c).statistical_data.ordered := by
  obtain ⟨h1, h2, h3, h4, h5⟩ := hr
  simp only [statistical_data] at h1 h2 h3 h4 h5
  cases c <;>
    simp only [keeps_order] at hc <;>
    simp only [call, set_mean, set_median, set_min, set_max, set_first_quartile,
      set_third_quartile, set_stddev, set_iterations, statistical_data,
      statistical_data_t.ordered] <;>
    (first
      | exact ⟨h1, h2, h3, h4, h5⟩
      | exact ⟨h1, hc.1, hc.2, h4, h5⟩
      | exact ⟨hc, h2, h3, h4, h5⟩
      | exact ⟨h1, h2, h3, hc, h5⟩
      | exact ⟨hc.1, hc.2, h3, h4, h5⟩
      | exact ⟨h1, h2, hc.1, hc.2, h5⟩
      | exact ⟨h1, h2, h3, h4, hc⟩)

lemma chain_preserves_ordered (cs : List setter_call) :
    ∀ r : profile_result_t, r.statistical_data.ordered → chain_keeps_order r cs →
      (chain r cs).statistical_data.ordered := by
  induction cs with
  | nil => intro r hr _; simpa [chain] using hr
  | cons c cs ih =>
      intro r hr hk
      have := ih (call r c) (call_preserves_ordered r c hr hk.1) hk.2
      simpa [chain] using this

lemma mk_default_ordered : mk_default.statistical_data.ordered := by
  simp [mk_default, statistical_data, statistical_data_t.ordered]

lemma mk_metric_ordered (m : scale_metric_e) : (mk_metric m).statistical_data.ordered := by
  simp [mk_metric, statistical_data, statistical_data_t.ordered]

/-- C1, as stated, fails: the value `profile_result_t().min( 1 )` is reachable through
the public operations and its summary has `min = 1 > 0 = first_quartile`. -/
theorem reachable_summary_not_always_ordered :
    ¬ ∀ r : profile_result_t, r.reachable → r.statistical_data.ordered := by
  intro h
  have hr : (chain mk_default [setter_call.min 1]).reachable := ⟨[setter_call.min 1], Or.inl rfl⟩
  have := (h _ hr).1
  norm_num [chain, call, set_min, mk_default, statistical_data] at this

/-- C1, amended: starting from either constructor, after any chain of fluent setter
calls each of which writes a value lying between the stored neighbours of its
field (and a non-negative standard deviation; `mean` and `iterations` are free),
`statistical_data()` satisfies `min ≤ first_quartile ≤ median ≤ third_quartile ≤ max`
and `std_dev ≥ 0`. -/
theorem summary_ordered_of_chain_keeps_order (r0 : profile_result_t) (cs : List setter_call)
    (h0 : r0 = mk_default ∨ ∃ m : scale_metric_e, r0 = mk_metric m)
    (hcs : chain_keeps_order r0 cs) :
    (chain r0 cs).statistical_data.ordered := by
  apply chain_preserves_ordered cs r0 _ hcs
  rcases h0 with rfl | ⟨m, rfl⟩
  · exact mk_default_ordered
  · exact mk_metric_ordered m

/-- Witness for C1 (amended): the chain
`profile_result_t().max( 5 ).third_quartile( 4 ).median( 3 ).first_quartile( 2 ).min( 1 )
.stddev( 1 ).mean( 3 ).iterations( 10 )` keeps the order at every call and ends in
an ordered summary. -/
theorem summary_ordered_of_chain_keeps_order_witness :
    (chain mk_default
      [setter_call.max 5, setter_call.third_quartile 4, setter_call.median 3,
        setter_call.first_quartile 2, setter_call.min 1, setter_call.stddev 1,
        setter_call.mean 3, setter_call.iterations 10]).statistical_data
      = { min := 1, first_quartile := 2, median := 3, mean := 3, third_quartile := 4,
          max := 5, std_dev := 1 } ∧
    (chain mk_default
      [setter_call.max 5, setter_call.third_quartile 4, setter_call.median 3,
        setter_call.first_quartile 2, setter_call.min 1, setter_call.stddev 1,
        setter_call.mean 3, setter_call.iterations 10]).statistical_data.ordered :=
  ⟨by simp [chain, call, set_mean, set_median, set_min, set_max, set_first_quartile,
      set_third_quartile, set_stddev, set_iterations, mk_default, statistical_data],
    summary_ordered_of_chain_keeps_order mk_default _ (Or.inl rfl)
      (by norm_num [chain_keeps_order, keeps_order, call, set_mean, set_median, set_min,
        set_max, set_first_quartile, set_third_quartile, set_stddev, set_iterations,
        mk_default])⟩

/-- C4: `statistical_data()` returns the summary whose fields, in declaration order,
are `min()`, `first_quartile()`, `median()`, `mean()`, `third_quartile()`, `max()` and
`stddev()` of the object; the member is `const`, a function of the object alone,
so the object is the same before and after the call. -/
theorem statistical_data_fields (r : profile_result_t) :
    r.statistical_data.min = r.min ∧
    r.statistical_data.first_quartile = r.first_quartile ∧
    r.statistical_data.median = r.median ∧
    r.statistical_data.mean = r.mean ∧
    r.statistical_data.third_quartile = r.third_quartile ∧
    r.statistical_data.max = r.max ∧
    r.statistical_data.std_dev = r.stddev ∧
    r.statistical_data =
      { min := r.min, first_quartile := r.first_quartile, median := r.median, mean := r.mean,
        third_quartile := r.third_quartile, max := r.max, std_dev := r.stddev } :=
  ⟨rfl, rfl, rfl, rfl, rfl, rfl, rfl, rfl⟩

/-- C5: a default-constructed `profile_result_t` has metric kind `SCALE_METRIC_NONE`,
all seven statistics `0` and iteration count `0`; `profile_result_t( m )` has metric
kind `m`, the same zero statistics and iteration count `0`. -/
theorem constructors_zero_valued :
    (mk_default.metric = scale_metric_e.SCALE_METRIC_NONE ∧
      mk_default.mean = 0 ∧ mk_default.median = 0 ∧ mk_default.min = 0 ∧ mk_default.max = 0 ∧
      mk_default.first_quartile = 0 ∧ mk_default.third_quartile = 0 ∧ mk_default.stddev = 0 ∧
      mk_default.iterations = 0) ∧
    ∀ m : scale_metric_e,
      (mk_metric m).metric = m ∧
      (mk_metric m).mean = 0 ∧ (mk_metric m).median = 0 ∧ (mk_metric m).min = 0 ∧
      (mk_metric m).max = 0 ∧ (mk_metric m).first_quartile = 0 ∧
      (mk_metric m).third_quartile = 0 ∧ (mk_metric m).stddev = 0 ∧
      (mk_metric m).iterations = 0 :=
  ⟨⟨rfl, rfl, rfl, rfl, rfl, rfl, rfl, rfl, rfl⟩,
    fun _ => ⟨rfl, rfl, rfl, rfl, rfl, rfl, rfl, rfl, rfl⟩⟩

end profile_result_t

/-! ## `collect` -/

lemma foldl_min_le (xs : List ℚ) :
    ∀ x : ℚ, xs.foldl Min.min x ≤ x ∧ ∀ y ∈ xs, xs.foldl Min.min x ≤ y := by
  induction xs with
  | nil => intro x; simp
  | cons a xs ih =>
      intro x
      obtain ⟨h1, h2⟩ := ih (Min.min x a)
      refine ⟨le_trans h1 (min_le_left _ _), ?_⟩
      intro y hy
      rcases List.mem_cons.mp hy with rfl | hy
      · exact le_trans h1 (min_le_right _ _)
      · exact h2 y hy

lemma le_foldl_max (xs : List ℚ) :
    ∀ x : ℚ, x ≤ xs.foldl Max.max x ∧ ∀ y ∈ xs, y ≤ xs.foldl Max.max x := by
  induction xs with
  | nil => intro x; simp
  | cons a xs ih =>
      intro x
      obtain ⟨h1, h2⟩ := ih (Max.max x a)
      refine ⟨le_trans (le_max_left _ _) h1, ?_⟩
      intro y hy
      rcases List.mem_cons.mp hy with rfl | hy
      · exact le_trans (le_max_right _ _) h1
      · exact h2 y hy

lemma sample_min_le {xs : List ℚ} {y : ℚ} (hy : y ∈ xs) : sample_min xs ≤ y := by
  cases xs with
  | nil => simp at hy
  | cons a xs =>
      rcases List.mem_cons.mp hy with rfl | hy
      · exact (foldl_min_le xs _).1
      · exact (foldl_min_le xs a).2 y hy

lemma le_sample_max {xs : List ℚ} {y : ℚ} (hy : y ∈ xs) : y ≤ sample_max xs := by
  cases xs with
  | nil => simp at hy
  | cons a xs =>
      rcases List.mem_cons.mp hy with rfl | hy
      · exact (le_foldl_max xs _).1
      · exact (le_foldl_max xs a).2 y hy

lemma getD_mem {s : List ℚ} {i : Nat} (hi : i < s.length) : s.getD i 0 ∈ s := by
  rw [List.getD_eq_getElem _ _ hi]
  exact List.getElem_mem hi

lemma sorted_getD_le {s : List ℚ} (hs : s.Sorted (· ≤ ·)) {i j : Nat} (hij : i ≤ j)
    (hj : j < s.length) : s.getD i 0 ≤ s.getD j 0 := by
  rw [List.getD_eq_getElem _ _ hj, List.getD_eq_getElem _ _ (lt_of_le_of_lt hij hj)]
  have := hs.rel_get_of_le (a := ⟨i, lt_of_le_of_lt hij hj⟩) (b := ⟨j, hj⟩) hij
  simpa using this

lemma floor_toNat_cast {h : ℚ} (h0 : 0 ≤ h) : ((⌊h⌋.toNat : ℕ) : ℚ) = (⌊h⌋ : ℚ) := by
  have : 0 ≤ ⌊h⌋ := Int.floor_nonneg.mpr h0
  have h2 : ((⌊h⌋.toNat : ℕ) : ℤ) = ⌊h⌋ := Int.toNat_of_nonneg this
  exact_mod_cast congrArg (fun z : ℤ => (z : ℚ)) h2

lemma floor_toNat_le {h : ℚ} (h0 : 0 ≤ h) : ((⌊h⌋.toNat : ℕ) : ℚ) ≤ h := by
  rw [floor_toNat_cast h0]; exact Int.floor_le h

lemma lt_floor_toNat_succ {h : ℚ} (h0 : 0 ≤ h) : h < ((⌊h⌋.toNat : ℕ) : ℚ) + 1 := by
  rw [floor_toNat_cast h0]; exact Int.lt_floor_add_one h

lemma floor_toNat_le_pred {s : List ℚ} {h : ℚ} (h0 : 0 ≤ h) (hn : h ≤ (s.length : ℚ) - 1) :
    ⌊h⌋.toNat ≤ s.length - 1 := by
  have h1 := floor_toNat_le h0
  have h2 : ((⌊h⌋.toNat : ℕ) : ℚ) + 1 ≤ (s.length : ℚ) := by linarith
  have h3 : ⌊h⌋.toNat + 1 ≤ s.length := by exact_mod_cast h2
  omega

/-- An interpolated value lies between the two order statistics it is interpolated
from. -/
lemma interpolate_bounds {s : List ℚ} (hs : s.Sorted (· ≤ ·)) {h : ℚ}
    (h0 : 0 ≤ h) (hn : h ≤ (s.length : ℚ) - 1) :
    s.getD ⌊h⌋.toNat 0 ≤ interpolate s h ∧
      interpolate s h ≤ s.getD (Nat.min (⌊h⌋.toNat + 1) (s.length - 1)) 0 := by
  have hlo := floor_toNat_le_pred h0 hn
  have hlen : (1 : ℚ) ≤ (s.length : ℚ) := by linarith
  have hpos : 1 ≤ s.length := by exact_mod_cast hlen
  have hhi : Nat.min (⌊h⌋.toNat + 1) (s.length - 1) < s.length :=
    lt_of_le_of_lt (Nat.min_le_right _ _) (by omega)
  have hlohi : ⌊h⌋.toNat ≤ Nat.min (⌊h⌋.toNat + 1) (s.length - 1) :=
    Nat.le_min.mpr ⟨Nat.le_succ _, hlo⟩
  have hab := sorted_getD_le hs hlohi hhi
  have ht0 : 0 ≤ h - ((⌊h⌋.toNat : ℕ) : ℚ) := by linarith [floor_toNat_le h0]
  have ht1 : h - ((⌊h⌋.toNat : ℕ) : ℚ) ≤ 1 := by linarith [lt_floor_toNat_succ h0]
  unfold interpolate
  constructor
  · nlinarith
  · nlinarith

/-- On a sorted sample the interpolated value is monotone in the fractional rank. -/
lemma interpolate_mono {s : List ℚ} (hs : s.Sorted (· ≤ ·)) {h1 h2 : ℚ}
    (h0 : 0 ≤ h1) (h12 : h1 ≤ h2) (hn : h2 ≤ (s.length : ℚ) - 1) :
    interpolate s h1 ≤ interpolate s h2 := by
  have h0' : 0 ≤ h2 := le_trans h0 h12
  have hn' : h1 ≤ (s.length : ℚ) - 1 := le_trans h12 hn
  have hlen : (1 : ℚ) ≤ (s.length : ℚ) := by linarith
  have hpos : 1 ≤ s.length := by exact_mod_cast hlen
  have hfl : ⌊h1⌋.toNat ≤ ⌊h2⌋.toNat := Int.toNat_le_toNat (Int.floor_mono h12)
  have hlo := floor_toNat_le_pred h0' hn
  rcases Nat.eq_or_lt_of_le hfl with heq | hlt
  · have hhi : Nat.min (⌊h2⌋.toNat + 1) (s.length - 1) < s.length :=
      lt_of_le_of_lt (Nat.min_le_right _ _) (by omega)
    have hlohi : ⌊h2⌋.toNat ≤ Nat.min (⌊h2⌋.toNat + 1) (s.length - 1) :=
      Nat.le_min.mpr ⟨Nat.le_succ _, hlo⟩
    have hab := sorted_getD_le hs hlohi hhi
    unfold interpolate
    rw [heq]
    nlinarith
  · have hb1 := (interpolate_bounds hs h0 hn').2
    have hb2 := (interpolate_bounds hs h0' hn).1
    have hmid : s.getD (Nat.min (⌊h1⌋.toNat + 1) (s.length - 1)) 0 ≤ s.getD ⌊h2⌋.toNat 0 :=
      sorted_getD_le hs (le_trans (Nat.min_le_left _ _) hlt) (by omega)
    exact le_trans hb1 (le_trans hmid hb2)

/-- C2: for every sample distribution `c` (and whatever the square root used for the
standard deviation), the summary `collect( c )` satisfies
`min ≤ first_quartile ≤ median ≤ third_quartile ≤ max`. -/
theorem collect_quartiles_ordered (sqrt : ℚ → ℚ) (c : extended_sample_data_t) :
    (collect sqrt c).min ≤ (collect sqrt c).first_quartile ∧
    (collect sqrt c).first_quartile ≤ (collect sqrt c).median ∧
    (collect sqrt c).median ≤ (collect sqrt c).third_quartile ∧
    (collect sqrt c).third_quartile ≤ (collect sqrt c).max := by
  by_cases hc : c.data = []
  · simp [collect, hc]
  · have hs : (c.data.insertionSort (· ≤ ·)).Sorted (· ≤ ·) := List.sorted_insertionSort _ _
    have hlen : (c.data.insertionSort (· ≤ ·)).length = c.data.length :=
      List.length_insertionSort _ _
    have hperm : (c.data.insertionSort (· ≤ ·)).Perm c.data := List.perm_insertionSort _ _
    have hpos : 0 < (c.data.insertionSort (· ≤ ·)).length := by
      rw [hlen]; exact List.length_pos.mpr hc
    have hn : (0 : ℚ) ≤ ((c.data.insertionSort (· ≤ ·)).length : ℚ) - 1 := by
      have : (1 : ℚ) ≤ ((c.data.insertionSort (· ≤ ·)).length : ℚ) := by exact_mod_cast hpos
      linarith
    simp only [collect, if_neg hc, percentile]
    refine ⟨?_, ?_, ?_, ?_⟩
    · have hb := (interpolate_bounds hs
        (h := 1 / 4 * (((c.data.insertionSort (· ≤ ·)).length : ℚ) - 1))
        (by linarith) (by linarith)).1
      refine le_trans (sample_min_le (hperm.subset (getD_mem ?_))) hb
      have := floor_toNat_le_pred (s := c.data.insertionSort (· ≤ ·))
        (h := 1 / 4 * (((c.data.insertionSort (· ≤ ·)).length : ℚ) - 1))
        (by linarith) (by linarith)
      omega
    · exact interpolate_mono hs (by linarith) (by linarith) (by linarith)
    · exact interpolate_mono hs (by linarith) (by linarith) (by linarith)
    · have hb := (interpolate_bounds hs
        (h := 3 / 4 * (((c.data.insertionSort (· ≤ ·)).length : ℚ) - 1))
        (by linarith) (by linarith)).2
      refine le_trans hb (le_sample_max (hperm.subset (getD_mem ?_)))
      exact lt_of_le_of_lt (Nat.min_le_right _ _) (by omega)

/-- C3: for a distribution with exactly one sample `x`, `collect` returns the summary
whose `min`, `first_quartile`, `median`, `mean`, `third_quartile` and `max` are `x`
and whose `std_dev` is `0`; for the empty distribution it returns the all-zero
summary.  `collect` is a total function into summaries, so neither case fails.
The square root used for the standard deviation is assumed to map `0` to `0`. -/
theorem collect_degenerate (sqrt : ℚ → ℚ) (h0 : sqrt 0 = 0) (x : ℚ) :
    collect sqrt { data := [x] } =
      { min := x, first_quartile := x, median := x, mean := x, third_quartile := x, max := x,
        std_dev := 0 } ∧
    collect sqrt { data := [] } =
      { min := 0, first_quartile := 0, median := 0, mean := 0, third_quartile := 0, max := 0,
        std_dev := 0 } := by
  constructor
  · simp [collect, percentile, interpolate, sample_min, sample_max, sample_mean,
      sample_variance, h0]
  · simp [collect]

/-- Witness for C3: with the rational square root `Rat.sqrt`, which maps `0` to `0`,
the single sample `7` gives the summary that is `7` throughout with `std_dev = 0`. -/
theorem collect_degenerate_witness :
    Rat.sqrt 0 = 0 ∧
    collect Rat.sqrt { data := [7] } =
      { min := 7, first_quartile := 7, median := 7, mean := 7, third_quartile := 7, max := 7,
        std_dev := 0 } ∧
    collect Rat.sqrt { data := [] } =
      { min := 0, first_quartile := 0, median := 0, mean := 0, third_quartile := 0, max := 0,
        std_dev := 0 } :=
  ⟨by simp [Rat.sqrt], collect_degenerate Rat.sqrt (by simp [Rat.sqrt]) 7⟩

/-! ## `profilesets_t::parse` -/

namespace profilesets_t

variable {MAX_GEM_SLOTS : Nat}

lemma parse_variant_eq_some
    {create_sim_options : sim_control_t → List String → Option sim_control_t}
    {baseline : sim_control_t} {p p1 : profilesets_t MAX_GEM_SLOTS} {v : variant_input} {i : Int}
    (h : parse_variant create_sim_options baseline p v = some (i, p1)) :
    v.name ≠ "" ∧ v.name ∉ p.m_profilesets.map profile_set_t.name ∧
      i = p.m_insert_index + 1 ∧
      p1 = { p with
        m_insert_index := p.m_insert_index + 1
        m_profilesets := p.m_profilesets ++
          [profile_set_t.mk_new v.name (create_sim_options baseline v.options) v.has_output] } := by
  unfold parse_variant at h
  split_ifs at h with h1 h2
  cases hc : create_sim_options baseline v.options with
  | none => simp [hc] at h
  | some opts =>
      simp only [hc, Option.some.injEq, Prod.mk.injEq] at h
      refine ⟨h1, ?_, h.1.symm, h.2.symm⟩
      intro hmem
      apply h2
      rw [List.any_eq_true]
      obtain ⟨q, hq, hqn⟩ := List.mem_map.mp hmem
      exact ⟨q, hq, by simpa using hqn⟩

lemma parse_loop_eq_some
    {create_sim_options : sim_control_t → List String → Option sim_control_t}
    {baseline : sim_control_t} (vs : List variant_input) :
    ∀ {p p2 : profilesets_t MAX_GEM_SLOTS} {is : List Int},
      parse_loop create_sim_options baseline p vs = some (is, p2) →
      (∀ v ∈ vs, v.name ≠ "") ∧ (vs.map fun v => v.name).Nodup ∧
        ∀ v ∈ vs, v.name ∉ p.m_profilesets.map profile_set_t.name := by
  induction vs with
  | nil => intro p p2 is _; simp
  | cons v vs ih =>
      intro p p2 is h
      unfold parse_loop at h
      cases hv : parse_variant create_sim_options baseline p v with
      | none => simp [hv] at h
      | some r =>
          obtain ⟨i, p1⟩ := r
          cases hl : parse_loop create_sim_options baseline p1 vs with
          | none => simp [hv, hl] at h
          | some r2 =>
              obtain ⟨is2, p3⟩ := r2
              obtain ⟨hne, hnot, _, hp1⟩ := parse_variant_eq_some hv
              obtain ⟨ih1, ih2, ih3⟩ := ih hl
              have hsplit : ∀ w ∈ vs, w.name ∉ p.m_profilesets.map profile_set_t.name ∧
                  w.name ≠ v.name := by
                intro w hw
                have := ih3 w hw
                rw [hp1] at this
                simp only [List.map_append, List.mem_append, List.map_cons, List.map_nil,
                  List.mem_singleton, not_or] at this
                exact ⟨this.1, by simpa [profile_set_t.mk_new, profile_set_t.name] using this.2⟩
              refine ⟨?_, ?_, ?_⟩
              · intro w hw
                rcases List.mem_cons.mp hw with rfl | hw
                · exact hne
                · exact ih1 w hw
              · rw [List.map_cons, List.nodup_cons]
                refine ⟨?_, ih2⟩
                intro hmem
                obtain ⟨w, hw, hwn⟩ := List.mem_map.mp hmem
                exact (hsplit w hw).2 hwn
              · intro w hw
                rcases List.mem_cons.mp hw with rfl | hw
                · exact hnot
                · exact (hsplit w hw).1

lemma parse_loop_succeeds
    (create_sim_options : sim_control_t → List String → Option sim_control_t)
    (baseline : sim_control_t) (vs : List variant_input) :
    ∀ p : profilesets_t MAX_GEM_SLOTS,
      (∀ v ∈ vs, v.name ≠ "") → (vs.map fun v => v.name).Nodup →
      (∀ v ∈ vs, v.name ∉ p.m_profilesets.map profile_set_t.name) →
      (∀ v ∈ vs, (create_sim_options baseline v.options).isSome = true) →
      parse_loop create_sim_options baseline p vs =
        some ((List.range vs.length).map (fun k : Nat => p.m_insert_index + 1 + (k : Int)),
          { p with
            m_insert_index := p.m_insert_index + (vs.length : Int)
            m_profilesets := p.m_profilesets ++ vs.map fun v =>
              profile_set_t.mk_new v.name (create_sim_options baseline v.options)
                v.has_output }) := by
  induction vs with
  | nil => intro p _ _ _ _; simp [parse_loop]
  | cons v vs ih =>
      intro p hne hnd hnot hopts
      obtain ⟨opts, hc⟩ := Option.isSome_iff_exists.mp (hopts v (List.mem_cons_self _ _))
      have hvne : v.name ≠ "" := hne v (List.mem_cons_self _ _)
      have hvnot : v.name ∉ p.m_profilesets.map profile_set_t.name :=
        hnot v (List.mem_cons_self _ _)
      have hany : (p.m_profilesets.any fun q => decide (q.name = v.name)) = false := by
        rw [Bool.eq_false_iff]
        intro hany
        rw [List.any_eq_true] at hany
        obtain ⟨q, hq, hqn⟩ := hany
        exact hvnot (List.mem_map.mpr ⟨q, hq, by simpa using hqn⟩)
      have hv : parse_variant create_sim_options baseline p v =
          some (p.m_insert_index + 1,
            { p with
              m_insert_index := p.m_insert_index + 1
              m_profilesets := p.m_profilesets ++
                [profile_set_t.mk_new v.name (some opts) v.has_output] }) := by
        simp [parse_variant, hvne, hany, hc]
      rw [List.map_cons, List.nodup_cons] at hnd
      have hrest := ih
        { p with
          m_insert_index := p.m_insert_index + 1
          m_profilesets := p.m_profilesets ++
            [profile_set_t.mk_new v.name (some opts) v.has_output] }
        (fun w hw => hne w (List.mem_cons_of_mem _ hw)) hnd.2
        (by
          intro w hw
          simp only [List.map_append, List.mem_append, List.map_cons, List.map_nil,
            List.mem_singleton, not_or]
          refine ⟨hnot w (List.mem_cons_of_mem _ hw), ?_⟩
          intro hwv
          apply hnd.1
          exact List.mem_map.mpr ⟨w, hw, by simpa [profile_set_t.mk_new, profile_set_t.name] using hwv⟩)
        (fun w hw => hopts w (List.mem_cons_of_mem _ hw))
      unfold parse_loop
      rw [hv]
      simp only [hrest, hc]
      simp only [List.length_cons, List.range_succ_eq_map, List.map_cons, List.map_map,
        Option.some.injEq, Prod.mk.injEq, List.cons.injEq]
      refine ⟨⟨by simp, ?_⟩, ?_⟩
      · apply List.map_congr_left
        intro k _
        simp only [Function.comp, Nat.cast_succ]
        ring
      · simp only [List.append_assoc, List.singleton_append, Nat.cast_add, Nat.cast_one]
        congr 1
        · rw [hc]
        · ring

/-- C6: for every parse input in which a variant name is empty or two variants have
exactly the same name, `parse` fails and leaves the orchestrator as it was (no
partially built variant list remains); on a newly constructed orchestrator it
returns `false` and `n_profilesets()` is `0` afterwards. -/
theorem parse_fails_on_empty_or_duplicate_name
    (create_sim_options : sim_control_t → List String → Option sim_control_t) (sim : sim_t)
    (h : (∃ v ∈ sim.variants, v.name = "") ∨ ¬ (sim.variants.map fun v => v.name).Nodup) :
    (∀ p : profilesets_t MAX_GEM_SLOTS, parse create_sim_options p sim = (false, p)) ∧
    (parse create_sim_options (mk_default : profilesets_t MAX_GEM_SLOTS) sim).1 = false ∧
    (parse create_sim_options
      (mk_default : profilesets_t MAX_GEM_SLOTS) sim).2.n_profilesets = 0 := by
  have hnone : ∀ p : profilesets_t MAX_GEM_SLOTS,
      parse_loop create_sim_options sim.baseline p sim.variants = none := by
    intro p
    cases hl : parse_loop create_sim_options sim.baseline p sim.variants with
    | none => rfl
    | some r =>
        obtain ⟨is, p2⟩ := r
        obtain ⟨h1, h2, _⟩ := parse_loop_eq_some sim.variants hl
        rcases h with ⟨v, hv, hve⟩ | hdup
        · exact absurd hve (h1 v hv)
        · exact absurd h2 hdup
  have hall : ∀ p : profilesets_t MAX_GEM_SLOTS, parse create_sim_options p sim = (false, p) := by
    intro p
    simp [parse, hnone p]
  refine ⟨hall, ?_, ?_⟩
  · rw [hall]
  · rw [hall]; rfl

/-- Witness for C6: the input `a`, `b`, `a` repeats a name; `parse` on a newly
constructed orchestrator returns `false` and leaves it as constructed. -/
theorem parse_fails_on_empty_or_duplicate_name_witness :
    parse (fun _ opts => some { options := opts }) (mk_default : profilesets_t 4)
        { baseline := { options := [] },
          variants := [{ name := "a", options := ["talents=1"], has_output := false },
            { name := "b", options := [], has_output := true },
            { name := "a", options := [], has_output := false }] } =
      (false, mk_default) :=
  (parse_fails_on_empty_or_duplicate_name (fun _ opts => some { options := opts })
    { baseline := { options := [] },
      variants := [{ name := "a", options := ["talents=1"], has_output := false },
        { name := "b", options := [], has_output := true },
        { name := "a", options := [], has_output := false }] }
    (Or.inr (by decide))).1 mk_default

/-- C7: for every parse input of `N` variants with pairwise distinct, non-empty names
and parseable options, `parse` on a newly constructed orchestrator succeeds and
leaves exactly `N` variants, in input order; the insertion indices given are
`0, 1, ..., N - 1` in input order, hence strictly increasing and unique. -/
theorem parse_distinct_names
    (create_sim_options : sim_control_t → List String → Option sim_control_t) (sim : sim_t)
    (hne : ∀ v ∈ sim.variants, v.name ≠ "")
    (hnd : (sim.variants.map fun v => v.name).Nodup)
    (hopts : ∀ v ∈ sim.variants, (create_sim_options sim.baseline v.options).isSome = true) :
    (parse create_sim_options (mk_default : profilesets_t MAX_GEM_SLOTS) sim).1 = true ∧
    (parse create_sim_options (mk_default : profilesets_t MAX_GEM_SLOTS) sim).2.n_profilesets =
      sim.variants.length ∧
    (parse create_sim_options
        (mk_default : profilesets_t MAX_GEM_SLOTS) sim).2.m_profilesets.map profile_set_t.name =
      sim.variants.map (fun v => v.name) ∧
    parse_insert_indices create_sim_options (mk_default : profilesets_t MAX_GEM_SLOTS) sim =
      (List.range sim.variants.length).map (fun k : Nat => (k : Int)) ∧
    (parse_insert_indices create_sim_options
      (mk_default : profilesets_t MAX_GEM_SLOTS) sim).Pairwise (fun i j => i < j) ∧
    (parse_insert_indices create_sim_options
      (mk_default : profilesets_t MAX_GEM_SLOTS) sim).Nodup := by
  have hl := parse_loop_succeeds create_sim_options sim.baseline sim.variants
    (mk_default : profilesets_t MAX_GEM_SLOTS) hne hnd (by simp [mk_default]) hopts
  have hidx : parse_insert_indices create_sim_options
      (mk_default : profilesets_t MAX_GEM_SLOTS) sim =
      (List.range sim.variants.length).map (fun k : Nat => (k : Int)) := by
    simp only [parse_insert_indices, hl]
    simp [mk_default]
  have hpw : ((List.range sim.variants.length).map (fun k : Nat => (k : Int))).Pairwise
      (fun i j => i < j) := by
    rw [List.pairwise_map]
    exact (List.pairwise_lt_range _).imp (fun h => by exact_mod_cast h)
  refine ⟨?_, ?_, ?_, hidx, ?_, ?_⟩
  · simp [parse, hl]
  · simp only [parse, hl]
    simp [n_profilesets, mk_default]
  · simp only [parse, hl]
    simp [mk_default, profile_set_t.mk_new, profile_set_t.name, Function.comp_def]
  · rw [hidx]; exact hpw
  · rw [hidx]; exact hpw.imp (fun h => ne_of_lt h)

/-- Witness for C7: the three variants `baseline`, `reforge_crit`, `reforge_haste` are
parsed into three variants of these names, with insertion indices `0`, `1`, `2`. -/
theorem parse_distinct_names_witness :
    (parse (fun _ opts => some { options := opts }) (mk_default : profilesets_t 4)
        { baseline := { options := ["iterations=1000"] },
          variants := [{ name := "baseline", options := [], has_output := false },
            { name := "reforge_crit", options := ["crit=1"], has_output := true },
            { name := "reforge_haste", options := ["haste=1"], has_output := false }]
        }).2.m_profilesets.map profile_set_t.name = ["baseline", "reforge_crit", "reforge_haste"] ∧
    parse_insert_indices (fun _ opts => some { options := opts }) (mk_default : profilesets_t 4)
        { baseline := { options := ["iterations=1000"] },
          variants := [{ name := "baseline", options := [], has_output := false },
            { name := "reforge_crit", options := ["crit=1"], has_output := true },
            { name := "reforge_haste", options := ["haste=1"], has_output := false }] } =
      [0, 1, 2] := by
  have h := @parse_distinct_names 4 (fun _ opts => some { options := opts })
    { baseline := { options := ["iterations=1000"] },
      variants := [{ name := "baseline", options := [], has_output := false },
        { name := "reforge_crit", options := ["crit=1"], has_output := true },
        { name := "reforge_haste", options := ["haste=1"], has_output := false }] }
    (by decide) (by decide) (by simp)
  exact ⟨h.2.2.1, h.2.2.2.1⟩

/-! ## Ranking and charting -/

instance ranks_before_total (metric : scale_metric_e) (p : profilesets_t MAX_GEM_SLOTS) :
    IsTotal Nat (ranks_before metric p) :=
  ⟨fun i j => by
    unfold ranks_before
    rcases lt_trichotomy (mean_at metric p i) (mean_at metric p j) with h | h | h
    · exact Or.inr (Or.inl h)
    · rcases Nat.le_total i j with hij | hij
      · exact Or.inl (Or.inr ⟨h, hij⟩)
      · exact Or.inr (Or.inr ⟨h.symm, hij⟩)
    · exact Or.inl (Or.inl h)⟩

instance ranks_before_trans (metric : scale_metric_e) (p : profilesets_t MAX_GEM_SLOTS) :
    IsTrans Nat (ranks_before metric p) :=
  ⟨fun i j k hij hjk => by
    unfold ranks_before at *
    rcases hij with h1 | ⟨h1, h1'⟩ <;> rcases hjk with h2 | ⟨h2, h2'⟩
    · exact Or.inl (lt_trans h2 h1)
    · exact Or.inl (h2 ▸ h1)
    · exact Or.inl (h1 ▸ h2)
    · exact Or.inr ⟨h1.trans h2, le_trans h1' h2'⟩⟩

instance ranks_before_antisymm (metric : scale_metric_e) (p : profilesets_t MAX_GEM_SLOTS) :
    IsAntisymm Nat (ranks_before metric p) :=
  ⟨fun i j hij hji => by
    unfold ranks_before at *
    rcases hij with h1 | ⟨h1, h1'⟩ <;> rcases hji with h2 | ⟨h2, h2'⟩
    · exact absurd h1 (not_lt_of_gt h2)
    · rw [h2] at h1; exact absurd h1 (lt_irrefl _)
    · rw [h1] at h2; exact absurd h2 (lt_irrefl _)
    · exact le_antisymm h1' h2'⟩

/-- C8: `generate_sorted_profilesets` outputs every variant of the orchestrator
exactly once (a permutation of the positions `0 .. n-1`, without repetition),
ordered by descending mean of the primary metric, variants of equal mean ordered
by insertion index.  The sequence is the only one with these properties, and it
depends on the means and the insertion indices alone, not on the names: an
orchestrator with the same number of variants and the same means gives the same
sequence. -/
theorem generate_sorted_profilesets_ranked (metric : scale_metric_e)
    (p : profilesets_t MAX_GEM_SLOTS) :
    (generate_sorted_profilesets metric p).Perm (List.range p.n_profilesets) ∧
    (generate_sorted_profilesets metric p).Nodup ∧
    (∀ i : Nat, i ∈ generate_sorted_profilesets metric p ↔ i < p.n_profilesets) ∧
    (generate_sorted_profilesets metric p).Pairwise
      (fun i j => mean_at metric p j ≤ mean_at metric p i) ∧
    (generate_sorted_profilesets metric p).Pairwise
      (fun i j => mean_at metric p i = mean_at metric p j → i < j) ∧
    (∀ out : List Nat, out.Perm (List.range p.n_profilesets) →
      out.Pairwise (ranks_before metric p) → out = generate_sorted_profilesets metric p) ∧
    (∀ q : profilesets_t MAX_GEM_SLOTS, q.n_profilesets = p.n_profilesets →
      (∀ i : Nat, mean_at metric q i = mean_at metric p i) →
      generate_sorted_profilesets metric q = generate_sorted_profilesets metric p) := by
  have hperm : ∀ q : profilesets_t MAX_GEM_SLOTS,
      (generate_sorted_profilesets metric q).Perm (List.range q.n_profilesets) :=
    fun q => List.perm_insertionSort _ _
  have hsorted : ∀ q : profilesets_t MAX_GEM_SLOTS,
      (generate_sorted_profilesets metric q).Pairwise (ranks_before metric q) :=
    fun q => List.sorted_insertionSort _ _
  have hnodup : (generate_sorted_profilesets metric p).Nodup :=
    (hperm p).nodup_iff.mpr (List.nodup_range _)
  have huniq : ∀ out : List Nat, out.Perm (List.range p.n_profilesets) →
      out.Pairwise (ranks_before metric p) → out = generate_sorted_profilesets metric p :=
    fun out ho hs => List.eq_of_perm_of_sorted (ho.trans (hperm p).symm) hs (hsorted p)
  refine ⟨hperm p, hnodup, ?_, ?_, ?_, huniq, ?_⟩
  · intro i
    rw [(hperm p).mem_iff, List.mem_range]
  · refine (hsorted p).imp ?_
    intro i j h
    rcases h with h | ⟨h, _⟩
    · exact le_of_lt h
    · exact le_of_eq h.symm
  · refine ((hsorted p).and hnodup).imp ?_
    intro i j h heq
    rcases h.1 with h1 | ⟨_, h1⟩
    · rw [heq] at h1; exact absurd h1 (lt_irrefl _)
    · exact lt_of_le_of_ne h1 h.2
  · intro q hn hm
    apply huniq
    · rw [← hn]; exact hperm q
    · refine (hsorted q).imp ?_
      intro i j h
      unfold ranks_before at *
      rw [hm i, hm j] at h
      exact h

/-- C9: `MAX_CHART_ENTRIES` is `500`; for an orchestrator holding `n` variants
`generate_chart` emits exactly `min( n, MAX_CHART_ENTRIES )` rows, which are the first
`min( n, 500 )` entries of the sorted sequence; 600 variants give 500 rows and 10
variants give 10 rows. -/
theorem generate_chart_rows (metric : scale_metric_e) (p : profilesets_t MAX_GEM_SLOTS) :
    MAX_CHART_ENTRIES = 500 ∧
    (generate_chart metric p).length = min p.n_profilesets MAX_CHART_ENTRIES ∧
    generate_chart metric p =
      (generate_sorted_profilesets metric p).take (min p.n_profilesets 500) ∧
    (p.n_profilesets = 600 → (generate_chart metric p).length = 500) ∧
    (p.n_profilesets = 10 → (generate_chart metric p).length = 10) := by
  have hlen : (generate_sorted_profilesets metric p).length = p.n_profilesets := by
    simp [generate_sorted_profilesets, List.length_insertionSort]
  have hl : (generate_chart metric p).length = min p.n_profilesets MAX_CHART_ENTRIES := by
    simp [generate_chart, hlen, min_comm]
  refine ⟨rfl, hl, ?_, ?_, ?_⟩
  · unfold generate_chart MAX_CHART_ENTRIES
    rcases Nat.le_total p.n_profilesets 500 with h | h
    · rw [min_eq_left h, List.take_of_length_le (by omega), List.take_of_length_le (by omega)]
    · rw [min_eq_right h]
  · intro h; rw [hl, h]; rfl
  · intro h; rw [hl, h]; rfl

/-- Witness for C9: 600 variants give 500 rows and 10 variants give 10 rows. -/
theorem generate_chart_rows_witness :
    (generate_chart scale_metric_e.SCALE_METRIC_NONE (sample_sized 600)).length = 500 ∧
    (generate_chart scale_metric_e.SCALE_METRIC_NONE (sample_sized 10)).length = 10 :=
  ⟨(generate_chart_rows scale_metric_e.SCALE_METRIC_NONE (sample_sized 600)).2.2.2.1
      (List.length_replicate 600 _),
    (generate_chart_rows scale_metric_e.SCALE_METRIC_NONE (sample_sized 10)).2.2.2.2
      (List.length_replicate 10 _)⟩

/-- Three identically named variants with means `5`, `7`, `5` are ranked `1, 0, 2`: the
greater mean first, the two equal means in insertion order. -/
lemma generate_sorted_profilesets_sample_tied :
    generate_sorted_profilesets (scale_metric_e.SCALE_METRIC_OTHER 1) sample_tied = [1, 0, 2] := by
  decide

end profilesets_t

/-! ## `profile_set_t::output_data` -/

namespace profile_set_t

variable {MAX_GEM_SLOTS : Nat}

/-- C10: for every `profile_set_t` that holds no snapshot, `output_data()` returns the
default-constructed snapshot (race `RACE_NONE`, no talents, empty artifact and
crucible text, no gear), the variant holds exactly that snapshot afterwards (a
non-null pointer), and its name, options, `has_output` flag and results are
unchanged. -/
theorem output_data_allocates (p : profile_set_t MAX_GEM_SLOTS) (h : p.m_output_data = none) :
    p.output_data.1 = profile_output_data_t.mk_default ∧
    p.output_data.1.race = race_e.RACE_NONE ∧ p.output_data.1.talents = [] ∧
    p.output_data.1.artifact = "" ∧ p.output_data.1.crucible = "" ∧
    p.output_data.1.gear = [] ∧
    p.output_data.2.m_output_data = some p.output_data.1 ∧
    p.output_data.2.m_output_data.isSome = true ∧
    p.output_data.2.name = p.name ∧ p.output_data.2.m_options = p.m_options ∧
    p.output_data.2.has_output = p.has_output ∧ p.output_data.2.m_results = p.m_results := by
  simp [output_data, h, profile_output_data_t.mk_default, profile_output_data_t.race,
    profile_output_data_t.talents, profile_output_data_t.artifact,
    profile_output_data_t.crucible, profile_output_data_t.gear, name, has_output]

/-- Witness for C10: a variant created with `has_output == false` holds no snapshot;
`output_data()` returns the empty snapshot and the variant holds it afterwards. -/
theorem output_data_allocates_witness :
    (mk_new "baseline" (some { options := [] }) false : profile_set_t 4).m_output_data = none ∧
    (mk_new "baseline" (some { options := [] }) false : profile_set_t 4).output_data.1 =
      profile_output_data_t.mk_default ∧
    (mk_new "baseline" (some { options := [] }) false :
      profile_set_t 4).output_data.2.m_output_data = some profile_output_data_t.mk_default :=
  ⟨rfl,
    (output_data_allocates
      (mk_new "baseline" (some { options := [] }) false : profile_set_t 4) rfl).1,
    (output_data_allocates
      (mk_new "baseline" (some { options := [] }) false : profile_set_t 4) rfl).2.2.2.2.2.2.1⟩

end profile_set_t

end profileset

/-! # Further theorems about profile sets -/

namespace profileset

namespace profile_result_t

/-- C17: each fluent setter of `profile_result_t` applied with value `v` makes the
matching getter return `v`, leaves the other seven numeric fields unchanged and
leaves `metric()` unchanged; the object returned is the object the setter was
called on, after the assignment. -/
theorem setters_frame (r : profile_result_t) (v : ℚ) (i : Nat) :
    ((r.set_mean v).mean = v ∧
      (r.set_mean v).median = r.median ∧
      (r.set_mean v).min = r.min ∧
      (r.set_mean v).max = r.max ∧
      (r.set_mean v).first_quartile = r.first_quartile ∧
      (r.set_mean v).third_quartile = r.third_quartile ∧
      (r.set_mean v).stddev = r.stddev ∧
      (r.set_mean v).iterations = r.iterations ∧
      (r.set_mean v).metric = r.metric) ∧
    ((r.set_median v).median = v ∧
      (r.set_median v).mean = r.mean ∧
      (r.set_median v).min = r.min ∧
      (r.set_median v).max = r.max ∧
      (r.set_median v).first_quartile = r.first_quartile ∧
      (r.set_median v).third_quartile = r.third_quartile ∧
      (r.set_median v).stddev = r.stddev ∧
      (r.set_median v).iterations = r.iterations ∧
      (r.set_median v).metric = r.metric) ∧
    ((r.set_min v).min = v ∧
      (r.set_min v).mean = r.mean ∧
      (r.set_min v).median = r.median ∧
      (r.set_min v).max = r.max ∧
      (r.set_min v).first_quartile = r.first_quartile ∧
      (r.set_min v).third_quartile = r.third_quartile ∧
      (r.set_min v).stddev = r.stddev ∧
      (r.set_min v).iterations = r.iterations ∧
      (r.set_min v).metric = r.metric) ∧
    ((r.set_max v).max = v ∧
      (r.set_max v).mean = r.mean ∧
      (r.set_max v).median = r.median ∧
      (r.set_max v).min = r.min ∧
      (r.set_max v).first_quartile = r.first_quartile ∧
      (r.set_max v).third_quartile = r.third_quartile ∧
      (r.set_max v).stddev = r.stddev ∧
      (r.set_max v).iterations = r.iterations ∧
      (r.set_max v).metric = r.metric) ∧
    ((r.set_first_quartile v).first_quartile = v ∧
      (r.set_first_quartile v).mean = r.mean ∧
      (r.set_first_quartile v).median = r.median ∧
      (r.set_first_quartile v).min = r.min ∧
      (r.set_first_quartile v).max = r.max ∧
      (r.set_first_quartile v).third_quartile = r.third_quartile ∧
      (r.set_first_quartile v).stddev = r.stddev ∧
      (r.set_first_quartile v).iterations = r.iterations ∧
      (r.set_first_quartile v).metric = r.metric) ∧
    ((r.set_third_quartile v).third_quartile = v ∧
      (r.set_third_quartile v).mean = r.mean ∧
      (r.set_third_quartile v).median = r.median ∧
      (r.set_third_quartile v).min = r.min ∧
      (r.set_third_quartile v).max = r.max ∧
      (r.set_third_quartile v).first_quartile = r.first_quartile ∧
      (r.set_third_quartile v).stddev = r.stddev ∧
      (r.set_third_quartile v).iterations = r.iterations ∧
      (r.set_third_quartile v).metric = r.metric) ∧
    ((r.set_stddev v).stddev = v ∧
      (r.set_stddev v).mean = r.mean ∧
      (r.set_stddev v).median = r.median ∧
      (r.set_stddev v).min = r.min ∧
      (r.set_stddev v).max = r.max ∧
      (r.set_stddev v).first_quartile = r.first_quartile ∧
      (r.set_stddev v).third_quartile = r.third_quartile ∧
      (r.set_stddev v).iterations = r.iterations ∧
      (r.set_stddev v).metric = r.metric) ∧
    ((r.set_iterations i).iterations = i ∧
      (r.set_iterations i).mean = r.mean ∧
      (r.set_iterations i).median = r.median ∧
      (r.set_iterations i).min = r.min ∧
      (r.set_iterations i).max = r.max ∧
      (r.set_iterations i).first_quartile = r.first_quartile ∧
      (r.set_iterations i).third_quartile = r.third_quartile ∧
      (r.set_iterations i).stddev = r.stddev ∧
      (r.set_iterations i).metric = r.metric) :=
  ⟨⟨rfl, rfl, rfl, rfl, rfl, rfl, rfl, rfl, rfl⟩,
    ⟨rfl, rfl, rfl, rfl, rfl, rfl, rfl, rfl, rfl⟩,
    ⟨rfl, rfl, rfl, rfl, rfl, rfl, rfl, rfl, rfl⟩,
    ⟨rfl, rfl, rfl, rfl, rfl, rfl, rfl, rfl, rfl⟩,
    ⟨rfl, rfl, rfl, rfl, rfl, rfl, rfl, rfl, rfl⟩,
    ⟨rfl, rfl, rfl, rfl, rfl, rfl, rfl, rfl, rfl⟩,
    ⟨rfl, rfl, rfl, rfl, rfl, rfl, rfl, rfl, rfl⟩,
    ⟨rfl, rfl, rfl, rfl, rfl, rfl, rfl, rfl, rfl⟩⟩

end profile_result_t

namespace profile_output_data_t

variable {MAX_GEM_SLOTS : Nat}

/-- C11: writing a snapshot field overwrites and never appends.  For every snapshot
`d` and value `v`, after the setter the getter returns `v` whatever was stored
before, applying the same setter with the same value twice gives the same
snapshot as applying it once, and each setter leaves the other four fields
unchanged (for `gear`, `talents`, `artifact`, `crucible` and `race` alike). -/
theorem setters_overwrite (d : profile_output_data_t MAX_GEM_SLOTS)
    (g : List (profile_output_data_item_t MAX_GEM_SLOTS)) (t : List Nat) (a c : String)
    (r : race_e) :
    ((d.set_gear g).gear = g ∧ (d.set_gear g).set_gear g = d.set_gear g ∧
      (d.set_gear g).talents = d.talents ∧ (d.set_gear g).artifact = d.artifact ∧
      (d.set_gear g).crucible = d.crucible ∧ (d.set_gear g).race = d.race) ∧
    ((d.set_talents t).talents = t ∧ (d.set_talents t).set_talents t = d.set_talents t ∧
      (d.set_talents t).gear = d.gear ∧ (d.set_talents t).artifact = d.artifact ∧
      (d.set_talents t).crucible = d.crucible ∧ (d.set_talents t).race = d.race) ∧
    ((d.set_artifact a).artifact = a ∧ (d.set_artifact a).set_artifact a = d.set_artifact a ∧
      (d.set_artifact a).gear = d.gear ∧ (d.set_artifact a).talents = d.talents ∧
      (d.set_artifact a).crucible = d.crucible ∧ (d.set_artifact a).race = d.race) ∧
    ((d.set_crucible c).crucible = c ∧ (d.set_crucible c).set_crucible c = d.set_crucible c ∧
      (d.set_crucible c).gear = d.gear ∧ (d.set_crucible c).talents = d.talents ∧
      (d.set_crucible c).artifact = d.artifact ∧ (d.set_crucible c).race = d.race) ∧
    ((d.set_race r).race = r ∧ (d.set_race r).set_race r = d.set_race r ∧
      (d.set_race r).gear = d.gear ∧ (d.set_race r).talents = d.talents ∧
      (d.set_race r).artifact = d.artifact ∧ (d.set_race r).crucible = d.crucible) :=
  ⟨⟨rfl, rfl, rfl, rfl, rfl, rfl⟩, ⟨rfl, rfl, rfl, rfl, rfl, rfl⟩, ⟨rfl, rfl, rfl, rfl, rfl, rfl⟩,
    ⟨rfl, rfl, rfl, rfl, rfl, rfl⟩, ⟨rfl, rfl, rfl, rfl, rfl, rfl⟩⟩

end profile_output_data_t

namespace profile_output_data_item_t

variable {MAX_GEM_SLOTS : Nat}

/-- C16: for every gear descriptor the gem id array, the relic data array, the relic
item-level array and the relic bonus-item-level array all have exactly
`MAX_GEM_SLOTS` entries, and every setter of these fields (each takes an array of
`MAX_GEM_SLOTS` entries) leaves all four lengths at `MAX_GEM_SLOTS`. -/
theorem arrays_have_max_gem_slots (i : profile_output_data_item_t MAX_GEM_SLOTS)
    (g : Mathlib.Vector Int MAX_GEM_SLOTS) (d : Mathlib.Vector (List Nat) MAX_GEM_SLOTS)
    (l b : Mathlib.Vector Nat MAX_GEM_SLOTS) :
    (i.gem_id.toList.length = MAX_GEM_SLOTS ∧ i.relic_data.toList.length = MAX_GEM_SLOTS ∧
      i.relic_ilevel.toList.length = MAX_GEM_SLOTS ∧
      i.relic_bonus_ilevel.toList.length = MAX_GEM_SLOTS) ∧
    ((i.set_gem_id g).gem_id.toList.length = MAX_GEM_SLOTS ∧
      (i.set_gem_id g).relic_data.toList.length = MAX_GEM_SLOTS ∧
      (i.set_gem_id g).relic_ilevel.toList.length = MAX_GEM_SLOTS ∧
      (i.set_gem_id g).relic_bonus_ilevel.toList.length = MAX_GEM_SLOTS) ∧
    ((i.set_relic_data d).gem_id.toList.length = MAX_GEM_SLOTS ∧
      (i.set_relic_data d).relic_data.toList.length = MAX_GEM_SLOTS ∧
      (i.set_relic_data d).relic_ilevel.toList.length = MAX_GEM_SLOTS ∧
      (i.set_relic_data d).relic_bonus_ilevel.toList.length = MAX_GEM_SLOTS) ∧
    ((i.set_relic_ilevel l).gem_id.toList.length = MAX_GEM_SLOTS ∧
      (i.set_relic_ilevel l).relic_data.toList.length = MAX_GEM_SLOTS ∧
      (i.set_relic_ilevel l).relic_ilevel.toList.length = MAX_GEM_SLOTS ∧
      (i.set_relic_ilevel l).relic_bonus_ilevel.toList.length = MAX_GEM_SLOTS) ∧
    ((i.set_relic_bonus_ilevel b).gem_id.toList.length = MAX_GEM_SLOTS ∧
      (i.set_relic_bonus_ilevel b).relic_data.toList.length = MAX_GEM_SLOTS ∧
      (i.set_relic_bonus_ilevel b).relic_ilevel.toList.length = MAX_GEM_SLOTS ∧
      (i.set_relic_bonus_ilevel b).relic_bonus_ilevel.toList.length = MAX_GEM_SLOTS) := by
  simp only [Mathlib.Vector.toList_length, and_self]

end profile_output_data_item_t

namespace profilesets_t

variable {MAX_GEM_SLOTS : Nat}

/-- C12: a newly constructed `profilesets_t` is in the state `STARTED`;
`is_initializing()`, `is_running()` and `is_done()` return `false`, `n_profilesets()`
is `0` and the work cursor `m_work_index` is `0`. -/
theorem mk_default_started :
    (mk_default : profilesets_t MAX_GEM_SLOTS).m_state = state.STARTED ∧
    (mk_default : profilesets_t MAX_GEM_SLOTS).is_initializing = false ∧
    (mk_default : profilesets_t MAX_GEM_SLOTS).is_running = false ∧
    (mk_default : profilesets_t MAX_GEM_SLOTS).is_done = false ∧
    (mk_default : profilesets_t MAX_GEM_SLOTS).n_profilesets = 0 ∧
    (mk_default : profilesets_t MAX_GEM_SLOTS).m_work_index = 0 :=
  ⟨rfl, rfl, rfl, rfl, rfl, rfl⟩

/-- C13: for every orchestrator, `is_initializing()` is true iff the state is
`INITIALIZING`, `is_running()` iff it is `RUNNING`, `is_done()` iff it is `DONE`; the
three members are `const`, functions of the orchestrator alone; no two of them
are true together, and all three are false exactly in the state `STARTED`. -/
theorem state_predicates (p : profilesets_t MAX_GEM_SLOTS) :
    (p.is_initializing = true ↔ p.m_state = state.INITIALIZING) ∧
    (p.is_running = true ↔ p.m_state = state.RUNNING) ∧
    (p.is_done = true ↔ p.m_state = state.DONE) ∧
    ¬ (p.is_initializing = true ∧ p.is_running = true) ∧
    ¬ (p.is_initializing = true ∧ p.is_done = true) ∧
    ¬ (p.is_running = true ∧ p.is_done = true) ∧
    ((p.is_initializing = false ∧ p.is_running = false ∧ p.is_done = false) ↔
      p.m_state = state.STARTED) := by
  unfold is_initializing is_running is_done
  cases p.m_state <;> simp

end profilesets_t

namespace profile_set_t

variable {MAX_GEM_SLOTS : Nat}

/-- C18: `output_data()` allocates at most once.  For every `profile_set_t` that
already holds a snapshot `d`, `output_data()` returns `d` and leaves the variant as
it was (the snapshot is not reset); and for every variant, a value written
through one access is what the next access returns, the variant being unchanged
by that next access. -/
theorem output_data_keeps_snapshot (p : profile_set_t MAX_GEM_SLOTS)
    (d : profile_output_data_t MAX_GEM_SLOTS) (h : p.m_output_data = some d) :
    p.output_data = (d, p) ∧
    p.output_data.2.output_data = (d, p) ∧
    ∀ (q : profile_set_t MAX_GEM_SLOTS)
      (f : profile_output_data_t MAX_GEM_SLOTS → profile_output_data_t MAX_GEM_SLOTS),
      (q.update_output_data f).output_data =
        (f q.output_data.1, q.update_output_data f) := by
  have h1 : p.output_data = (d, p) := by simp [output_data, h]
  refine ⟨h1, by rw [h1]; exact h1, ?_⟩
  intro q f
  simp [update_output_data, output_data]

/-- Witness for C18: a variant holding a snapshot with race `RACE_OTHER 3` gets that
snapshot back, and a gear list written through one access is read back through
the next. -/
theorem output_data_keeps_snapshot_witness :
    ({ m_name := "v", m_options := none, m_has_output := true, m_results := [],
       m_output_data := some (profile_output_data_t.mk_default.set_race (race_e.RACE_OTHER 3)) } :
      profile_set_t 4).output_data.1.race = race_e.RACE_OTHER 3 ∧
    ((mk_new "v" none true : profile_set_t 4).update_output_data
      (fun d => d.set_artifact "a:1")).output_data.1.artifact = "a:1" := by
  have h := output_data_keeps_snapshot
    ({ m_name := "v", m_options := none, m_has_output := true, m_results := [],
       m_output_data := some (profile_output_data_t.mk_default.set_race (race_e.RACE_OTHER 3)) } :
      profile_set_t 4) _ rfl
  refine ⟨?_, ?_⟩
  · rw [h.1]; rfl
  · rw [h.2.2]; rfl

end profile_set_t

/-! ## `iterate` and `cancel` -/

namespace iterate_run

variable {MAX_GEM_SLOTS : Nat}

lemma step_sets (r : iterate_run MAX_GEM_SLOTS) :
    r.step.sets.m_profilesets = r.sets.m_profilesets ∧
    r.sets.m_work_index ≤ r.step.sets.m_work_index ∧
    r.step.cancel_requested = r.cancel_requested := by
  unfold step
  cases r.pc <;> simp only [] <;> (try split_ifs) <;> simp

lemma act_sets (r : iterate_run MAX_GEM_SLOTS) (e : iterate_event) :
    (r.act e).sets.m_profilesets = r.sets.m_profilesets ∧
    r.sets.m_work_index ≤ (r.act e).sets.m_work_index ∧
    (r.cancel_requested = true → (r.act e).cancel_requested = true) := by
  cases e
  · obtain ⟨h1, h2, h3⟩ := step_sets r
    exact ⟨h1, h2, fun h => by simp only [act, h3, h]⟩
  · simp [act, cancel]

lemma exec_sets (es : List iterate_event) :
    ∀ r : iterate_run MAX_GEM_SLOTS,
      (r.exec es).sets.m_profilesets = r.sets.m_profilesets ∧
      r.sets.m_work_index ≤ (r.exec es).sets.m_work_index ∧
      (r.cancel_requested = true → (r.exec es).cancel_requested = true) := by
  induction es with
  | nil => intro r; simp [exec]
  | cons e es ih =>
      intro r
      obtain ⟨h1, h2, h3⟩ := act_sets r e
      obtain ⟨k1, k2, k3⟩ := ih (r.act e)
      exact ⟨by simpa [exec] using k1.trans h1, by simpa [exec] using le_trans h2 k2,
        fun h => by simpa [exec] using k3 (h3 h)⟩

lemma act_inv (r : iterate_run MAX_GEM_SLOTS) (e : iterate_event) (h : r.inv) :
    (r.act e).inv := by
  obtain ⟨h1, h2, h3⟩ := h
  cases e
  · unfold inv act step
    cases hpc : r.pc
    · simp only []
      split_ifs with hc hlt
      · simp [profilesets_t.n_profilesets] at h1 ⊢; exact h1
      · simp [profilesets_t.n_profilesets] at h1 hlt ⊢; exact ⟨h1, hlt⟩
      · simp [profilesets_t.n_profilesets] at h1 ⊢; exact h1
    · have := h2 hpc
      simp [profilesets_t.n_profilesets] at this ⊢
      omega
    · simp [profilesets_t.n_profilesets] at h1 ⊢; exact h1
    · simp only []
      exact ⟨h1, h2, h3⟩
  · exact ⟨h1, h2, h3⟩

lemma exec_inv (es : List iterate_event) :
    ∀ r : iterate_run MAX_GEM_SLOTS, r.inv → (r.exec es).inv := by
  induction es with
  | nil => intro r h; simpa [exec] using h
  | cons e es ih => intro r h; simpa [exec] using ih (r.act e) (act_inv r e h)

lemma act_cancelled (r : iterate_run MAX_GEM_SLOTS) (e : iterate_event)
    (h : r.cancel_requested = true) :
    (r.act e).pending = r.pending ∧
    (r.act e).steps_left = r.steps_left - (if e = iterate_event.worker then 1 else 0) := by
  cases e
  · unfold act step pending steps_left
    cases hpc : r.pc <;> simp [h, hpc]
  · simp [act, cancel, pending, steps_left]

lemma exec_cancelled (es : List iterate_event) :
    ∀ r : iterate_run MAX_GEM_SLOTS, r.cancel_requested = true →
      (r.exec es).pending = r.pending ∧
      (r.exec es).steps_left = r.steps_left - es.count iterate_event.worker := by
  induction es with
  | nil => intro r _; simp [exec]
  | cons e es ih =>
      intro r h
      obtain ⟨h1, h2⟩ := act_cancelled r e h
      obtain ⟨k1, k2⟩ := ih (r.act e) ((act_sets r e).2.2 h)
      refine ⟨by simpa [exec] using k1.trans h1, ?_⟩
      have : (r.exec (e :: es)).steps_left = (r.act e).steps_left - es.count iterate_event.worker := by
        simpa [exec] using k2
      rw [this, h2, List.count_cons]
      cases e
      · simp; omega
      · simp

/-- C14: if `cancel` is invoked during a run of `iterate` over `N` variants (after any
interleaving `before` of the two threads' actions, followed by any interleaving
`after`), then: once the executing thread has taken three more steps `iterate` has
returned; when `iterate` has returned the state is `DONE`; the number of variants
is unchanged and `m_work_index <= N`; `m_work_index` is at most one more than it was
when `cancel` was invoked (at most one more variant is claimed); and
`m_work_index` never decreases, over any actions from any point of a run. -/
theorem cancel_during_iterate (p : profilesets_t MAX_GEM_SLOTS)
    (before after : List iterate_event) (hp : p.m_work_index ≤ p.n_profilesets) :
    (3 ≤ after.count iterate_event.worker →
      ((((start p).exec before).cancel).exec after).pc = iterate_pc.returned) ∧
    (((((start p).exec before).cancel).exec after).pc = iterate_pc.returned →
      ((((start p).exec before).cancel).exec after).sets.m_state = state.DONE) ∧
    ((((start p).exec before).cancel).exec after).sets.n_profilesets = p.n_profilesets ∧
    ((((start p).exec before).cancel).exec after).sets.m_work_index ≤ p.n_profilesets ∧
    ((((start p).exec before).cancel).exec after).sets.m_work_index ≤
      ((start p).exec before).sets.m_work_index + 1 ∧
    p.m_work_index ≤ ((start p).exec before).sets.m_work_index ∧
    ((start p).exec before).sets.m_work_index ≤
      ((((start p).exec before).cancel).exec after).sets.m_work_index ∧
    ∀ (r : iterate_run MAX_GEM_SLOTS) (es : List iterate_event),
      r.sets.m_work_index ≤ (r.exec es).sets.m_work_index := by
  have hinv0 : (start p).inv := ⟨hp, by simp [start], by simp [start]⟩
  have hinv1 := exec_inv before _ hinv0
  have hinv2 : ((start p).exec before).cancel.inv := hinv1
  have hinv3 := exec_inv after _ hinv2
  have hs1 := exec_sets before (start p)
  have hs2 := exec_sets after ((start p).exec before).cancel
  have hc := exec_cancelled after ((start p).exec before).cancel rfl
  have hn : ((((start p).exec before).cancel).exec after).sets.n_profilesets =
      p.n_profilesets := by
    unfold profilesets_t.n_profilesets
    rw [hs2.1]
    show ((start p).exec before).sets.m_profilesets.length = _
    rw [hs1.1]
    rfl
  refine ⟨?_, hinv3.2.2, hn, hn ▸ hinv3.1, ?_, hs1.2.1, hs2.2.1, fun r es => (exec_sets es r).2.1⟩
  · intro h3
    have hle : ((start p).exec before).cancel.steps_left ≤ 3 := by
      unfold steps_left; split <;> omega
    have h0 : ((((start p).exec before).cancel).exec after).steps_left = 0 := by
      rw [hc.2]; omega
    unfold steps_left at h0
    split at h0 <;> first | omega | assumption
  · have h1 : ((((start p).exec before).cancel).exec after).sets.m_work_index ≤
        ((((start p).exec before).cancel).exec after).pending := Nat.le_add_right _ _
    have h2 : ((start p).exec before).cancel.pending ≤
        ((start p).exec before).sets.m_work_index + 1 := by
      unfold pending cancel
      simp only []
      split_ifs <;> omega
    rw [hc.1] at h1
    exact le_trans h1 h2

/-- Witness for C14: three variants; `cancel` arrives after the executing thread has
observed the flag clear but before it claims the first variant.  That variant is
still claimed and run, then `iterate` returns in the state `DONE` with
`m_work_index = 1`, one more than the `0` at the moment of `cancel`. -/
theorem cancel_during_iterate_witness :
    ((start sample_running).exec [iterate_event.worker]).sets.m_work_index = 0 ∧
    ((((start sample_running).exec [iterate_event.worker]).cancel).exec
      [iterate_event.worker, iterate_event.worker, iterate_event.worker]).pc =
        iterate_pc.returned ∧
    ((((start sample_running).exec [iterate_event.worker]).cancel).exec
      [iterate_event.worker, iterate_event.worker, iterate_event.worker]).sets.m_state =
        state.DONE ∧
    ((((start sample_running).exec [iterate_event.worker]).cancel).exec
      [iterate_event.worker, iterate_event.worker, iterate_event.worker]).sets.m_work_index =
        1 := by
  have h := cancel_during_iterate sample_running [iterate_event.worker]
    [iterate_event.worker, iterate_event.worker, iterate_event.worker] (by decide)
  have hret := h.1 (by decide)
  exact ⟨by decide, hret, h.2.1 hret, by decide⟩

end iterate_run

/-! ## Accesses to the shared members -/

namespace profilesets_t

variable {MAX_GEM_SLOTS : Nat}

/-- C15, as stated, fails: called with the mutex not held, `is_done()` (and likewise
`is_initializing()` and `is_running()`) reads `m_state` without the mutex. -/
theorem state_predicates_not_lock_protected :
    ¬ ∀ (held : Bool) (p : profilesets_t 4),
      lock_protected held p.is_initializing_accesses = true ∧
      lock_protected held p.is_running_accesses = true ∧
      lock_protected held p.is_done_accesses = true := by
  intro h
  have := (h false mk_default).2.2
  simp [is_done_accesses, lock_protected] at this

/-- C15, amended: `is_initializing()`, `is_running()` and `is_done()` each make exactly
one access to the shared members, a read of `m_state`, and neither lock nor unlock
the mutex; the read happens under the mutex exactly when the caller holds the
mutex at the call. -/
theorem state_predicates_read_under_callers_lock (held : Bool)
    (p : profilesets_t MAX_GEM_SLOTS) :
    (p.is_initializing_accesses = [access.read_state] ∧
      p.is_running_accesses = [access.read_state] ∧
      p.is_done_accesses = [access.read_state]) ∧
    (access.lock ∉ p.is_initializing_accesses ∧ access.lock ∉ p.is_running_accesses ∧
      access.lock ∉ p.is_done_accesses) ∧
    (lock_protected held p.is_initializing_accesses = held ∧
      lock_protected held p.is_running_accesses = held ∧
      lock_protected held p.is_done_accesses = held) := by
  cases held <;> simp [is_initializing_accesses, is_running_accesses, is_done_accesses,
    lock_protected]

end profilesets_t

end profileset

/-! # Theorems about the XML report writer -/

namespace report_xml

/-! ## `replace_entity` and `sanitize` -/

lemma find_in_none {l : List Char} {c : Char} (new_value : List Char)
    (h : find_in l c = none) : l.flatMap (subst_char c new_value) = l := by
  induction l with
  | nil => rfl
  | cons x xs ih =>
      unfold find_in at h
      split_ifs at h with hx
      cases hf : find_in xs c with
      | some j => simp [hf] at h
      | none =>
          rw [List.flatMap_cons, ih hf]
          simp [subst_char, hx]

lemma find_in_some {l : List Char} {c : Char} {i : Nat} (new_value : List Char)
    (h : find_in l c = some i) :
    l = l.take i ++ c :: l.drop (i + 1) ∧
      (l.take i).flatMap (subst_char c new_value) = l.take i := by
  induction l generalizing i with
  | nil => simp [find_in] at h
  | cons x xs ih =>
      unfold find_in at h
      split_ifs at h with hx
      · simp only [Option.some.injEq] at h
        subst h
        simp [hx]
      · cases hf : find_in xs c with
        | none => simp [hf] at h
        | some j =>
            simp only [hf, Option.map_some', Option.some.injEq] at h
            subst h
            obtain ⟨h1, h2⟩ := ih hf
            refine ⟨?_, ?_⟩
            · simp only [List.take_succ_cons, List.drop_succ_cons, List.cons_append]
              rw [← h1]
            · simp only [List.take_succ_cons, List.flatMap_cons, h2]
              simp [subst_char, hx]

lemma replace_entity_loop_eq (old_value : Char) (new_value : List Char) :
    ∀ (n : Nat) (str : List Char) (pos : Nat), str.length - pos = n →
      replace_entity_loop old_value new_value str pos =
        str.take pos ++ (str.drop pos).flatMap (subst_char old_value new_value) := by
  intro n
  induction n using Nat.strong_induction_on with
  | _ n ih =>
      intro str pos hn
      rw [replace_entity_loop]
      split
      · rename_i hf
        unfold find at hf
        cases hfi : find_in (str.drop pos) old_value with
        | some j => simp [hfi] at hf
        | none =>
            rw [find_in_none new_value hfi, List.take_append_drop]
      · rename_i p hf
        have hb := find_bounds hf
        unfold find at hf
        cases hfi : find_in (str.drop pos) old_value with
        | none => simp [hfi] at hf
        | some j =>
            simp only [hfi, Option.map_some', Option.some.injEq] at hf
            subst hf
            obtain ⟨h1, h2⟩ := find_in_some new_value hfi
            have hlen : (replace_at str (pos + j) new_value).length - (pos + j + new_value.length)
                < n := by
              simp only [replace_at, List.length_append, List.length_take, List.length_drop]
              omega
            rw [ih _ hlen _ _ rfl]
            have htake : (replace_at str (pos + j) new_value).take (pos + j + new_value.length) =
                str.take (pos + j) ++ new_value := by
              unfold replace_at
              rw [List.take_append_eq_append_take]
              have hl : (str.take (pos + j) ++ new_value).length = pos + j + new_value.length := by
                simp only [List.length_append, List.length_take]; omega
              rw [List.take_of_length_le (by omega), hl]
              simp
            have hdrop : (replace_at str (pos + j) new_value).drop (pos + j + new_value.length) =
                str.drop (pos + j + 1) := by
              unfold replace_at
              have hl : (str.take (pos + j) ++ new_value).length = pos + j + new_value.length := by
                simp only [List.length_append, List.length_take]; omega
              rw [← hl, List.drop_left]
            rw [htake, hdrop]
            conv_rhs => rw [h1]
            rw [List.flatMap_append, List.flatMap_cons, h2, List.take_add, List.drop_drop]
            simp only [subst_char, if_true, List.append_assoc]
            congr 3

lemma replace_entity_eq (str : String) (old_value : Char) (new_value : String) :
    replace_entity str old_value new_value =
      String.mk (str.data.flatMap (subst_char old_value new_value.data)) := by
  unfold replace_entity
  rw [replace_entity_loop_eq old_value new_value.data _ str.data 0 rfl]
  simp

lemma amp_data : "&amp;".data = ['&', 'a', 'm', 'p', ';'] := rfl

lemma quot_data : "&quot;".data = ['&', 'q', 'u', 'o', 't', ';'] := rfl

lemma lt_data : "&lt;".data = ['&', 'l', 't', ';'] := rfl

lemma gt_data : "&gt;".data = ['&', 'g', 't', ';'] := rfl

/-- The four passes of `sanitize` on one character give its escape. -/
lemma passes_char (c : Char) :
    (((subst_char '&' "&amp;".data c).flatMap (subst_char '"' "&quot;".data)).flatMap
      (subst_char '<' "&lt;".data)).flatMap (subst_char '>' "&gt;".data) = escape_char c := by
  rw [amp_data, quot_data, lt_data, gt_data]
  unfold escape_char
  rw [amp_data, quot_data, lt_data, gt_data]
  by_cases h1 : c = '&'
  · subst h1; decide
  · by_cases h2 : c = '"'
    · subst h2; decide
    · by_cases h3 : c = '<'
      · subst h3; decide
      · by_cases h4 : c = '>'
        · subst h4; decide
        · simp [subst_char, h1, h2, h3, h4]

lemma sanitize_eq_escape (v : String) : sanitize v = escape v := by
  unfold sanitize replacements escape
  simp only [List.foldl_cons, List.foldl_nil, replace_entity_eq]
  rw [List.flatMap_assoc, List.flatMap_assoc, List.flatMap_assoc]
  congr 1
  congr 1
  funext c
  rw [← passes_char c, List.flatMap_assoc, List.flatMap_assoc]

lemma escape_char_cases (c : Char) :
    (escape_char c = [c] ∧ c ≠ '&' ∧ c ≠ '"' ∧ c ≠ '<' ∧ c ≠ '>') ∨
    escape_char c = ['&', 'a', 'm', 'p', ';'] ∨ escape_char c = ['&', 'q', 'u', 'o', 't', ';'] ∨
    escape_char c = ['&', 'l', 't', ';'] ∨ escape_char c = ['&', 'g', 't', ';'] := by
  unfold escape_char
  rw [amp_data, quot_data, lt_data, gt_data]
  by_cases h1 : c = '&'
  · simp [h1]
  · by_cases h2 : c = '"'
    · simp [h2]
    · by_cases h3 : c = '<'
      · simp [h3]
      · by_cases h4 : c = '>'
        · simp [h4]
        · simp [h1, h2, h3, h4]

lemma escape_no_raw (l : List Char) (c : Char) (hc : c ∈ l.flatMap escape_char) :
    c ≠ '<' ∧ c ≠ '>' ∧ c ≠ '"' := by
  obtain ⟨a, _, hca⟩ := List.mem_flatMap.mp hc
  rcases escape_char_cases a with ⟨h, _, h2, h3, h4⟩ | h | h | h | h
  · rw [h] at hca
    simp only [List.mem_singleton] at hca
    subst hca
    exact ⟨h3, h4, h2⟩
  all_goals
    rw [h] at hca
    simp only [List.mem_cons, List.mem_singleton, List.not_mem_nil, or_false] at hca
    rcases hca with rfl | rfl | rfl | rfl | rfl | rfl <;> decide

lemma escape_amp_starts_entity (l : List Char) :
    ∀ i : Nat, (l.flatMap escape_char).get? i = some '&' →
      ∃ e ∈ entities, e.data <+: (l.flatMap escape_char).drop i := by
  induction l with
  | nil => intro i h; simp at h
  | cons a l ih =>
      intro i h
      rw [List.flatMap_cons] at h ⊢
      rcases escape_char_cases a with ⟨h0, hne, _⟩ | h0 | h0 | h0 | h0
      · rw [h0] at h ⊢
        rcases i with _ | i
        · simp at h; exact absurd h hne
        · simpa using ih i (by simpa using h)
      · rw [h0] at h ⊢
        rcases i with _ | _ | _ | _ | _ | i
        · exact ⟨"&amp;", by simp [entities], by rw [amp_data]; simp⟩
        · simp at h
        · simp at h
        · simp at h
        · simp at h
        · simpa using ih i (by simpa using h)
      · rw [h0] at h ⊢
        rcases i with _ | _ | _ | _ | _ | _ | i
        · exact ⟨"&quot;", by simp [entities], by rw [quot_data]; simp⟩
        · simp at h
        · simp at h
        · simp at h
        · simp at h
        · simp at h
        · simpa using ih i (by simpa using h)
      · rw [h0] at h ⊢
        rcases i with _ | _ | _ | _ | i
        · exact ⟨"&lt;", by simp [entities], by rw [lt_data]; simp⟩
        · simp at h
        · simp at h
        · simp at h
        · simpa using ih i (by simpa using h)
      · rw [h0] at h ⊢
        rcases i with _ | _ | _ | _ | i
        · exact ⟨"&gt;", by simp [entities], by rw [gt_data]; simp⟩
        · simp at h
        · simp at h
        · simp at h
        · simpa using ih i (by simpa using h)

/-- C19: for every string `s`, `sanitize( s )` is the character-by-character escape of
`s` in which `&` becomes `&amp;`, `"` becomes `&quot;`, `<` becomes `&lt;`, `>` becomes `&gt;`
and every other character is copied unchanged.  Hence the result contains no raw
`<`, `>` or `"`, every `&` in it starts one of the four entities, and no entity
produced by one replacement pass is escaped again by a later pass (the four
passes equal the single escape: `&<">` becomes `&amp;&lt;&quot;&gt;`). -/
theorem sanitize_escapes (s : String) :
    sanitize s = escape s ∧
    (sanitize s).data = s.data.flatMap escape_char ∧
    (∀ c : Char,
      escape_char c =
        if c = '&' then "&amp;".data else if c = '"' then "&quot;".data
        else if c = '<' then "&lt;".data else if c = '>' then "&gt;".data else [c]) ∧
    ('<' ∉ (sanitize s).data ∧ '>' ∉ (sanitize s).data ∧ '"' ∉ (sanitize s).data) ∧
    (∀ i : Nat, (sanitize s).data.get? i = some '&' →
      ∃ e ∈ entities, e.data <+: (sanitize s).data.drop i) ∧
    sanitize "&<\">" = "&amp;&lt;&quot;&gt;" := by
  have h := sanitize_eq_escape s
  have hd : (sanitize s).data = s.data.flatMap escape_char := by rw [h]; rfl
  refine ⟨h, hd, fun c => rfl, ⟨?_, ?_, ?_⟩, ?_, ?_⟩
  · intro hc; rw [hd] at hc; exact (escape_no_raw _ _ hc).1 rfl
  · intro hc; rw [hd] at hc; exact (escape_no_raw _ _ hc).2.1 rfl
  · intro hc; rw [hd] at hc; exact (escape_no_raw _ _ hc).2.2 rfl
  · rw [hd]; exact escape_amp_starts_entity s.data
  · rw [sanitize_eq_escape]; decide

/-! ## Nesting of the written text -/

lemma forest_nil_is_nil : forest.nil.is_nil = true := rfl

lemma forest_element_is_nil (tag : String) (attributes : List xml_attribute)
    (children next : forest) : (forest.element tag attributes children next).is_nil = false :=
  rfl

lemma forest_tag_text_is_nil (name inner_value : String) (next : forest) :
    (forest.tag_text name inner_value next).is_nil = false :=
  rfl

lemma forest_text_is_nil (input : String) (next : forest) :
    (forest.text input next).is_nil = false :=
  rfl

lemma forest_is_nil_iff (f : forest) : f.is_nil = true ↔ f = forest.nil := by
  cases f <;> simp [forest.is_nil]

lemma forest_append_is_nil (f g : forest) : (f.append g).is_nil = (f.is_nil && g.is_nil) := by
  cases f <;> simp [forest.append, forest.is_nil]

lemma render_forest_append (tabulation : String) (depth : Nat) (f g : forest) :
    render_forest tabulation depth (f.append g) =
      render_forest tabulation depth f ++ render_forest tabulation depth g := by
  induction f with
  | nil => simp [forest.append, render_forest]
  | element tag attributes children next _ ih =>
      simp only [forest.append, render_forest, ih, String.append_assoc]
  | tag_text name inner_value next ih =>
      simp only [forest.append, render_forest, ih, String.append_assoc]
  | text input next ih =>
      simp only [forest.append, render_forest, ih, String.append_assoc]

lemma render_attributes_append (as : List xml_attribute) (a : xml_attribute) :
    render_attributes (as ++ [a]) = render_attributes as ++ render_attribute a := by
  induction as with
  | nil => simp [render_attributes]
  | cons b as ih =>
      show render_attribute b ++ render_attributes (as ++ [a]) = _
      rw [ih]
      simp only [render_attributes, String.append_assoc]

lemma state_cases (s : state) (h : s ≠ state.NONE) : s = state.TAG ∨ s = state.TEXT := by
  cases s <;> simp at h ⊢

/-- The three situations of a writer that has written a document: the most recently
opened element is without content (`TAG`), no element is open (`TEXT`), or the most
recently opened element has content (`TEXT`). -/
lemma writes_cases {w : xml_writer_t} {stylesheet_file : String} {doc : document}
    (hw : writes w stylesheet_file doc) :
    (w.current_state = state.TAG ∧
      ∃ e rest, doc.open_elements = e :: rest ∧ e.children = forest.nil) ∨
    (w.current_state = state.TEXT ∧ doc.open_elements = []) ∨
    (w.current_state = state.TEXT ∧
      ∃ e rest, doc.open_elements = e :: rest ∧ e.children.is_nil = false) := by
  obtain ⟨_, _, _, hne, hstate⟩ := hw
  rcases state_cases _ hne with hs | hs
  · obtain ⟨e, rest, hdoc, hch⟩ := hstate.mp hs
    exact Or.inl ⟨hs, e, rest, hdoc, (forest_is_nil_iff _).mp hch⟩
  · have hnot : ¬ ∃ e rest, doc.open_elements = e :: rest ∧ e.children.is_nil = true := by
      rw [← hstate, hs]; simp
    cases hdoc : doc.open_elements with
    | nil => exact Or.inr (Or.inl ⟨hs, rfl⟩)
    | cons e rest =>
        refine Or.inr (Or.inr ⟨hs, e, rest, rfl, ?_⟩)
        cases hc : e.children.is_nil
        · rfl
        · exact absurd ⟨e, rest, hdoc, hc⟩ hnot

lemma begin_tag_writes (w w1 : xml_writer_t) (stylesheet_file tag : String) (doc : document)
    (hw : writes w stylesheet_file doc) (h : w.begin_tag tag = some w1) :
    ∃ doc1, doc.apply (call.begin_tag tag) = some doc1 ∧ writes w1 stylesheet_file doc1 ∧
      w1.tabulation = w.tabulation := by
  have hc := writes_cases hw
  obtain ⟨hfile, htags, hind, hne, -⟩ := hw
  refine ⟨_, rfl, ?_⟩
  unfold xml_writer_t.begin_tag at h
  rw [if_neg hne] at h
  simp only [Option.some.injEq] at h
  subst h
  rcases hc with ⟨hs, e, rest, hdoc, hch⟩ | ⟨hs, hdoc⟩ | ⟨hs, e, rest, hdoc, hch⟩
  · simp [writes, hs, xml_writer_t.printf, xml_writer_t.rebuild_indentation, hfile, htags, hind,
      hdoc, hch, document.render, render_outer, render_open_element, forest_nil_is_nil,
      render_forest, render_attributes, String.append_assoc, indent_of]
  · simp [writes, hs, xml_writer_t.printf, xml_writer_t.rebuild_indentation, hfile, htags, hind,
      hdoc, document.render, render_outer, render_open_element, forest_nil_is_nil,
      render_forest, render_attributes, String.append_assoc, indent_of]
  · simp [writes, hs, xml_writer_t.printf, xml_writer_t.rebuild_indentation, hfile, htags, hind,
      hdoc, hch, document.render, render_outer, render_open_element, forest_nil_is_nil,
      render_forest, render_attributes, String.append_assoc, indent_of]

lemma end_tag_writes (w w1 : xml_writer_t) (stylesheet_file : String) (doc : document)
    (hw : writes w stylesheet_file doc) (h : w.end_tag = some w1) :
    ∃ doc1, doc.apply call.end_tag = some doc1 ∧ writes w1 stylesheet_file doc1 ∧
      w1.tabulation = w.tabulation := by
  have hc := writes_cases hw
  obtain ⟨hfile, htags, hind, hne, -⟩ := hw
  unfold xml_writer_t.end_tag at h
  rw [if_neg hne] at h
  rcases hc with ⟨hs, e, rest, hdoc, hch⟩ | ⟨hs, hdoc⟩ | ⟨hs, e, rest, hdoc, hch⟩
  · rw [hdoc] at htags hind
    simp only [htags, List.map_cons, Option.some.injEq] at h
    subst h
    cases rest with
    | nil =>
        refine ⟨document.add { doc with open_elements := [] }
          (forest.element e.tag e.attributes e.children forest.nil),
          by simp [document.apply, hdoc], ?_⟩
        simp [writes, hs, xml_writer_t.printf, xml_writer_t.rebuild_indentation, hfile, hdoc,
          hch, document.render, document.add, render_outer, render_open_element,
          forest_nil_is_nil, render_forest, render_forest_append, String.append_assoc, indent_of]
    | cons g rest =>
        refine ⟨document.add { doc with open_elements := (g :: rest) }
          (forest.element e.tag e.attributes e.children forest.nil),
          by simp [document.apply, hdoc], ?_⟩
        simp [writes, hs, xml_writer_t.printf, xml_writer_t.rebuild_indentation, hfile, hdoc,
          hch, document.render, document.add, render_outer, render_open_element,
          forest_nil_is_nil, forest_append_is_nil, forest_element_is_nil, render_forest,
          render_forest_append, String.append_assoc, indent_of]
  · rw [hdoc] at htags
    simp [htags] at h
  · rw [hdoc] at htags hind
    simp only [htags, List.map_cons, Option.some.injEq] at h
    subst h
    cases rest with
    | nil =>
        refine ⟨document.add { doc with open_elements := [] }
          (forest.element e.tag e.attributes e.children forest.nil),
          by simp [document.apply, hdoc], ?_⟩
        simp [writes, hs, xml_writer_t.printf, xml_writer_t.rebuild_indentation, hfile, hdoc,
          hch, document.render, document.add, render_outer, render_open_element,
          forest_nil_is_nil, render_forest, render_forest_append, String.append_assoc, indent_of]
    | cons g rest =>
        refine ⟨document.add { doc with open_elements := (g :: rest) }
          (forest.element e.tag e.attributes e.children forest.nil),
          by simp [document.apply, hdoc], ?_⟩
        simp [writes, hs, xml_writer_t.printf, xml_writer_t.rebuild_indentation, hfile, hdoc,
          hch, document.render, document.add, render_outer, render_open_element,
          forest_nil_is_nil, forest_append_is_nil, forest_element_is_nil, render_forest,
          render_forest_append, String.append_assoc, indent_of]

lemma print_attribute_writes (w w1 : xml_writer_t) (stylesheet_file name value : String)
    (doc : document) (hw : writes w stylesheet_file doc)
    (h : w.print_attribute name value = some w1) :
    ∃ doc1, doc.apply (call.print_attribute name value) = some doc1 ∧
      writes w1 stylesheet_file doc1 ∧ w1.tabulation = w.tabulation := by
  have hc := writes_cases hw
  obtain ⟨hfile, htags, hind, hne, -⟩ := hw
  refine ⟨_, rfl, ?_⟩
  unfold xml_writer_t.print_attribute at h
  rw [if_neg hne] at h
  rcases hc with ⟨hs, e, rest, hdoc, hch⟩ | ⟨hs, hdoc⟩ | ⟨hs, e, rest, hdoc, hch⟩
  · simp only [hs, if_true, Option.some.injEq] at h
    subst h
    simp [writes, hs, xml_writer_t.printf, hfile, htags, hind, hdoc, document.render,
      document.add, document.add_attribute, render_outer, render_open_element, forest_nil_is_nil,
      forest_append_is_nil, forest_element_is_nil, forest_tag_text_is_nil, forest_text_is_nil,
      render_forest, render_forest_append, render_attributes_append, render_attribute,
      forest.append, String.append_assoc, indent_of, hch]
  · simp only [hs, Option.some.injEq] at h
    simp only [if_neg (by decide : ¬ state.TEXT = state.TAG), Option.some.injEq] at h
    subst h
    simp [writes, hs, xml_writer_t.printf, hfile, htags, hind, hdoc, document.render,
      document.add, document.add_attribute, render_outer, render_open_element, forest_nil_is_nil,
      forest_append_is_nil, forest_element_is_nil, forest_tag_text_is_nil, forest_text_is_nil,
      render_forest, render_forest_append, render_attributes_append, render_attribute,
      forest.append, String.append_assoc, indent_of]
  · simp only [hs, Option.some.injEq] at h
    simp only [if_neg (by decide : ¬ state.TEXT = state.TAG), Option.some.injEq] at h
    subst h
    simp [writes, hs, xml_writer_t.printf, hfile, htags, hind, hdoc, document.render,
      document.add, document.add_attribute, render_outer, render_open_element, forest_nil_is_nil,
      forest_append_is_nil, forest_element_is_nil, forest_tag_text_is_nil, forest_text_is_nil,
      render_forest, render_forest_append, render_attributes_append, render_attribute,
      forest.append, String.append_assoc, indent_of, hch]

lemma print_attribute_unescaped_writes (w w1 : xml_writer_t) (stylesheet_file name value : String)
    (doc : document) (hw : writes w stylesheet_file doc)
    (h : w.print_attribute_unescaped name value = some w1) :
    ∃ doc1, doc.apply (call.print_attribute_unescaped name value) = some doc1 ∧
      writes w1 stylesheet_file doc1 ∧ w1.tabulation = w.tabulation := by
  have hc := writes_cases hw
  obtain ⟨hfile, htags, hind, hne, -⟩ := hw
  refine ⟨_, rfl, ?_⟩
  unfold xml_writer_t.print_attribute_unescaped at h
  rw [if_neg hne] at h
  rcases hc with ⟨hs, e, rest, hdoc, hch⟩ | ⟨hs, hdoc⟩ | ⟨hs, e, rest, hdoc, hch⟩
  · simp only [hs, if_true, Option.some.injEq] at h
    subst h
    simp [writes, hs, xml_writer_t.printf, hfile, htags, hind, hdoc, document.render,
      document.add, document.add_attribute, render_outer, render_open_element, forest_nil_is_nil,
      forest_append_is_nil, forest_element_is_nil, forest_tag_text_is_nil, forest_text_is_nil,
      render_forest, render_forest_append, render_attributes_append, render_attribute,
      forest.append, String.append_assoc, indent_of, hch]
  · simp only [hs, Option.some.injEq] at h
    simp only [if_neg (by decide : ¬ state.TEXT = state.TAG), Option.some.injEq] at h
    subst h
    simp [writes, hs, xml_writer_t.printf, hfile, htags, hind, hdoc, document.render,
      document.add, document.add_attribute, render_outer, render_open_element, forest_nil_is_nil,
      forest_append_is_nil, forest_element_is_nil, forest_tag_text_is_nil, forest_text_is_nil,
      render_forest, render_forest_append, render_attributes_append, render_attribute,
      forest.append, String.append_assoc, indent_of]
  · simp only [hs, Option.some.injEq] at h
    simp only [if_neg (by decide : ¬ state.TEXT = state.TAG), Option.some.injEq] at h
    subst h
    simp [writes, hs, xml_writer_t.printf, hfile, htags, hind, hdoc, document.render,
      document.add, document.add_attribute, render_outer, render_open_element, forest_nil_is_nil,
      forest_append_is_nil, forest_element_is_nil, forest_tag_text_is_nil, forest_text_is_nil,
      render_forest, render_forest_append, render_attributes_append, render_attribute,
      forest.append, String.append_assoc, indent_of, hch]

lemma print_tag_writes (w w1 : xml_writer_t) (stylesheet_file name inner_value : String)
    (doc : document) (hw : writes w stylesheet_file doc)
    (h : w.print_tag name inner_value = some w1) :
    ∃ doc1, doc.apply (call.print_tag name inner_value) = some doc1 ∧
      writes w1 stylesheet_file doc1 ∧ w1.tabulation = w.tabulation := by
  have hc := writes_cases hw
  obtain ⟨hfile, htags, hind, hne, -⟩ := hw
  refine ⟨_, rfl, ?_⟩
  unfold xml_writer_t.print_tag at h
  rw [if_neg hne] at h
  simp only [Option.some.injEq] at h
  subst h
  rcases hc with ⟨hs, e, rest, hdoc, hch⟩ | ⟨hs, hdoc⟩ | ⟨hs, e, rest, hdoc, hch⟩
  · simp [writes, hs, xml_writer_t.printf, hfile, htags, hind, hdoc, document.render,
      document.add, document.add_attribute, render_outer, render_open_element, forest_nil_is_nil,
      forest_append_is_nil, forest_element_is_nil, forest_tag_text_is_nil, forest_text_is_nil,
      render_forest, render_forest_append, render_attributes_append, render_attribute,
      forest.append, String.append_assoc, indent_of, hch]
  · simp [writes, hs, xml_writer_t.printf, hfile, htags, hind, hdoc, document.render,
      document.add, document.add_attribute, render_outer, render_open_element, forest_nil_is_nil,
      forest_append_is_nil, forest_element_is_nil, forest_tag_text_is_nil, forest_text_is_nil,
      render_forest, render_forest_append, render_attributes_append, render_attribute,
      forest.append, String.append_assoc, indent_of]
  · simp [writes, hs, xml_writer_t.printf, hfile, htags, hind, hdoc, document.render,
      document.add, document.add_attribute, render_outer, render_open_element, forest_nil_is_nil,
      forest_append_is_nil, forest_element_is_nil, forest_tag_text_is_nil, forest_text_is_nil,
      render_forest, render_forest_append, render_attributes_append, render_attribute,
      forest.append, String.append_assoc, indent_of, hch]

lemma print_text_writes (w w1 : xml_writer_t) (stylesheet_file input : String)
    (doc : document) (hw : writes w stylesheet_file doc)
    (h : w.print_text input = some w1) :
    ∃ doc1, doc.apply (call.print_text input) = some doc1 ∧
      writes w1 stylesheet_file doc1 ∧ w1.tabulation = w.tabulation := by
  have hc := writes_cases hw
  obtain ⟨hfile, htags, hind, hne, -⟩ := hw
  refine ⟨_, rfl, ?_⟩
  unfold xml_writer_t.print_text at h
  rw [if_neg hne] at h
  simp only [Option.some.injEq] at h
  subst h
  rcases hc with ⟨hs, e, rest, hdoc, hch⟩ | ⟨hs, hdoc⟩ | ⟨hs, e, rest, hdoc, hch⟩
  · simp [writes, hs, xml_writer_t.printf, hfile, htags, hind, hdoc, document.render,
      document.add, document.add_attribute, render_outer, render_open_element, forest_nil_is_nil,
      forest_append_is_nil, forest_element_is_nil, forest_tag_text_is_nil, forest_text_is_nil,
      render_forest, render_forest_append, render_attributes_append, render_attribute,
      forest.append, String.append_assoc, indent_of, hch]
  · simp [writes, hs, xml_writer_t.printf, hfile, htags, hind, hdoc, document.render,
      document.add, document.add_attribute, render_outer, render_open_element, forest_nil_is_nil,
      forest_append_is_nil, forest_element_is_nil, forest_tag_text_is_nil, forest_text_is_nil,
      render_forest, render_forest_append, render_attributes_append, render_attribute,
      forest.append, String.append_assoc, indent_of]
  · simp [writes, hs, xml_writer_t.printf, hfile, htags, hind, hdoc, document.render,
      document.add, document.add_attribute, render_outer, render_open_element, forest_nil_is_nil,
      forest_append_is_nil, forest_element_is_nil, forest_tag_text_is_nil, forest_text_is_nil,
      render_forest, render_forest_append, render_attributes_append, render_attribute,
      forest.append, String.append_assoc, indent_of, hch]

lemma apply_writes (w w1 : xml_writer_t) (stylesheet_file : String) (doc : document)
    (c : call) (hw : writes w stylesheet_file doc) (h : w.apply c = some w1) :
    ∃ doc1, doc.apply c = some doc1 ∧ writes w1 stylesheet_file doc1 ∧
      w1.tabulation = w.tabulation := by
  cases c with
  | init_document s =>
      simp only [xml_writer_t.apply, xml_writer_t.init_document] at h
      rw [if_pos hw.2.2.2.1] at h
      simp at h
  | begin_tag tag => exact begin_tag_writes w w1 stylesheet_file tag doc hw h
  | end_tag => exact end_tag_writes w w1 stylesheet_file doc hw h
  | print_attribute name value =>
      exact print_attribute_writes w w1 stylesheet_file name value doc hw h
  | print_attribute_unescaped name value =>
      exact print_attribute_unescaped_writes w w1 stylesheet_file name value doc hw h
  | print_tag name inner_value =>
      exact print_tag_writes w w1 stylesheet_file name inner_value doc hw h
  | print_text input => exact print_text_writes w w1 stylesheet_file input doc hw h

lemma run_writes (cs : List call) :
    ∀ (w w1 : xml_writer_t) (stylesheet_file : String) (doc : document),
      writes w stylesheet_file doc → w.run cs = some w1 →
      ∃ doc1, doc.build cs = some doc1 ∧ writes w1 stylesheet_file doc1 ∧
        w1.tabulation = w.tabulation := by
  induction cs with
  | nil =>
      intro w w1 s doc hw h
      simp only [xml_writer_t.run, Option.some.injEq] at h
      subst h
      exact ⟨doc, rfl, hw, rfl⟩
  | cons c cs ih =>
      intro w w1 s doc hw h
      unfold xml_writer_t.run at h
      cases hc : w.apply c with
      | none => simp [hc] at h
      | some w2 =>
          simp only [hc] at h
          obtain ⟨doc2, hd2, hw2, ht2⟩ := apply_writes w w2 s doc c hw hc
          obtain ⟨doc1, hd1, hw1, ht1⟩ := ih w2 w1 s doc2 hw2 h
          exact ⟨doc1, by simp [document.build, hd2, hd1], hw1, ht1.trans ht2⟩

lemma init_document_writes (filename stylesheet_file : String) (w : xml_writer_t)
    (h : (xml_writer_t.mk_new filename).init_document stylesheet_file = some w) :
    writes w stylesheet_file document.empty ∧ w.tabulation = "    " := by
  simp only [xml_writer_t.init_document, xml_writer_t.mk_new, ne_eq, not_true_eq_false,
    if_false, Option.some.injEq] at h
  subst h
  by_cases hs : stylesheet_file = "" <;>
    simp [writes, xml_writer_t.printf, document.empty, document.render, render_forest, prolog,
      indent_of, hs]

lemma run_cons_some {w w1 : xml_writer_t} {c : call} (cs : List call)
    (h : w.apply c = some w1) : w.run (c :: cs) = w1.run cs := by
  simp [xml_writer_t.run, h]

/-- Attribute calls made on a writer in the state `TAG` append the attributes' text
and leave the writer in the state `TAG`. -/
lemma run_attributes (attributes : List xml_attribute) (rest : List call) :
    ∀ w : xml_writer_t, w.current_state = state.TAG →
      w.run (attributes.map attribute_call ++ rest) =
        (w.printf (render_attributes attributes)).run rest := by
  induction attributes with
  | nil => intro w _; simp [render_attributes, xml_writer_t.printf]
  | cons a attributes ih =>
      intro w hs
      have hstep : w.apply (attribute_call a) = some (w.printf (render_attribute a)) := by
        unfold attribute_call
        cases ha : a.escaped <;>
          simp [xml_writer_t.apply, xml_writer_t.print_attribute,
            xml_writer_t.print_attribute_unescaped, hs, render_attribute, ha,
            String.append_assoc]
      rw [List.map_cons, List.cons_append, run_cons_some _ hstep,
        ih _ (by simpa [xml_writer_t.printf] using hs)]
      simp [xml_writer_t.printf, render_attributes, String.append_assoc]

/-- C20: for every sequence of calls that starts with `init_document` and runs without
violating an assertion or closing a tag that is not open, the text written is
the prolog followed by the nested text of the document the calls build, in which
`end_tag` closes the most recently opened unclosed element (last in, first out):
a childless element is the self-closing `<t ... />`, any other element has its
start tag ended by one `>` before its first content and is closed by `</t>` with
the same name (see `render_forest`); when no element is left open the text is that
of a complete forest.  Directly on the writer: `begin_tag( t )`, attribute calls,
`end_tag` write one self-closing `<t ... />`; and `end_tag` in the state `TEXT` pops
the top `t` of the stack and writes `</t>`. -/
theorem writer_output_nested (filename stylesheet_file : String) (cs : List call)
    (w : xml_writer_t)
    (h : (xml_writer_t.mk_new filename).run (call.init_document stylesheet_file :: cs) =
      some w) :
    (∃ doc : document, document.empty.build cs = some doc ∧
      w.file = prolog stylesheet_file ++ doc.render "    " ∧
      w.current_tags = doc.open_elements.map open_element.tag ∧
      (doc.open_elements = [] →
        w.file = prolog stylesheet_file ++ render_forest "    " 0 doc.closed)) ∧
    (∀ (w0 : xml_writer_t) (tag : String) (attributes : List xml_attribute),
      w0.current_state ≠ state.NONE →
      ∃ w1, w0.run (call.begin_tag tag :: attributes.map attribute_call ++ [call.end_tag]) =
          some w1 ∧
        w1.file = w0.file ++ (if w0.current_state = state.TEXT then "" else ">") ++ "\n" ++
          w0.indentation ++ "<" ++ tag ++ render_attributes attributes ++ "/>" ∧
        w1.current_tags = w0.current_tags ∧ w1.current_state = state.TEXT) ∧
    (∀ (w0 : xml_writer_t) (tag : String) (tags : List String),
      w0.current_state = state.TEXT → w0.current_tags = tag :: tags →
      ∃ w1, w0.end_tag = some w1 ∧ w1.current_tags = tags ∧
        w1.file = w0.file ++ "\n" ++ indent_of w0.tabulation tags.length ++ "</" ++ tag ++ ">") := by
  refine ⟨?_, ?_, ?_⟩
  · unfold xml_writer_t.run at h
    cases hi : (xml_writer_t.mk_new filename).apply (call.init_document stylesheet_file) with
    | none => simp [hi] at h
    | some w0 =>
        simp only [hi] at h
        obtain ⟨hw0, ht0⟩ := init_document_writes filename stylesheet_file w0 hi
        obtain ⟨doc, hd, hw, ht⟩ := run_writes cs w0 w stylesheet_file document.empty hw0 h
        have htab : w.tabulation = "    " := ht.trans ht0
        obtain ⟨hfile, htags, -, -, -⟩ := hw
        rw [htab] at hfile
        refine ⟨doc, hd, hfile, htags, ?_⟩
        intro hopen
        rw [hfile]
        simp [document.render, hopen]
  · intro w0 tag attributes hne
    obtain ⟨wb, hwb, hst, hfile, htags⟩ : ∃ wb, w0.apply (call.begin_tag tag) = some wb ∧
        wb.current_state = state.TAG ∧
        wb.file = w0.file ++ (if w0.current_state = state.TEXT then "" else ">") ++ "\n" ++
          w0.indentation ++ "<" ++ tag ∧
        wb.current_tags = tag :: w0.current_tags := by
      have hsome : ∃ wb, w0.begin_tag tag = some wb := by
        unfold xml_writer_t.begin_tag
        rw [if_neg hne]
        exact ⟨_, rfl⟩
      obtain ⟨wb, hwb⟩ := hsome
      refine ⟨wb, hwb, ?_⟩
      unfold xml_writer_t.begin_tag at hwb
      rw [if_neg hne] at hwb
      simp only [Option.some.injEq] at hwb
      subst hwb
      by_cases hs : w0.current_state = state.TEXT
      · simp [xml_writer_t.printf, xml_writer_t.rebuild_indentation, hs, String.append_assoc]
      · simp [xml_writer_t.printf, xml_writer_t.rebuild_indentation, hs, String.append_assoc]
        rw [← String.append_assoc ">" "\n"]
        rfl
    rw [List.cons_append, run_cons_some _ hwb, run_attributes attributes _ wb hst]
    simp [xml_writer_t.run, xml_writer_t.apply, xml_writer_t.end_tag, xml_writer_t.printf,
      xml_writer_t.rebuild_indentation, hst, hfile, htags, String.append_assoc]
  · intro w0 tag tags hs htags
    simp [xml_writer_t.end_tag, xml_writer_t.printf, xml_writer_t.rebuild_indentation, hs, htags,
      String.append_assoc]

/-- Witness for C20: the calls `init_document( "" )`, `begin_tag( "a" )`,
`print_attribute( "k", "v<" )`, `begin_tag( "b" )`, `end_tag()`, `print_text( "x&y" )`,
`end_tag()` run without failure and write an element `a` holding the self-closing
`b` and a line of text. -/
theorem writer_output_nested_witness :
    (xml_writer_t.mk_new "report.xml").run
        [call.init_document "", call.begin_tag "a", call.print_attribute "k" "v<",
          call.begin_tag "b", call.end_tag, call.print_text "x&y", call.end_tag] =
      some { file := "<?xml version=\"1.0\" encoding=\"utf-8\"?>\n" ++
              "\n<a k=\"v&lt;\">\n    <b/>\nx&amp;y\n</a>",
             current_tags := [], tabulation := "    ", current_state := state.TEXT,
             indentation := "" } ∧
    ∃ doc : document,
      document.empty.build
        [call.begin_tag "a", call.print_attribute "k" "v<", call.begin_tag "b", call.end_tag,
          call.print_text "x&y", call.end_tag] = some doc ∧
      "<?xml version=\"1.0\" encoding=\"utf-8\"?>\n" ++
          "\n<a k=\"v&lt;\">\n    <b/>\nx&amp;y\n</a>" =
        prolog "" ++ doc.render "    " := by
  have hrun : (xml_writer_t.mk_new "report.xml").run
      [call.init_document "", call.begin_tag "a", call.print_attribute "k" "v<",
        call.begin_tag "b", call.end_tag, call.print_text "x&y", call.end_tag] =
      some { file := "<?xml version=\"1.0\" encoding=\"utf-8\"?>\n" ++
              "\n<a k=\"v&lt;\">\n    <b/>\nx&amp;y\n</a>",
             current_tags := [], tabulation := "    ", current_state := state.TEXT,
             indentation := "" } := by
    simp only [xml_writer_t.run, xml_writer_t.apply, xml_writer_t.init_document,
      xml_writer_t.begin_tag, xml_writer_t.end_tag, xml_writer_t.print_attribute,
      xml_writer_t.print_text, xml_writer_t.printf, xml_writer_t.rebuild_indentation,
      xml_writer_t.mk_new, sanitize_eq_escape]
    decide
  obtain ⟨doc, hd, hfile, -, -⟩ := (writer_output_nested "report.xml" "" _ _ hrun).1
  exact ⟨hrun, doc, hd, hfile⟩

/-! ## The tag stack across the report functions -/

lemma tag_stack_after_append (a b : List statement) :
    ∀ tags : List String, tag_stack_after tags (a ++ b) =
      (tag_stack_after tags a).bind (fun tags1 => tag_stack_after tags1 b) := by
  induction a with
  | nil => intro tags; simp [tag_stack_after]
  | cons c cs ih =>
      intro tags
      cases c with
      | begin_tag tag => simp [tag_stack_after, ih]
      | end_tag comment =>
          cases tags with
          | nil => simp [tag_stack_after]
          | cons t rest =>
              cases comment with
              | none => simp [tag_stack_after, ih]
              | some name =>
                  by_cases hn : name = t <;> simp [tag_stack_after, ih, hn]
      | print_attribute name value => simp [tag_stack_after, ih]
      | print_attribute_unescaped name value => simp [tag_stack_after, ih]
      | print_tag name inner_value => simp [tag_stack_after, ih]

lemma tag_stack_after_ite (c : Prop) [Decidable c] (a b : List statement)
    (tags : List String) :
    tag_stack_after tags (if c then a else b) =
      if c then tag_stack_after tags a else tag_stack_after tags b := by
  split_ifs <;> rfl

/-- A loop whose every turn leaves the stack as it found it leaves the stack as it
found it. -/
lemma tag_stack_after_flatMap {α : Type} (f : α → List statement) (l : List α)
    (hf : ∀ (x : α) (tags : List String), tag_stack_after tags (f x) = some tags)
    (tags : List String) : tag_stack_after tags (l.flatMap f) = some tags := by
  induction l with
  | nil => simp [tag_stack_after]
  | cons x xs ih => rw [List.flatMap_cons, tag_stack_after_append, hf, Option.some_bind, ih]

lemma tag_stack_after_map_print_tag {α : Type} (name : String) (g : α → String)
    (l : List α) (tags : List String) :
    tag_stack_after tags (l.map (fun x => statement.print_tag name (g x))) = some tags := by
  induction l with
  | nil => simp [tag_stack_after]
  | cons x xs ih => simp [tag_stack_after, ih]

lemma print_xml_errors_balanced (sim : sim_t) : balanced (print_xml_errors sim) := by
  intro tags
  simp [print_xml_errors, tag_stack_after, tag_stack_after_append, tag_stack_after_ite,
    tag_stack_after_flatMap]

lemma print_xml_raid_events_balanced (ext : externals) (sim : sim_t) :
    balanced (print_xml_raid_events ext sim) := by
  intro tags
  simp [print_xml_raid_events, tag_stack_after, tag_stack_after_append, tag_stack_after_ite,
    tag_stack_after_flatMap]

lemma print_xml_player_attribute_balanced (ext : externals) (attribute_name : String)
    (initial gear buffed : ℚ) :
    balanced (print_xml_player_attribute ext attribute_name initial gear buffed) := by
  intro tags
  simp [print_xml_player_attribute, tag_stack_after]

lemma print_xml_player_stats_balanced (ext : externals) (p : player_t) :
    balanced (print_xml_player_stats ext p) := by
  intro tags
  simp [print_xml_player_stats, tag_stack_after, tag_stack_after_append,
    print_xml_player_attribute_balanced ext _ _ _ _ _]

lemma print_xml_player_actions_balanced (ext : externals) (p : player_t) :
    balanced (print_xml_player_actions ext p) := by
  intro tags
  simp [print_xml_player_actions, tag_stack_after, tag_stack_after_append, tag_stack_after_ite,
    tag_stack_after_flatMap]

lemma print_xml_player_buffs_balanced (ext : externals) (p : player_t) :
    balanced (print_xml_player_buffs ext p) := by
  intro tags
  simp [print_xml_player_buffs, tag_stack_after, tag_stack_after_append, tag_stack_after_ite,
    tag_stack_after_flatMap]

lemma print_xml_player_uptime_balanced (ext : externals) (p : player_t) :
    balanced (print_xml_player_uptime ext p) := by
  intro tags
  simp [print_xml_player_uptime, tag_stack_after, tag_stack_after_append, tag_stack_after_ite,
    tag_stack_after_flatMap]

lemma print_xml_player_procs_balanced (ext : externals) (p : player_t) :
    balanced (print_xml_player_procs ext p) := by
  intro tags
  simp [print_xml_player_procs, tag_stack_after, tag_stack_after_append, tag_stack_after_ite,
    tag_stack_after_flatMap]

lemma print_xml_player_gains_balanced (ext : externals) (p : player_t) :
    balanced (print_xml_player_gains ext p) := by
  intro tags
  simp [print_xml_player_gains, tag_stack_after, tag_stack_after_append, tag_stack_after_ite,
    tag_stack_after_flatMap]

lemma print_xml_player_scale_factors_balanced (ext : externals) (sim : sim_t) (p : player_t) :
    balanced (print_xml_player_scale_factors ext sim p) := by
  intro tags
  simp [print_xml_player_scale_factors, tag_stack_after, tag_stack_after_append,
    tag_stack_after_ite, tag_stack_after_flatMap]

lemma print_xml_player_dps_plots_balanced (ext : externals) (sim : sim_t) (p : player_t) :
    balanced (print_xml_player_dps_plots ext sim p) := by
  intro tags
  simp [print_xml_player_dps_plots, tag_stack_after, tag_stack_after_append,
    tag_stack_after_ite, tag_stack_after_flatMap, tag_stack_after_map_print_tag]

lemma print_xml_player_charts_balanced (p : player_t) :
    balanced (print_xml_player_charts p) := by
  intro tags
  simp [print_xml_player_charts, tag_stack_after, tag_stack_after_append, tag_stack_after_ite]

lemma print_xml_buffs_balanced (ext : externals) (sim : sim_t) :
    balanced (print_xml_buffs ext sim) := by
  intro tags
  simp [print_xml_buffs, tag_stack_after, tag_stack_after_append, tag_stack_after_ite,
    tag_stack_after_flatMap]

lemma print_xml_hat_donors_balanced (ext : externals) (sim : sim_t) :
    balanced (print_xml_hat_donors ext sim) := by
  intro tags
  simp [print_xml_hat_donors, tag_stack_after, tag_stack_after_append, tag_stack_after_ite,
    tag_stack_after_flatMap]

lemma print_xml_performance_balanced (ext : externals) (sim : sim_t) :
    balanced (print_xml_performance ext sim) := by
  intro tags
  simp [print_xml_performance, tag_stack_after]

lemma print_xml_config_balanced (ext : externals) (sim : sim_t) :
    balanced (print_xml_config ext sim) := by
  intro tags
  simp [print_xml_config, tag_stack_after, tag_stack_after_append, tag_stack_after_ite]

lemma print_xml_summary_balanced (ext : externals) (sim : sim_t) :
    balanced (print_xml_summary ext sim) := by
  intro tags
  simp [print_xml_summary, tag_stack_after, tag_stack_after_append, tag_stack_after_ite,
    tag_stack_after_flatMap, print_xml_raid_events_balanced ext sim _]

lemma print_xml_player_balanced (ext : externals) (sim : sim_t) (p : player_t)
    (owner : Option player_t) : balanced (print_xml_player ext sim p owner) := by
  intro tags
  cases owner <;>
    simp [print_xml_player, tag_stack_after, tag_stack_after_append, tag_stack_after_ite,
      print_xml_player_stats_balanced ext p _, print_xml_player_actions_balanced ext p _,
      print_xml_player_buffs_balanced ext p _, print_xml_player_uptime_balanced ext p _,
      print_xml_player_procs_balanced ext p _, print_xml_player_gains_balanced ext p _,
      print_xml_player_scale_factors_balanced ext sim p _,
      print_xml_player_dps_plots_balanced ext sim p _, print_xml_player_charts_balanced p _]

lemma print_xml_roster_balanced (ext : externals) (sim : sim_t) (roster : List statement)
    (h : print_xml_roster ext sim = some roster) : balanced roster := by
  intro tags
  unfold print_xml_roster at h
  split_ifs at h
  simp only [Option.some.injEq] at h
  subst h
  simp [tag_stack_after, tag_stack_after_append, tag_stack_after_ite, tag_stack_after_flatMap,
    print_xml_player_balanced ext sim _ _ _]

lemma print_xml_targets_balanced (ext : externals) (sim : sim_t) :
    balanced (print_xml_targets ext sim) := by
  intro tags
  simp [print_xml_targets, tag_stack_after, tag_stack_after_append, tag_stack_after_ite,
    tag_stack_after_flatMap, print_xml_player_balanced ext sim _ _ _]

/-- The statements between `begin_tag( "simulationcraft" )` and the last `end_tag`. -/
lemma print_xml_statements_shape (ext : externals) (sim : sim_t) (statements : List statement)
    (h : print_xml_statements ext sim = some statements) :
    ∃ body, statements = statement.begin_tag "simulationcraft" :: body ++
        [statement.end_tag (some "simulationcraft")] ∧ balanced body := by
  unfold print_xml_statements at h
  cases hr : print_xml_roster ext sim with
  | none => simp [hr] at h
  | some roster =>
      simp only [hr, Option.map_some', Option.some.injEq] at h
      subst h
      refine ⟨[statement.print_attribute "major_version" ext.SC_MAJOR_VERSION,
          statement.print_attribute "minor_version" ext.SC_MINOR_VERSION,
          statement.print_attribute "wow_version" (ext.wow_version sim.ptr),
          statement.print_attribute "ptr" (if sim.ptr then "true" else "false"),
          statement.print_attribute "wow_build" (ext.build_level sim.ptr)] ++
        (if ext.SC_BETA then [statement.print_attribute "beta" "true"] else []) ++
        print_xml_config ext sim ++ print_xml_summary ext sim ++
        print_xml_raid_events ext sim ++ roster ++ print_xml_targets ext sim ++
        print_xml_buffs ext sim ++ print_xml_hat_donors ext sim ++
        print_xml_performance ext sim ++ print_xml_errors sim, by simp, ?_⟩
      intro tags
      simp [tag_stack_after, tag_stack_after_append, tag_stack_after_ite,
        print_xml_config_balanced ext sim _, print_xml_summary_balanced ext sim _,
        print_xml_raid_events_balanced ext sim _, print_xml_roster_balanced ext sim roster hr _,
        print_xml_targets_balanced ext sim _, print_xml_buffs_balanced ext sim _,
        print_xml_hat_donors_balanced ext sim _, print_xml_performance_balanced ext sim _,
        print_xml_errors_balanced sim _]

/-- The writer follows the tag stack of the statements it is given: statements that
leave a stack run without failure on a writer that holds this stack and has its
document started, and leave the writer with the stack they leave. -/
lemma run_statements (cs : List statement) :
    ∀ (w : xml_writer_t) (tags : List String), w.current_state ≠ state.NONE →
      tag_stack_after w.current_tags cs = some tags →
      ∃ w1, w.run (cs.map statement.call) = some w1 ∧ w1.current_tags = tags ∧
        w1.current_state ≠ state.NONE ∧ w1.tabulation = w.tabulation := by
  induction cs with
  | nil =>
      intro w tags hs h
      simp only [tag_stack_after, Option.some.injEq] at h
      exact ⟨w, rfl, h, hs, rfl⟩
  | cons c cs ih =>
      intro w tags hs h
      have hstep : ∃ w2, w.apply c.call = some w2 ∧ w2.current_state ≠ state.NONE ∧
          w2.tabulation = w.tabulation ∧
          tag_stack_after w2.current_tags cs = some tags := by
        cases c with
        | begin_tag tag =>
            simp only [tag_stack_after] at h
            simp [statement.call, xml_writer_t.apply, xml_writer_t.begin_tag, hs,
              xml_writer_t.printf, xml_writer_t.rebuild_indentation, h]
            split_ifs <;> exact ⟨rfl, h⟩
        | end_tag comment =>
            cases ht : w.current_tags with
            | nil => simp [ht, tag_stack_after] at h
            | cons t rest =>
                have h2 : tag_stack_after rest cs = some tags := by
                  rw [ht] at h
                  cases comment with
                  | none => simpa [tag_stack_after] using h
                  | some name =>
                      simp only [tag_stack_after] at h
                      split_ifs at h
                      exact h
                rcases state_cases w.current_state hs with hst | hst <;>
                  simp [statement.call, xml_writer_t.apply, xml_writer_t.end_tag, hst, ht,
                    xml_writer_t.printf, xml_writer_t.rebuild_indentation, h2]
        | print_attribute name value =>
            simp only [tag_stack_after] at h
            rcases state_cases w.current_state hs with hst | hst <;>
              simp [statement.call, xml_writer_t.apply, xml_writer_t.print_attribute, hst,
                xml_writer_t.printf, h]
        | print_attribute_unescaped name value =>
            simp only [tag_stack_after] at h
            rcases state_cases w.current_state hs with hst | hst <;>
              simp [statement.call, xml_writer_t.apply, xml_writer_t.print_attribute_unescaped,
                hst, xml_writer_t.printf, h]
        | print_tag name inner_value =>
            simp only [tag_stack_after] at h
            rcases state_cases w.current_state hs with hst | hst <;>
              simp [statement.call, xml_writer_t.apply, xml_writer_t.print_tag, hst,
                xml_writer_t.printf, h]
      obtain ⟨w2, hw2, hs2, ht2, h2⟩ := hstep
      obtain ⟨w1, hw1, htags, hs1, ht1⟩ := ih w2 tags hs2 h2
      refine ⟨w1, ?_, htags, hs1, ht1.trans ht2⟩
      rw [List.map_cons, run_cons_some _ hw2, hw1]

/-- C21: every report function closes the elements it opens.  The statements of
`print_xml_config`, `print_xml_summary`, `print_xml_raid_events`, `print_xml_roster`,
`print_xml_targets`, `print_xml_buffs`, `print_xml_hat_donors`, `print_xml_performance`,
`print_xml_errors`, of `print_xml_player` and of the `print_xml_player_*` functions are
balanced for every simulation and player, on every path (the early returns and
the skipped turns of the loops included): made from any tag stack they leave that
stack, no `end_tag` finds the stack empty, and every `end_tag` with a comment
`// </name>` finds the element `name` on top.  A writer with its document started
runs balanced statements without failure and returns with the stack it was entered
with.  The statements of `report_t::print_xml` are `begin_tag( "simulationcraft" )`,
balanced statements, and the `end_tag` that closes `simulationcraft` and leaves the
stack empty; the writer `print_xml` leaves has an empty stack, and `print_xml` does
write when the simulation has a player, a length, a file name, and no more
players by dps than by name. -/
theorem report_tags_balanced (ext : externals) (sim : sim_t) :
    (balanced (print_xml_config ext sim) ∧ balanced (print_xml_summary ext sim) ∧
      balanced (print_xml_raid_events ext sim) ∧
      (∀ roster, print_xml_roster ext sim = some roster → balanced roster) ∧
      balanced (print_xml_targets ext sim) ∧ balanced (print_xml_buffs ext sim) ∧
      balanced (print_xml_hat_donors ext sim) ∧ balanced (print_xml_performance ext sim) ∧
      balanced (print_xml_errors sim)) ∧
    (∀ (p : player_t) (owner : Option player_t),
      balanced (print_xml_player ext sim p owner) ∧
      balanced (print_xml_player_stats ext p) ∧ balanced (print_xml_player_actions ext p) ∧
      balanced (print_xml_player_buffs ext p) ∧ balanced (print_xml_player_uptime ext p) ∧
      balanced (print_xml_player_procs ext p) ∧ balanced (print_xml_player_gains ext p) ∧
      balanced (print_xml_player_scale_factors ext sim p) ∧
      balanced (print_xml_player_dps_plots ext sim p) ∧
      balanced (print_xml_player_charts p)) ∧
    (∀ (attribute_name : String) (initial gear buffed : ℚ),
      balanced (print_xml_player_attribute ext attribute_name initial gear buffed)) ∧
    (∀ (cs : List statement) (w : xml_writer_t), balanced cs →
      w.current_state ≠ state.NONE →
      ∃ w1, w.run (cs.map statement.call) = some w1 ∧ w1.current_tags = w.current_tags) ∧
    (∀ statements, print_xml_statements ext sim = some statements →
      ∃ body, statements = statement.begin_tag "simulationcraft" :: body ++
          [statement.end_tag (some "simulationcraft")] ∧
        balanced body ∧
        tag_stack_after [] (statement.begin_tag "simulationcraft" :: body) =
          some ["simulationcraft"] ∧
        tag_stack_after [] statements = some []) ∧
    (∀ w, print_xml ext sim = some w → w.current_tags = []) ∧
    (sim.players_by_name ≠ [] → sim.simulation_length.mean ≠ 0 → sim.xml_file_str ≠ "" →
      sim.players_by_dps_size ≤ sim.players_by_name.length →
      ∃ w, print_xml ext sim = some w) := by
  have hshape : ∀ statements, print_xml_statements ext sim = some statements →
      ∃ body, statements = statement.begin_tag "simulationcraft" :: body ++
          [statement.end_tag (some "simulationcraft")] ∧
        balanced body ∧
        tag_stack_after [] (statement.begin_tag "simulationcraft" :: body) =
          some ["simulationcraft"] ∧
        tag_stack_after [] statements = some [] := by
    intro statements h
    obtain ⟨body, hb, hbal⟩ := print_xml_statements_shape ext sim statements h
    refine ⟨body, hb, hbal, ?_, ?_⟩
    · simp only [tag_stack_after]
      exact hbal _
    · rw [hb, tag_stack_after_append]
      simp only [tag_stack_after]
      rw [hbal]
      simp [tag_stack_after]
  have hrun : ∀ statements, print_xml_statements ext sim = some statements →
      ∃ w, (xml_writer_t.mk_new sim.xml_file_str).run
          (call.init_document sim.xml_stylesheet_file_str ::
            statements.map statement.call) = some w ∧ w.current_tags = [] := by
    intro statements h
    obtain ⟨-, -, -, -, hall⟩ := hshape statements h
    have hinit : ∃ w0, (xml_writer_t.mk_new sim.xml_file_str).apply
        (call.init_document sim.xml_stylesheet_file_str) = some w0 ∧
        w0.current_state ≠ state.NONE ∧ w0.current_tags = [] := by
      by_cases hs : sim.xml_stylesheet_file_str = "" <;>
        simp [xml_writer_t.apply, xml_writer_t.init_document, xml_writer_t.mk_new,
          xml_writer_t.printf, hs]
    obtain ⟨w0, hw0, hs0, ht0⟩ := hinit
    obtain ⟨w1, hw1, htags, -, -⟩ := run_statements statements w0 [] hs0 (by rw [ht0]; exact hall)
    exact ⟨w1, by rw [run_cons_some _ hw0, hw1], htags⟩
  refine ⟨⟨print_xml_config_balanced ext sim, print_xml_summary_balanced ext sim,
      print_xml_raid_events_balanced ext sim, print_xml_roster_balanced ext sim,
      print_xml_targets_balanced ext sim, print_xml_buffs_balanced ext sim,
      print_xml_hat_donors_balanced ext sim, print_xml_performance_balanced ext sim,
      print_xml_errors_balanced sim⟩, ?_, ?_, ?_, hshape, ?_, ?_⟩
  · intro p owner
    exact ⟨print_xml_player_balanced ext sim p owner, print_xml_player_stats_balanced ext p,
      print_xml_player_actions_balanced ext p, print_xml_player_buffs_balanced ext p,
      print_xml_player_uptime_balanced ext p, print_xml_player_procs_balanced ext p,
      print_xml_player_gains_balanced ext p, print_xml_player_scale_factors_balanced ext sim p,
      print_xml_player_dps_plots_balanced ext sim p, print_xml_player_charts_balanced p⟩
  · intro attribute_name initial gear buffed
    exact print_xml_player_attribute_balanced ext attribute_name initial gear buffed
  · intro cs w hbal hs
    obtain ⟨w1, hw1, htags, -, -⟩ := run_statements cs w w.current_tags hs (hbal _)
    exact ⟨w1, hw1, htags⟩
  · intro w h
    unfold print_xml at h
    split_ifs at h
    cases hst : print_xml_statements ext sim with
    | none => simp [hst] at h
    | some statements =>
        simp only [hst] at h
        obtain ⟨w1, hw1, htags⟩ := hrun statements hst
        rw [hw1, Option.some.injEq] at h
        rw [← h]
        exact htags
  · intro hp hl hf hsize
    have hst : ∃ statements, print_xml_statements ext sim = some statements := by
      simp [print_xml_statements, print_xml_roster, hsize]
    obtain ⟨statements, hst⟩ := hst
    obtain ⟨w1, hw1, -⟩ := hrun statements hst
    refine ⟨w1, ?_⟩
    unfold print_xml
    rw [if_neg (by simpa using hp), if_neg hl, if_neg hf]
    simp only [hst]
    exact hw1

/-! ## The chart and buff elements -/

lemma chart_href_block (kind type_value href : String) (c : Prop) [Decidable c]
    (rest : List statement) :
    chart_href kind
        ((if c then
            [statement.begin_tag "chart",
             statement.print_attribute "type" type_value,
             statement.print_attribute_unescaped "href" href,
             statement.end_tag (some "chart")]
          else []) ++ rest) =
      if c ∧ type_value = kind then some href else chart_href kind rest := by
  by_cases hc : c
  · by_cases hk : type_value = kind <;> simp [chart_href, hc, hk]
  · simp [hc]

lemma count_ite_statement (c : Prop) [Decidable c] (x : statement) (a b : List statement) :
    (if c then a else b).count x = if c then a.count x else b.count x := by
  split_ifs <;> rfl

/-- C22: `print_xml_player_charts` at a player whose `action_dpet_chart` is `dpet.png` and
whose `action_dmg_chart` is `dmg.png`: the `chart` element of type `dpet` is written with
the href `dmg.png`, the chart string of the kind `dmg`, and the text the writer
writes shows it; with an empty `action_dmg_chart` the href is empty.  For every
player and each of the eight kinds, one `chart` element of that type is written
when the chart string of the kind is not empty and none when it is empty; the
href is the chart string of the kind for the seven kinds `dmg`, `scaling_dps`,
`reforge_dps`, `scale_factors`, `timeline_dps`, `distribution_dps`, `time_spent`, and is
`action_dmg_chart` for the kind `dpet`. -/
theorem print_xml_player_charts_dpet_href :
    print_xml_player_charts { action_dpet_chart := "dpet.png", action_dmg_chart := "dmg.png" } =
      [statement.begin_tag "charts",
       statement.begin_tag "chart",
       statement.print_attribute "type" "dpet",
       statement.print_attribute_unescaped "href" "dmg.png",
       statement.end_tag (some "chart"),
       statement.begin_tag "chart",
       statement.print_attribute "type" "dmg",
       statement.print_attribute_unescaped "href" "dmg.png",
       statement.end_tag (some "chart"),
       statement.end_tag (some "charts")] ∧
    (xml_writer_t.mk_new "report.xml").run
        (call.init_document "" ::
          (print_xml_player_charts
            { action_dpet_chart := "dpet.png", action_dmg_chart := "dmg.png" }).map
            statement.call) =
      some { file := "<?xml version=\"1.0\" encoding=\"utf-8\"?>\n" ++
              "\n<charts>\n    <chart type=\"dpet\" href=\"dmg.png\"/>" ++
              "\n    <chart type=\"dmg\" href=\"dmg.png\"/>\n</charts>",
             current_tags := [], tabulation := "    ", current_state := state.TEXT,
             indentation := "" } ∧
    print_xml_player_charts { action_dpet_chart := "dpet.png" } =
      [statement.begin_tag "charts",
       statement.begin_tag "chart",
       statement.print_attribute "type" "dpet",
       statement.print_attribute_unescaped "href" "",
       statement.end_tag (some "chart"),
       statement.end_tag (some "charts")] ∧
    (∀ p : player_t,
      (print_xml_player_charts p).count (statement.print_attribute "type" "dpet") =
        (if p.action_dpet_chart ≠ "" then 1 else 0) ∧
      (print_xml_player_charts p).count (statement.print_attribute "type" "dmg") =
        (if p.action_dmg_chart ≠ "" then 1 else 0) ∧
      (print_xml_player_charts p).count (statement.print_attribute "type" "scaling_dps") =
        (if p.scaling_dps_chart ≠ "" then 1 else 0) ∧
      (print_xml_player_charts p).count (statement.print_attribute "type" "reforge_dps") =
        (if p.reforge_dps_chart ≠ "" then 1 else 0) ∧
      (print_xml_player_charts p).count (statement.print_attribute "type" "scale_factors") =
        (if p.scale_factors_chart ≠ "" then 1 else 0) ∧
      (print_xml_player_charts p).count (statement.print_attribute "type" "timeline_dps") =
        (if p.timeline_dps_chart ≠ "" then 1 else 0) ∧
      (print_xml_player_charts p).count (statement.print_attribute "type" "distribution_dps") =
        (if p.distribution_dps_chart ≠ "" then 1 else 0) ∧
      (print_xml_player_charts p).count (statement.print_attribute "type" "time_spent") =
        (if p.time_spent_chart ≠ "" then 1 else 0)) ∧
    (∀ p : player_t,
      chart_href "dpet" (print_xml_player_charts p) =
        (if p.action_dpet_chart ≠ "" then some p.action_dmg_chart else none) ∧
      chart_href "dmg" (print_xml_player_charts p) =
        (if p.action_dmg_chart ≠ "" then some p.action_dmg_chart else none) ∧
      chart_href "scaling_dps" (print_xml_player_charts p) =
        (if p.scaling_dps_chart ≠ "" then some p.scaling_dps_chart else none) ∧
      chart_href "reforge_dps" (print_xml_player_charts p) =
        (if p.reforge_dps_chart ≠ "" then some p.reforge_dps_chart else none) ∧
      chart_href "scale_factors" (print_xml_player_charts p) =
        (if p.scale_factors_chart ≠ "" then some p.scale_factors_chart else none) ∧
      chart_href "timeline_dps" (print_xml_player_charts p) =
        (if p.timeline_dps_chart ≠ "" then some p.timeline_dps_chart else none) ∧
      chart_href "distribution_dps" (print_xml_player_charts p) =
        (if p.distribution_dps_chart ≠ "" then some p.distribution_dps_chart else none) ∧
      chart_href "time_spent" (print_xml_player_charts p) =
        (if p.time_spent_chart ≠ "" then some p.time_spent_chart else none)) := by
  have h1 : print_xml_player_charts
      { action_dpet_chart := "dpet.png", action_dmg_chart := "dmg.png" } =
      [statement.begin_tag "charts",
       statement.begin_tag "chart",
       statement.print_attribute "type" "dpet",
       statement.print_attribute_unescaped "href" "dmg.png",
       statement.end_tag (some "chart"),
       statement.begin_tag "chart",
       statement.print_attribute "type" "dmg",
       statement.print_attribute_unescaped "href" "dmg.png",
       statement.end_tag (some "chart"),
       statement.end_tag (some "charts")] := by
    simp [print_xml_player_charts]
  have hhead : ∀ (kind : String) (rest : List statement),
      chart_href kind ([statement.begin_tag "charts"] ++ rest) = chart_href kind rest := by
    intro kind rest
    simp [chart_href]
  have hlast : ∀ kind : String, chart_href kind [statement.end_tag (some "charts")] = none := by
    intro kind
    simp [chart_href]
  refine ⟨h1, ?_, ?_, ?_, ?_⟩
  · rw [h1]
    simp only [List.map, statement.call, xml_writer_t.run, xml_writer_t.apply,
      xml_writer_t.init_document, xml_writer_t.begin_tag, xml_writer_t.end_tag,
      xml_writer_t.print_attribute, xml_writer_t.print_attribute_unescaped,
      xml_writer_t.printf, xml_writer_t.rebuild_indentation, xml_writer_t.mk_new,
      sanitize_eq_escape]
    decide
  · simp [print_xml_player_charts]
  · intro p
    refine ⟨?_, ?_, ?_, ?_, ?_, ?_, ?_, ?_⟩ <;>
      simp [print_xml_player_charts, List.count_append, count_ite_statement, List.count_cons,
        List.count_nil]
  · intro p
    refine ⟨?_, ?_, ?_, ?_, ?_, ?_, ?_, ?_⟩ <;>
      simp only [print_xml_player_charts, List.append_assoc, hhead, chart_href_block, hlast] <;>
      simp

/-- C23: `print_xml_buffs` at a simulation whose one buff is constant, has started, and
has a `trigger_pct` of `50`: the `buff` element is given the attribute `trigger` twice, once
for `avg_trigger_interval` and once for `trigger_pct`; so it is for every constant buff
that is written and has a `trigger_pct` strictly between `0` and `100`.  Both calls are
made while the start tag is open, where `print_attribute` writes the attribute.
The `buff` element `print_xml_player_buffs` writes carries each attribute name once,
for every buff. -/
theorem print_xml_buffs_trigger_twice (ext : externals) :
    print_xml_buffs ext
        { buff_list := [{ name := "b", start_count := 1, constant := true, trigger_pct := 50 }] } =
      [statement.begin_tag "buffs",
       statement.begin_tag "buff",
       statement.print_attribute "name" "b",
       statement.print_attribute "type" "constant",
       statement.print_attribute "start" (ext.to_string_precision 0 1),
       statement.print_attribute "refresh" (ext.to_string_precision 0 1),
       statement.print_attribute "interval" (ext.to_string_precision 0 1),
       statement.print_attribute "trigger" (ext.to_string_precision 0 1),
       statement.print_attribute "uptime" (ext.to_string_precision 0 0),
       statement.print_attribute "trigger" (ext.to_string 50),
       statement.end_tag (some "buff"),
       statement.end_tag (some "buffs")] ∧
    (∀ b : buff_t, b.quiet = false → b.start_count ≠ 0 → b.constant = true →
      0 < b.trigger_pct → b.trigger_pct < 100 →
      (attribute_names (print_xml_buffs ext { buff_list := [b] })).count "trigger" = 2 ∧
      ¬ (attribute_names (print_xml_buffs ext { buff_list := [b] })).Nodup) ∧
    (∀ (w : xml_writer_t) (name value : String), w.current_state = state.TAG →
      w.print_attribute name value =
        some (w.printf (" " ++ name ++ "=\"" ++ sanitize value ++ "\""))) ∧
    (∀ b : buff_t, (attribute_names (print_xml_player_buffs ext { buff_list := [b] })).Nodup) := by
  refine ⟨?_, ?_, ?_, ?_⟩
  · simp [print_xml_buffs]
    norm_num
  · intro b hq hs hc h0 h100
    have hcount : (attribute_names (print_xml_buffs ext { buff_list := [b] })).count "trigger" =
        2 := by
      by_cases hb : b.benefit_pct > 0 ∧ b.benefit_pct < 100 <;>
        simp [print_xml_buffs, attribute_names, hq, hs, hc, h0, h100, hb]
    refine ⟨hcount, ?_⟩
    intro hnd
    have := List.nodup_iff_count_le_one.mp hnd "trigger"
    omega
  · intro w name value hs
    simp [xml_writer_t.print_attribute, hs]
  · intro b
    by_cases hskip : b.quiet = true ∨ b.start_count = 0
    · simp [print_xml_player_buffs, attribute_names, hskip]
    · by_cases hc : b.constant = true
      · by_cases hb : b.benefit_pct > 0 ∧ b.benefit_pct < 100 <;>
          simp [print_xml_player_buffs, attribute_names, hskip, hc, hb]
      · simp [print_xml_player_buffs, attribute_names, hskip, hc]

/-! ## Every occurrence replaced -/

/-- C24: `replace_entity` is defined for every string `str`, character `old_value` and
replacement `new_value` (its loop is a well-founded recursion: each turn leaves
fewer characters after `pos`), and on return `str` is the original string with every
occurrence of `old_value` replaced by `new_value`, every other character kept, in
order.  A replacement that contains `old_value` is not searched again
(`&` to `&amp;`), and the empty replacement deletes the occurrences. -/
theorem replace_entity_replaces_all (str : String) (old_value : Char) (new_value : String) :
    (replace_entity str old_value new_value).data =
      str.data.flatMap (fun c => if c = old_value then new_value.data else [c]) ∧
    (old_value ∉ str.data → replace_entity str old_value new_value = str) ∧
    (replace_entity str old_value new_value).length =
      str.length - str.data.count old_value + str.data.count old_value * new_value.length ∧
    replace_entity "a&b&&" '&' "&amp;" = "a&amp;b&amp;&amp;" ∧
    replace_entity "a&b&&" '&' "" = "ab" ∧
    replace_entity "a&b&&" '&' "&&" = "a&&b&&&&" := by
  have h := replace_entity_eq str old_value new_value
  have hd : (replace_entity str old_value new_value).data =
      str.data.flatMap (fun c => if c = old_value then new_value.data else [c]) := by
    rw [h]; rfl
  have hlen : ∀ l : List Char,
      (l.flatMap (fun c => if c = old_value then new_value.data else [c])).length =
        l.length - l.count old_value + l.count old_value * new_value.data.length := by
    intro l
    induction l with
    | nil => simp
    | cons x xs ih =>
        have hc := List.count_le_length old_value xs
        by_cases hx : x = old_value
        · subst hx
          simp only [List.flatMap_cons, if_true, List.length_append, ih, List.count_cons_self,
            List.length_cons]
          rw [Nat.add_mul]
          omega
        · have hcount : (x :: xs).count old_value = xs.count old_value := by
            simp [List.count_cons, hx]
          simp only [List.flatMap_cons, if_neg hx, List.length_append, ih, List.length_cons,
            List.length_nil, hcount]
          omega
  refine ⟨hd, ?_, ?_, ?_, ?_, ?_⟩
  · intro hn
    apply String.ext
    rw [hd]
    have : ∀ l : List Char, old_value ∉ l →
        l.flatMap (fun c => if c = old_value then new_value.data else [c]) = l := by
      intro l
      induction l with
      | nil => simp
      | cons x xs ih =>
          intro hl
          simp only [List.mem_cons, not_or] at hl
          rw [List.flatMap_cons, ih hl.2, if_neg (fun hx => hl.1 hx.symm)]
          rfl
    exact this _ hn
  · show (replace_entity str old_value new_value).data.length = _
    rw [hd, hlen]
    rfl
  · rw [replace_entity_eq]; decide
  · rw [replace_entity_eq]; decide
  · rw [replace_entity_eq]; decide

/-! ## Indentation -/

/-- One call keeps the tabulation, and keeps the indentation equal to the
tabulation repeated once for every open tag. -/
lemma apply_indentation (w w1 : xml_writer_t) (c : call)
    (hw : w.indentation = indent_of w.tabulation w.current_tags.length)
    (h : w.apply c = some w1) :
    w1.tabulation = w.tabulation ∧
      w1.indentation = indent_of w1.tabulation w1.current_tags.length := by
  cases c with
  | init_document s =>
      simp only [xml_writer_t.apply, xml_writer_t.init_document] at h
      split_ifs at h <;> simp only [Option.some.injEq] at h <;> subst h <;>
        simp [xml_writer_t.printf, hw]
  | begin_tag tag =>
      simp only [xml_writer_t.apply, xml_writer_t.begin_tag] at h
      split_ifs at h <;> simp only [Option.some.injEq] at h <;> subst h <;>
        simp [xml_writer_t.printf, xml_writer_t.rebuild_indentation]
  | end_tag =>
      simp only [xml_writer_t.apply, xml_writer_t.end_tag] at h
      split_ifs at h
      cases ht : w.current_tags with
      | nil => simp [ht] at h
      | cons t rest =>
          simp only [ht, Option.some.injEq] at h
          subst h
          split_ifs <;> simp [xml_writer_t.printf, xml_writer_t.rebuild_indentation]
  | print_attribute name value =>
      simp only [xml_writer_t.apply, xml_writer_t.print_attribute] at h
      split_ifs at h <;> simp only [Option.some.injEq] at h <;> subst h <;>
        simp [xml_writer_t.printf, hw]
  | print_attribute_unescaped name value =>
      simp only [xml_writer_t.apply, xml_writer_t.print_attribute_unescaped] at h
      split_ifs at h <;> simp only [Option.some.injEq] at h <;> subst h <;>
        simp [xml_writer_t.printf, hw]
  | print_tag name inner_value =>
      simp only [xml_writer_t.apply, xml_writer_t.print_tag] at h
      split_ifs at h <;> simp only [Option.some.injEq] at h <;> subst h <;>
        simp [xml_writer_t.printf, hw]
  | print_text input =>
      simp only [xml_writer_t.apply, xml_writer_t.print_text] at h
      split_ifs at h <;> simp only [Option.some.injEq] at h <;> subst h <;>
        simp [xml_writer_t.printf, hw]

lemma run_indentation (cs : List call) :
    ∀ (w w1 : xml_writer_t),
      w.indentation = indent_of w.tabulation w.current_tags.length → w.run cs = some w1 →
      w1.tabulation = w.tabulation ∧
        w1.indentation = indent_of w1.tabulation w1.current_tags.length := by
  induction cs with
  | nil =>
      intro w w1 hw h
      simp only [xml_writer_t.run, Option.some.injEq] at h
      subst h
      exact ⟨rfl, hw⟩
  | cons c cs ih =>
      intro w w1 hw h
      unfold xml_writer_t.run at h
      cases hc : w.apply c with
      | none => simp [hc] at h
      | some w2 =>
          simp only [hc] at h
          obtain ⟨ht2, hi2⟩ := apply_indentation w w2 c hw hc
          obtain ⟨ht1, hi1⟩ := ih w2 w1 hi2 h
          exact ⟨ht1.trans ht2, hi1⟩

/-- C25: a writer that has been constructed and has then made any sequence of the
calls `init_document`, `begin_tag`, `end_tag`, `print_attribute`,
`print_attribute_unescaped`, `print_tag`, `print_text` (none failing, the tabulation
never set) has the tabulation of the constructor and an indentation equal to the
tabulation repeated once for every tag on the stack.  Consequently `begin_tag( t )`
writes `<t` after the tabulation repeated once for every tag open before the call,
and the `end_tag` that later closes this `t` from the state `TEXT`, which finds `t` on
top of the same tags, writes `</t>` after the tabulation repeated as many times. -/
theorem indentation_follows_open_tags (filename : String) (cs : List call)
    (w : xml_writer_t) (h : (xml_writer_t.mk_new filename).run cs = some w) :
    w.tabulation = "    " ∧
    w.indentation = indent_of w.tabulation w.current_tags.length ∧
    (∀ (t : String) (w1 : xml_writer_t), w.begin_tag t = some w1 →
      w1.current_tags = t :: w.current_tags ∧
      w1.file = w.file ++ (if w.current_state = state.TEXT then "" else ">") ++ "\n" ++
        indent_of "    " w.current_tags.length ++ "<" ++ t) ∧
    (∀ (t : String) (rest : List String), w.current_tags = t :: rest →
      w.current_state = state.TEXT →
      ∃ w1, w.end_tag = some w1 ∧ w1.current_tags = rest ∧
        w1.file = w.file ++ "\n" ++ indent_of "    " rest.length ++ "</" ++ t ++ ">") := by
  obtain ⟨htab, hind⟩ := run_indentation cs (xml_writer_t.mk_new filename) w
    (by simp [xml_writer_t.mk_new, indent_of]) h
  have htab1 : w.tabulation = "    " := htab
  refine ⟨htab1, hind, ?_, ?_⟩
  · intro t w1 hb
    unfold xml_writer_t.begin_tag at hb
    split_ifs at hb with h1 h2
    · simp only [Option.some.injEq] at hb
      subst hb
      simp [xml_writer_t.printf, xml_writer_t.rebuild_indentation, h2, hind, htab1,
        String.append_assoc]
      rw [← String.append_assoc ">" "\n"]
      rfl
    · simp only [Option.some.injEq] at hb
      subst hb
      have h3 : w.current_state = state.TEXT := by simpa using h2
      simp [xml_writer_t.printf, xml_writer_t.rebuild_indentation, h3, hind, htab1,
        String.append_assoc]
  · intro t rest ht hs
    simp [xml_writer_t.end_tag, xml_writer_t.printf, xml_writer_t.rebuild_indentation, hs, ht,
      htab1, String.append_assoc]

/-- Witness for C25: after `init_document( "" )`, `begin_tag( "a" )`, `begin_tag( "b" )` two
tags are open and the indentation is the tabulation twice. -/
theorem indentation_follows_open_tags_witness :
    (xml_writer_t.mk_new "report.xml").run
        [call.init_document "", call.begin_tag "a", call.begin_tag "b"] =
      some { file := "<?xml version=\"1.0\" encoding=\"utf-8\"?>\n" ++ "\n<a>\n    <b",
             current_tags := ["b", "a"], tabulation := "    ", current_state := state.TAG,
             indentation := "        " } ∧
    "        " = indent_of "    " 2 := by
  have hrun : (xml_writer_t.mk_new "report.xml").run
      [call.init_document "", call.begin_tag "a", call.begin_tag "b"] =
      some { file := "<?xml version=\"1.0\" encoding=\"utf-8\"?>\n" ++ "\n<a>\n    <b",
             current_tags := ["b", "a"], tabulation := "    ", current_state := state.TAG,
             indentation := "        " } := by
    decide
  exact ⟨hrun, (indentation_follows_open_tags "report.xml" _ _ hrun).2.1⟩

end report_xml
